import Mathlib

/-! The MMC/SD block driver of `FatFs/diskio.c` (PIC16F_MMC).

A shallow embedding of the driver in `src/FatFs/diskio.c`.

* The card is a response stream `card : Nat → Nat`: the byte clocked in by the
  `k`-th SPI exchange since power-on is `card k % 256`.  Every function that
  talks to the bus takes the stream as its first argument.
* The driver state `MMC` holds the three globals of the file (`DiskStat`,
  `ejected`, `CardType`), the chip-select latch, the presence pin and its
  interrupt-on-change flag, the number of exchanges done so far (`pos`) and the
  list of bytes clocked out so far (`tx`, oldest first).
* `BYTE` is 8 bits, `WORD` and `UINT` are 16 bits, `DWORD` and `LBA_t` are
  32 bits (XC8 for the PIC16F family); they are natural numbers reduced
  modulo `2 ^ w` at the places where the C code can wrap.
* A buffer written through a pointer is modelled by the list of bytes stored
  through it, in address order; a buffer read through a pointer is a function
  from offsets to bytes.
* Port-direction, pull-up, PPS and SSP configuration registers are written but
  never read by the driver and are left out; so are the delays and the access
  lamp.
* `MMC_SendSPI` is one step of the stream model: its wait for the
  transfer-complete flag (`SSP2STATbits.BF`) is taken as ended.  The functions
  with the suffix `_bf` follow the bus functions behind `disk_initialize` with
  that wait in place, the flag being read from the peripheral.
-/

namespace PIC16F_MMC

/-! ## Constants -/

/-- GO_IDLE_STATE -/
def CMD0 : Nat := 0
/-- SEND_OP_COND (MMC) -/
def CMD1 : Nat := 1
/-- SEND_OP_COND (SDC) -/
def ACMD41 : Nat := 0x80 + 41
/-- SEND_IF_COND -/
def CMD8 : Nat := 8
/-- SEND_CSD -/
def CMD9 : Nat := 9
/-- SEND_CID -/
def CMD10 : Nat := 10
/-- STOP_TRANSMISSION -/
def CMD12 : Nat := 12
/-- SD_STATUS (SDC) -/
def ACMD13 : Nat := 0x80 + 13
/-- SET_BLOCKLEN -/
def CMD16 : Nat := 16
/-- READ_SINGLE_BLOCK -/
def CMD17 : Nat := 17
/-- READ_MULTIPLE_BLOCK -/
def CMD18 : Nat := 18
/-- SET_BLOCK_COUNT (MMC) -/
def CMD23 : Nat := 23
/-- SET_WR_BLK_ERASE_COUNT (SDC) -/
def ACMD23 : Nat := 0x80 + 23
/-- WRITE_BLOCK -/
def CMD24 : Nat := 24
/-- WRITE_MULTIPLE_BLOCK -/
def CMD25 : Nat := 25
/-- APP_CMD -/
def CMD55 : Nat := 55
/-- READ_OCR -/
def CMD58 : Nat := 58

/-- MMC ver 3 -/
def CT_MMC : Nat := 0x01
/-- SD ver 1 -/
def CT_SD1 : Nat := 0x02
/-- SD ver 2 -/
def CT_SD2 : Nat := 0x04
/-- SD -/
def CT_SDC : Nat := CT_SD1 ||| CT_SD2
/-- Block addressing -/
def CT_BLOCK : Nat := 0x08

/-- Physical drive number of the card (`diskio_hardware.h`). -/
def DEV_MMC : Nat := 0

/-- Modelled from the spec: `diskio.h` is not among the sources; the status
word is a set of bit flags, and this is the `Uninitialized` flag, with the bit
FatFs assigns to it. -/
def STA_NOINIT : Nat := 0x01
/-- Modelled from the spec: `diskio.h` is not among the sources; the `NoMedia`
flag of the status word, with the bit FatFs assigns to it. -/
def STA_NODISK : Nat := 0x02
/-- Modelled from the spec: `diskio.h` is not among the sources; the
`WriteProtected` flag of the status word, with the bit FatFs assigns to it. -/
def STA_PROTECT : Nat := 0x04

/-- Modelled from the spec: `diskio.h` is not among the sources; the result
codes of the disk functions (success, transfer error, write protected, not
ready, parameter error). -/
inductive DRESULT where
  | RES_OK
  | RES_ERROR
  | RES_WRPRT
  | RES_NOTRDY
  | RES_PARERR
deriving DecidableEq, Repr

open DRESULT

/-- Modelled from the spec: `diskio.h` is not among the sources; the opcode of
the sync query. -/
def CTRL_SYNC : Nat := 0
/-- Modelled from the spec: `diskio.h` is not among the sources; the opcode of
the sector-count query. -/
def GET_SECTOR_COUNT : Nat := 1
/-- Modelled from the spec: `diskio.h` is not among the sources; the opcode of
the sector-size query. -/
def GET_SECTOR_SIZE : Nat := 2
/-- Modelled from the spec: `diskio.h` is not among the sources; the opcode of
the erase-block-size query. -/
def GET_BLOCK_SIZE : Nat := 3

/-! ## State -/

/-- The globals of `diskio.c` together with the pins and the bus history. -/
structure MMC where
  /-- `DiskStat`: the status word. -/
  DiskStat : Nat
  /-- The flag `ejected`. -/
  ejected : Bool
  /-- `CardType`: the detected card type flags. -/
  CardType : Nat
  /-- `MMC_CS`, the chip-select latch: `true` is line high, card deselected. -/
  MMC_CS : Bool
  /-- `MMC_INS_PORT`, the presence pin: low (`false`) when a card is inserted. -/
  MMC_INS_PORT : Bool
  /-- `MMC_INS_IOCF`, the interrupt-on-change flag of the presence pin. -/
  MMC_INS_IOCF : Bool
  /-- Number of SPI exchanges done so far. -/
  pos : Nat
  /-- Bytes clocked out so far, oldest first. -/
  tx : List Nat
deriving DecidableEq, Repr

/-- The state the static initialisers of `diskio.c` give at power-on, for any
pin levels. -/
def powerOn (cs ins iocf : Bool) : MMC :=
  { DiskStat := STA_NOINIT, ejected := false, CardType := 0,
    MMC_CS := cs, MMC_INS_PORT := ins, MMC_INS_IOCF := iocf, pos := 0, tx := [] }

/-- `MMC_IsInserted()`: the presence pin is active low. -/
def MMC_IsInserted (s : MMC) : Bool := !s.MMC_INS_PORT

/-! ## Presence tracking -/

/-- `MMC_Init` -/
def MMC_Init (s : MMC) : MMC :=
  let s1 := { s with MMC_INS_IOCF := false }
  if MMC_IsInserted s1 then
    { s1 with CardType := 0, DiskStat := STA_NOINIT }
  else
    { s1 with CardType := 0, DiskStat := STA_NOINIT ||| STA_NODISK }

/-- `MMC_Interrupt` -/
def MMC_Interrupt (s : MMC) : MMC :=
  if s.MMC_INS_IOCF then
    let s1 :=
      if MMC_IsInserted s then
        { s with CardType := 0, DiskStat := STA_NOINIT }
      else
        { s with CardType := 0, DiskStat := STA_NOINIT ||| STA_NODISK, ejected := false }
    { s1 with MMC_INS_IOCF := false }
  else s

/-- `MMC_Eject` -/
def MMC_Eject (s : MMC) : MMC :=
  { s with DiskStat := STA_NOINIT ||| STA_NODISK, ejected := true }

/-- `MMC_IsEjected` -/
def MMC_IsEjected (s : MMC) : Bool := s.ejected

/-! ## Byte transport -/

/-- `MMC_SendSPI`: one full-duplex exchange; `d` goes out, the next byte of the
card's stream comes in.  The wait for the transfer-complete flag between the
write and the read of `SSP2BUF` is taken as ended; `MMC_SendSPI_bf` follows it. -/
def MMC_SendSPI (card : Nat → Nat) (d : Nat) (s : MMC) : Nat × MMC :=
  (card s.pos % 256, { s with pos := s.pos + 1, tx := s.tx ++ [d % 256] })

/-- `MMC_ReceiveBytesSPI`: the `cnt` bytes stored through `ptr`, in order. -/
def MMC_ReceiveBytesSPI (card : Nat → Nat) : Nat → MMC → List Nat × MMC
  | 0, s => ([], s)
  | cnt + 1, s =>
    let r := MMC_SendSPI card 0xFF s
    let rest := MMC_ReceiveBytesSPI card cnt r.2
    (r.1 :: rest.1, rest.2)

/-- `MMC_SendBytesSPI`: sends `cnt` bytes read from `p`, starting at offset `off`. -/
def MMC_SendBytesSPI (card : Nat → Nat) (p : Nat → Nat) : Nat → Nat → MMC → MMC
  | _, 0, s => s
  | off, cnt + 1, s =>
    MMC_SendBytesSPI card p (off + 1) cnt (MMC_SendSPI card (p off) s).2

/-- The `while(wt--)` loop of `MMC_wait_ready`. -/
def MMC_wait_ready_loop (card : Nat → Nat) : Nat → MMC → Nat × MMC
  | 0, s => (0, s)
  | wt + 1, s =>
    let r := MMC_SendSPI card 0xFF s
    if r.1 = 0xFF then (1, r.2) else MMC_wait_ready_loop card wt r.2

/-- `MMC_wait_ready`: 1 when the card released the line, 0 on timeout. -/
def MMC_wait_ready (card : Nat → Nat) (wt : Nat) (s : MMC) : Nat × MMC :=
  MMC_wait_ready_loop card ((wt * 10) % 65536) s

/-- `MMC_deselect` -/
def MMC_deselect (card : Nat → Nat) (s : MMC) : MMC :=
  (MMC_SendSPI card 0xFF { s with MMC_CS := true }).2

/-- `MMC_select`: 1 successful, 0 timeout. -/
def MMC_select (card : Nat → Nat) (s : MMC) : Nat × MMC :=
  let s1 := (MMC_SendSPI card 0xFF { s with MMC_CS := false }).2
  let r := MMC_wait_ready card 500 s1
  if r.1 ≠ 0 then (1, r.2) else (0, MMC_deselect card r.2)

/-! ## Command layer -/

/-- The response loop `do { res = MMC_SendSPI(0xFF); } while ((res & 0x80) && --n)`
entered with counter `n + 1`. -/
def MMC_response_loop (card : Nat → Nat) : Nat → MMC → Nat × MMC
  | 0, s => MMC_SendSPI card 0xFF s
  | n + 1, s =>
    let r := MMC_SendSPI card 0xFF s
    if r.1 &&& 0x80 ≠ 0 then MMC_response_loop card n r.2 else r

/-- The checksum byte chosen by `MMC_send_cmd_internal`. -/
def cmd_crc (cmd : Nat) : Nat :=
  if cmd = CMD0 then 0x95 else if cmd = CMD8 then 0x87 else 0x01

/-- The six bytes of a command frame, as `MMC_send_cmd_internal` sends them. -/
def cmd_frame (cmd arg : Nat) : List Nat :=
  [(0x40 ||| cmd) % 256, (arg >>> 24) % 256, (arg >>> 16) % 256, (arg >>> 8) % 256,
   arg % 256, cmd_crc cmd]

/-- `MMC_send_cmd_internal` -/
def MMC_send_cmd_internal (card : Nat → Nat) (cmd arg : Nat) (s : MMC) : Nat × MMC :=
  let sel := MMC_select card (MMC_deselect card s)
  if sel.1 = 0 then (0xFF, sel.2)
  else
    let s1 := (MMC_SendSPI card (0x40 ||| cmd) sel.2).2
    let s2 := (MMC_SendSPI card ((arg >>> 24) % 256) s1).2
    let s3 := (MMC_SendSPI card ((arg >>> 16) % 256) s2).2
    let s4 := (MMC_SendSPI card ((arg >>> 8) % 256) s3).2
    let s5 := (MMC_SendSPI card (arg % 256) s4).2
    let s6 := (MMC_SendSPI card (cmd_crc cmd) s5).2
    let s7 := if cmd = CMD12 then (MMC_SendSPI card 0xFF s6).2 else s6
    MMC_response_loop card 9 s7

/-- `MMC_send_cmd` -/
def MMC_send_cmd (card : Nat → Nat) (cmd arg : Nat) (s : MMC) : Nat × MMC :=
  if cmd &&& 0x80 ≠ 0 then
    let r := MMC_send_cmd_internal card CMD55 0 s
    if r.1 > 1 then r else MMC_send_cmd_internal card (cmd &&& 0x7F) arg r.2
  else MMC_send_cmd_internal card cmd arg s

/-! ## Data packets -/

/-- The token poll of `MMC_ReceiveDataBlock`: up to `n` exchanges, leaving at the
first byte other than 0xFF; `token` is the value the local holds on entry. -/
def MMC_token_loop (card : Nat → Nat) : Nat → Nat → MMC → Nat × MMC
  | 0, token, s => (token, s)
  | n + 1, _, s =>
    let r := MMC_SendSPI card 0xFF s
    if r.1 ≠ 0xFF then r else MMC_token_loop card n r.1 r.2

/-- `MMC_ReceiveDataBlock`: the result (1 success, 0 error), the bytes stored
through `buff`, and the state. -/
def MMC_ReceiveDataBlock (card : Nat → Nat) (btr : Nat) (s : MMC) : Nat × List Nat × MMC :=
  let t := MMC_token_loop card 2000 0 s
  if t.1 ≠ 0xFE then (0, [], t.2)
  else
    let d := MMC_ReceiveBytesSPI card btr t.2
    let s1 := (MMC_SendSPI card 0xFF d.2).2
    let s2 := (MMC_SendSPI card 0xFF s1).2
    (1, d.1, s2)

/-- `MMC_SendDataBlock`: sends the 512 bytes of `buff` at offset `off` behind
`token` (nothing but the token when it is 0xFD). -/
def MMC_SendDataBlock (card : Nat → Nat) (buff : Nat → Nat) (off token : Nat) (s : MMC) :
    Nat × MMC :=
  let w := MMC_wait_ready card 500 s
  if w.1 = 0 then (0, w.2)
  else
    let s1 := (MMC_SendSPI card token w.2).2
    if token ≠ 0xFD then
      let s2 := MMC_SendBytesSPI card buff off 512 s1
      let s3 := (MMC_SendSPI card 0xFF s2).2
      let s4 := (MMC_SendSPI card 0xFF s3).2
      let resp := MMC_SendSPI card 0xFF s4
      if resp.1 &&& 0x1F ≠ 0x05 then (0, resp.2) else (1, resp.2)
    else (1, s1)

/-! ## Disk functions -/

/-- `disk_status` -/
def disk_status (pdrv : Nat) (s : MMC) : Nat :=
  if pdrv ≠ DEV_MMC then STA_NOINIT else s.DiskStat

/-- The polling loop `for(tmr = 1000; tmr; tmr--)` of `disk_initialize`, sending
`cmd` with `arg` until the response is 0: the value of `tmr` on leaving the loop,
and the state. -/
def MMC_idle_loop (card : Nat → Nat) (cmd arg : Nat) : Nat → MMC → Nat × MMC
  | 0, s => (0, s)
  | tmr + 1, s =>
    let r := MMC_send_cmd card cmd arg s
    if r.1 = 0 then (tmr + 1, r.2) else MMC_idle_loop card cmd arg tmr r.2

/-- The loop `for(n = 0; n < 4; n++) ocr[n] = MMC_SendSPI(0xFF)`. -/
def MMC_receive_ocr (card : Nat → Nat) (s : MMC) : List Nat × MMC :=
  let r0 := MMC_SendSPI card 0xFF s
  let r1 := MMC_SendSPI card 0xFF r0.2
  let r2 := MMC_SendSPI card 0xFF r1.2
  let r3 := MMC_SendSPI card 0xFF r2.2
  ([r0.1, r1.1, r2.1, r3.1], r3.2)

/-- The loop `for (n = k; n; n--) MMC_SendSPI(0xFF)`. -/
def MMC_dummy_clocks (card : Nat → Nat) : Nat → MMC → MMC
  | 0, s => s
  | n + 1, s => MMC_dummy_clocks card n (MMC_SendSPI card 0xFF s).2

/-- The branch `SDv2?` of `disk_initialize`, entered when CMD8 answered 1: the
value of `ty`, and the state. -/
def MMC_identify_sd2 (card : Nat → Nat) (s : MMC) : Nat × MMC :=
  let ocr := MMC_receive_ocr card s
  if ocr.1.getD 2 0 = 0x01 ∧ ocr.1.getD 3 0 = 0xAA then
    let w := MMC_idle_loop card ACMD41 (2 ^ 30) 1000 ocr.2
    if w.1 ≠ 0 then
      let c58 := MMC_send_cmd card CMD58 0 w.2
      if c58.1 = 0 then
        let ocr2 := MMC_receive_ocr card c58.2
        (if ocr2.1.getD 0 0 &&& 0x40 ≠ 0 then CT_SD2 ||| CT_BLOCK else CT_SD2, ocr2.2)
      else (0, c58.2)
    else (0, w.2)
  else (0, ocr.2)

/-- The branch `SDv1 or MMCv3` of `disk_initialize`, entered when CMD8 did not
answer 1: the value of `ty`, and the state. -/
def MMC_identify_sd1 (card : Nat → Nat) (s : MMC) : Nat × MMC :=
  let a := MMC_send_cmd card ACMD41 0 s
  let ty := if a.1 ≤ 1 then CT_SD1 else CT_MMC
  let cmd := if a.1 ≤ 1 then ACMD41 else CMD1
  let w := MMC_idle_loop card cmd 0 1000 a.2
  if w.1 = 0 then (0, w.2)
  else
    let c16 := MMC_send_cmd card CMD16 512 w.2
    (if c16.1 ≠ 0 then 0 else ty, c16.2)

/-- The card identification of `disk_initialize` (from `ty = 0` to the
assignment `CardType = ty`): the value of `ty`, and the state. -/
def MMC_identify (card : Nat → Nat) (s : MMC) : Nat × MMC :=
  let c0 := MMC_send_cmd card CMD0 0 s
  if c0.1 = 1 then
    let c8 := MMC_send_cmd card CMD8 0x1AA c0.2
    if c8.1 = 1 then MMC_identify_sd2 card c8.2 else MMC_identify_sd1 card c8.2
  else (0, c0.2)

/-- `disk_initialize`: the returned status, and the state. -/
def disk_initialize (card : Nat → Nat) (pdrv : Nat) (s : MMC) : Nat × MMC :=
  if pdrv ≠ DEV_MMC then (STA_NOINIT, s)
  else if s.DiskStat &&& STA_NODISK ≠ 0 then (s.DiskStat, s)
  else
    let s1 := MMC_dummy_clocks card 10 s
    let i := MMC_identify card s1
    let s2 := MMC_deselect card { i.2 with CardType := i.1 }
    let s3 :=
      if i.1 ≠ 0 then { s2 with DiskStat := s2.DiskStat &&& (0xFF ^^^ STA_NOINIT) } else s2
    (s3.DiskStat, s3)

/-- The argument of a read or write command: `sector *= 512` in 32 bits unless
the card is block addressed. -/
def sector_arg (s : MMC) (sector : Nat) : Nat :=
  if s.CardType &&& CT_BLOCK = 0 then (sector * 512) % 2 ^ 32 else sector

/-- The loop `do { ... } while (--count)` of the multiple block read: the value
of `count` on leaving it, the bytes stored through `buff`, and the state. -/
def MMC_read_blocks (card : Nat → Nat) : Nat → MMC → Nat × List Nat × MMC
  | 0, s => (0, [], s)
  | count + 1, s =>
    let b := MMC_ReceiveDataBlock card 512 s
    if b.1 = 0 then (count + 1, [], b.2.2)
    else
      let rest := MMC_read_blocks card count b.2.2
      (rest.1, b.2.1 ++ rest.2.1, rest.2.2)

/-- `disk_read`: the result, the bytes stored through `buff` in address order,
and the state. -/
def disk_read (card : Nat → Nat) (pdrv sector count : Nat) (s : MMC) :
    DRESULT × List Nat × MMC :=
  if pdrv ≠ DEV_MMC ∨ count = 0 then (RES_PARERR, [], s)
  else if s.DiskStat &&& STA_NOINIT ≠ 0 then (RES_NOTRDY, [], s)
  else if count = 1 then
    let c := MMC_send_cmd card CMD17 (sector_arg s sector) s
    if c.1 = 0 then
      let b := MMC_ReceiveDataBlock card 512 c.2
      (if b.1 ≠ 0 then RES_OK else RES_ERROR, b.2.1, MMC_deselect card b.2.2)
    else (RES_ERROR, [], MMC_deselect card c.2)
  else
    let c := MMC_send_cmd card CMD18 (sector_arg s sector) s
    if c.1 = 0 then
      let l := MMC_read_blocks card count c.2
      let stop := MMC_send_cmd card CMD12 0 l.2.2
      (if l.1 > 0 then RES_ERROR else RES_OK, l.2.1, MMC_deselect card stop.2)
    else (RES_ERROR, [], MMC_deselect card c.2)

/-- The loop `do { ... } while (--count)` of the multiple block write, reading
`buff` from offset `off`: the value of `count` on leaving it, and the state. -/
def MMC_write_blocks (card : Nat → Nat) (buff : Nat → Nat) : Nat → Nat → MMC → Nat × MMC
  | _, 0, s => (0, s)
  | off, count + 1, s =>
    let b := MMC_SendDataBlock card buff off 0xFC s
    if b.1 = 0 then (count + 1, b.2)
    else MMC_write_blocks card buff (off + 512) count b.2

/-- `disk_write`: the result, and the state. -/
def disk_write (card : Nat → Nat) (pdrv : Nat) (buff : Nat → Nat) (sector count : Nat)
    (s : MMC) : DRESULT × MMC :=
  if pdrv ≠ DEV_MMC ∨ count = 0 then (RES_PARERR, s)
  else if s.DiskStat &&& STA_NOINIT ≠ 0 then (RES_NOTRDY, s)
  else if s.DiskStat &&& STA_PROTECT ≠ 0 then (RES_WRPRT, s)
  else if count = 1 then
    let c := MMC_send_cmd card CMD24 (sector_arg s sector) s
    if c.1 = 0 then
      let b := MMC_SendDataBlock card buff 0 0xFE c.2
      (if b.1 ≠ 0 then RES_OK else RES_ERROR, MMC_deselect card b.2)
    else (RES_ERROR, MMC_deselect card c.2)
  else
    let s0 := if s.CardType &&& CT_SDC ≠ 0 then (MMC_send_cmd card ACMD23 count s).2 else s
    let c := MMC_send_cmd card CMD25 (sector_arg s sector) s0
    if c.1 = 0 then
      let l := MMC_write_blocks card buff 0 count c.2
      let stop := MMC_SendDataBlock card buff 0 0xFD l.2
      (if (if stop.1 = 0 then 1 else l.1) ≠ 0 then RES_ERROR else RES_OK,
        MMC_deselect card stop.2)
    else (RES_ERROR, MMC_deselect card c.2)

/-- A left shift of a 32-bit unsigned value by a signed count.  C leaves a
negative count undefined; the model yields 0 there. -/
def shl32 (x : Nat) (k : Int) : Nat :=
  if k < 0 then 0 else (x <<< k.toNat) % 2 ^ 32

/-- The sector count `disk_ioctl` decodes from the 16 bytes of the
card-description register. -/
def csd_sector_count (csd : List Nat) : Nat :=
  let b := fun i => csd.getD i 0
  if b 0 >>> 6 = 1 then
    let csize :=
      ((b 9 + (b 8 <<< 8) % 2 ^ 16) % 2 ^ 16 + ((b 7 &&& 63) <<< 16) % 2 ^ 32 + 1) % 2 ^ 32
    (csize <<< 10) % 2 ^ 32
  else
    let n := ((b 5 &&& 15) + ((b 10 &&& 128) >>> 7) + ((b 9 &&& 3) <<< 1) + 2) % 256
    let csize := ((b 8 >>> 6) + (b 7 <<< 2) % 2 ^ 16 + ((b 6 &&& 3) <<< 10) % 2 ^ 16 + 1) % 2 ^ 16
    shl32 csize ((n : Int) - 9)

/-- The erase block size `disk_ioctl` decodes from the first 16 bytes of the
SD status block (SD version 2). -/
def sdstat_block_size (csd : List Nat) : Nat :=
  shl32 16 ((csd.getD 10 0 >>> 4 : Nat) : Int)

/-- The erase block size `disk_ioctl` decodes from the card-description
register of an SD version 1 card (`sd1 = true`) or an MMC. -/
def csd_block_size (sd1 : Bool) (csd : List Nat) : Nat :=
  let b := fun i => csd.getD i 0
  if sd1 then
    shl32 ((((b 10 &&& 63) <<< 1) % 2 ^ 16 + (b 11 &&& 128) >>> 7 + 1) % 2 ^ 16)
      (((b 13 >>> 6 : Nat) : Int) - 1)
  else
    ((((b 10 &&& 124) >>> 2 + 1) % 2 ^ 32) *
      ((((b 11 &&& 3) <<< 3) + ((b 11 &&& 224) >>> 5) + 1) % 256)) % 2 ^ 32

/-- `disk_ioctl`: the result, the value stored through `buff` (if any), and the
state. -/
def disk_ioctl (card : Nat → Nat) (pdrv cmd : Nat) (s : MMC) : DRESULT × Option Nat × MMC :=
  if pdrv ≠ DEV_MMC then (RES_PARERR, none, s)
  else if s.DiskStat &&& STA_NOINIT ≠ 0 then (RES_NOTRDY, none, s)
  else if cmd = CTRL_SYNC then
    let sel := MMC_select card s
    if sel.1 ≠ 0 then (RES_OK, none, sel.2)
    else (RES_ERROR, none, MMC_deselect card sel.2)
  else if cmd = GET_SECTOR_COUNT then
    let c := MMC_send_cmd card CMD9 0 s
    if c.1 = 0 then
      let b := MMC_ReceiveDataBlock card 16 c.2
      if b.1 ≠ 0 then (RES_OK, some (csd_sector_count b.2.1), MMC_deselect card b.2.2)
      else (RES_ERROR, none, MMC_deselect card b.2.2)
    else (RES_ERROR, none, MMC_deselect card c.2)
  else if cmd = GET_SECTOR_SIZE then
    (RES_OK, some 512, MMC_deselect card s)
  else if cmd = GET_BLOCK_SIZE then
    if s.CardType &&& CT_SD2 ≠ 0 then
      let c := MMC_send_cmd card ACMD13 0 s
      if c.1 = 0 then
        let s1 := (MMC_SendSPI card 0xFF c.2).2
        let b := MMC_ReceiveDataBlock card 16 s1
        if b.1 ≠ 0 then
          (RES_OK, some (sdstat_block_size b.2.1),
            MMC_deselect card (MMC_dummy_clocks card (64 - 16) b.2.2))
        else (RES_ERROR, none, MMC_deselect card b.2.2)
      else (RES_ERROR, none, MMC_deselect card c.2)
    else
      let c := MMC_send_cmd card CMD9 0 s
      if c.1 = 0 then
        let b := MMC_ReceiveDataBlock card 16 c.2
        if b.1 ≠ 0 then
          (RES_OK, some (csd_block_size (decide (s.CardType &&& CT_SD1 ≠ 0)) b.2.1),
            MMC_deselect card b.2.2)
        else (RES_ERROR, none, MMC_deselect card b.2.2)
      else (RES_ERROR, none, MMC_deselect card c.2)
  else (RES_PARERR, none, MMC_deselect card s)

/-! ## Views of the card's stream -/

/-- The `n` bytes the card delivers in the exchanges `p`, `p + 1`, ... -/
def rxBytes (card : Nat → Nat) (p n : Nat) : List Nat :=
  (List.range n).map (fun i => card (p + i) % 256)

/-- A data packet is announced at exchange `p`: the start token 0xFE is the
first byte other than 0xFF, after `k` idle bytes, inside the window of 2000
polls. -/
def TokenAt (card : Nat → Nat) (p k : Nat) : Prop :=
  k < 2000 ∧ (∀ j, j < k → card (p + j) % 256 = 0xFF) ∧ card (p + k) % 256 = 0xFE

/-- From exchange `p` on, `count` data packets follow one another: each is
announced by the start token 0xFE as the first byte other than 0xFF within the
window of 2000 polls, carries 512 payload bytes and ends with two checksum
bytes; `data` is the payloads, in order, without tokens and checksums. -/
def BlocksAt (card : Nat → Nat) : Nat → Nat → List Nat → Prop
  | _, 0, data => data = []
  | p, count + 1, data =>
    ∃ k, TokenAt card p k ∧ ∃ rest, data = rxBytes card (p + k + 1) 512 ++ rest ∧
      BlocksAt card (p + k + 1 + 512 + 2) count rest

/-- The state after `n` further exchanges in which the driver sent 0xFF. -/
def idleClocks (n : Nat) (s : MMC) : MMC :=
  { s with pos := s.pos + n, tx := s.tx ++ List.replicate n 0xFF }

/-! ## The fields of the card-description register, as the specification names them -/

/-- The 22-bit size field of a version-2 register (bytes 7 to 9). -/
def csd_v2_size (csd : List Nat) : Nat :=
  ((csd.getD 7 0 &&& 0x3F) <<< 16) ||| (csd.getD 8 0 <<< 8) ||| csd.getD 9 0

/-- READ_BL_LEN of a version-1 or MMC register. -/
def csd_read_bl_len (csd : List Nat) : Nat := csd.getD 5 0 &&& 15

/-- C_SIZE of a version-1 or MMC register. -/
def csd_c_size (csd : List Nat) : Nat :=
  ((csd.getD 6 0 &&& 3) <<< 10) ||| (csd.getD 7 0 <<< 2) ||| (csd.getD 8 0 >>> 6)

/-- C_SIZE_MULT of a version-1 or MMC register. -/
def csd_c_size_mult (csd : List Nat) : Nat :=
  ((csd.getD 9 0 &&& 3) <<< 1) ||| (csd.getD 10 0 >>> 7)

/-- The 16 register bytes that follow the start token, when CMD9 is sent from
state `s` and the token comes after `k` idle bytes. -/
def csdAfterCmd9 (card : Nat → Nat) (s : MMC) (k : Nat) : List Nat :=
  rxBytes card ((MMC_send_cmd card CMD9 0 s).2.pos + k + 1) 16

/-! ## The status invariant and the driver's own variables -/

/-- A status word in which `NoMedia` set implies `Uninitialized` set. -/
def StatusOk (d : Nat) : Prop :=
  d &&& STA_NODISK ≠ 0 → d &&& STA_NOINIT ≠ 0

instance (d : Nat) : Decidable (StatusOk d) := by
  unfold StatusOk; infer_instance

/-- The variables of the driver that no bus transfer touches: the status word,
the card type, the eject flag, the presence pin and its change flag. -/
def drive (s : MMC) : Nat × Nat × Bool × Bool × Bool :=
  (s.DiskStat, s.CardType, s.ejected, s.MMC_INS_PORT, s.MMC_INS_IOCF)

/-- Two cards answer alike from where two states stand: the bytes the first
card delivers from the current exchange of `s1` on are those the second
delivers from the current exchange of `s2` on. -/
def SameStream (card1 card2 : Nat → Nat) (s1 s2 : MMC) : Prop :=
  ∀ i, card1 (s1.pos + i) % 256 = card2 (s2.pos + i) % 256

/-- Two runs gave the same value and left the cards answering alike. -/
def SameOut {α : Type} (card1 card2 : Nat → Nat) (r1 r2 : α × MMC) : Prop :=
  r1.1 = r2.1 ∧ SameStream card1 card2 r1.2 r2.2

/-- The bytes sent up to state `t` continue those sent up to state `s`. -/
def Extends (s t : MMC) : Prop := ∃ ext, t.tx = s.tx ++ ext

/-- The state after further exchanges in which the driver sent `bytes`. -/
def sent (bytes : List Nat) (s : MMC) : MMC :=
  { s with pos := s.pos + bytes.length, tx := s.tx ++ bytes }

/-- Between `s` and `t` the driver sent nothing but 0xFF. -/
def IdleRun (s t : MMC) : Prop :=
  ∃ k, t.pos = s.pos + k ∧ t.tx = s.tx ++ List.replicate k 0xFF

/-- The `n` bytes of the caller's buffer `buff` from offset `off` on. -/
def bufBytes (buff : Nat → Nat) (off n : Nat) : List Nat :=
  (List.range n).map (fun i => buff (off + i) % 256)

/-- The stuff byte `MMC_send_cmd_internal` skips after the frame of CMD12. -/
def stuffBytes (cmd : Nat) : Nat := if cmd = CMD12 then 1 else 0

/-- The state after `i` blocks of a multiple block write were handed to
`MMC_SendDataBlock` one after another, starting from state `s`: block `j` is
read from offset `off + 512 * j` of the buffer and sent behind the token 0xFC. -/
def afterBlocks (card : Nat → Nat) (buff : Nat → Nat) (off : Nat) : Nat → MMC → MMC
  | 0, s => s
  | i + 1, s =>
    (MMC_SendDataBlock card buff (off + 512 * i) 0xFC (afterBlocks card buff off i s)).2

/-- The result `MMC_SendDataBlock` gives for block `i` of such a run (1
accepted, 0 rejected or not ready). -/
def blockResult (card : Nat → Nat) (buff : Nat → Nat) (off i : Nat) (s : MMC) : Nat :=
  (MMC_SendDataBlock card buff (off + 512 * i) 0xFC (afterBlocks card buff off i s)).1

/-- The state after `i` operating-condition probes `MMC_send_cmd(cmd, arg)`
issued one after another from state `s`. -/
def probes (card : Nat → Nat) (cmd arg : Nat) : Nat → MMC → MMC
  | 0, s => s
  | i + 1, s => (MMC_send_cmd card cmd arg (probes card cmd arg i s)).2

/-- None of the first 1000 probes issued from state `s` reports ready
(response 0). -/
def NeverReady (card : Nat → Nat) (cmd arg : Nat) (s : MMC) : Prop :=
  ∀ i, i < 1000 → (MMC_send_cmd card cmd arg (probes card cmd arg i s)).1 ≠ 0

/-! ## States reachable from power-on -/

/-- The five values the driver is meant to keep in `CardType`. -/
def CardTypeOk (ct : Nat) : Prop :=
  ct = 0 ∨ ct = CT_MMC ∨ ct = CT_SD1 ∨ ct = CT_SD2 ∨ ct = CT_SD2 ||| CT_BLOCK

instance (ct : Nat) : Decidable (CardTypeOk ct) := by
  unfold CardTypeOk; infer_instance

/-- The states the driver can be in: the state at power-on (the initializers of
`DiskStat`, `ejected` and `CardType`, with any pin levels), and every state
reached from such a state by one more step.  A step is a call of one of the
driver's entry points, run to completion, with any arguments and against any
card (each call may meet a different response stream), or a change of the
card-detect pin and its interrupt flag by the hardware.  `disk_status` writes
nothing and so is no step. -/
inductive Reachable : MMC → Prop
  | by_power_on (cs ins iocf : Bool) : Reachable (powerOn cs ins iocf)
  | by_pins (s : MMC) (ins iocf : Bool) : Reachable s →
      Reachable { s with MMC_INS_PORT := ins, MMC_INS_IOCF := iocf }
  | by_Init (s : MMC) : Reachable s → Reachable (MMC_Init s)
  | by_Interrupt (s : MMC) : Reachable s → Reachable (MMC_Interrupt s)
  | by_Eject (s : MMC) : Reachable s → Reachable (MMC_Eject s)
  | by_disk_init (card : Nat → Nat) (pdrv : Nat) (s : MMC) : Reachable s →
      Reachable ( disk_initialize card pdrv s).2
  | by_disk_read (card : Nat → Nat) (pdrv sector count : Nat) (s : MMC) : Reachable s →
      Reachable (disk_read card pdrv sector count s).2.2
  | by_disk_write (card : Nat → Nat) (pdrv : Nat) (buff : Nat → Nat) (sector count : Nat)
      (s : MMC) : Reachable s → Reachable (disk_write card pdrv buff sector count s).2
  | by_disk_ioctl (card : Nat → Nat) (pdrv cmd : Nat) (s : MMC) : Reachable s →
      Reachable (disk_ioctl card pdrv cmd s).2.2

/-! ## The steps of `disk_initialize` up to the operating-condition register -/

/-- The response to CMD0 in a run of `disk_initialize` from `s` that gets past
the drive and `STA_NODISK` checks, and the state after it. -/
def initCmd0 (card : Nat → Nat) (s : MMC) : Nat × MMC :=
  MMC_send_cmd card CMD0 0 (MMC_dummy_clocks card 10 s)

/-- The response to CMD8 that follows in such a run, and the state after it. -/
def initCmd8 (card : Nat → Nat) (s : MMC) : Nat × MMC :=
  MMC_send_cmd card CMD8 0x1AA (initCmd0 card s).2

/-- The four bytes read behind the CMD8 response, and the state after them. -/
def initEcho (card : Nat → Nat) (s : MMC) : List Nat × MMC :=
  MMC_receive_ocr card (initCmd8 card s).2

/-- The final `tmr` of the ACMD41 loop with the HCS bit, and the state after it. -/
def initReady (card : Nat → Nat) (s : MMC) : Nat × MMC :=
  MMC_idle_loop card ACMD41 (2 ^ 30) 1000 (initEcho card s).2

/-- The response to CMD58 sent after that loop, and the state after it. -/
def initCmd58 (card : Nat → Nat) (s : MMC) : Nat × MMC :=
  MMC_send_cmd card CMD58 0 (initReady card s).2

/-- The four register bytes read behind the CMD58 response, and the state
after them. -/
def initOcr (card : Nat → Nat) (s : MMC) : List Nat × MMC :=
  MMC_receive_ocr card (initCmd58 card s).2

/-- The run of `disk_initialize` from `s` reads the operating-condition
register: CMD0 and CMD8 answer 1, the CMD8 echo ends in 01 AA, the ACMD41 loop
ends before its 1000 attempts are used up, and CMD58 answers 0. -/
def ReadsOcr (card : Nat → Nat) (s : MMC) : Prop :=
  (initCmd0 card s).1 = 1 ∧ (initCmd8 card s).1 = 1 ∧
  (initEcho card s).1.getD 2 0 = 0x01 ∧ (initEcho card s).1.getD 3 0 = 0xAA ∧
  (initReady card s).1 ≠ 0 ∧ (initCmd58 card s).1 = 0

instance (card : Nat → Nat) (s : MMC) : Decidable (ReadsOcr card s) := by
  unfold ReadsOcr; infer_instance

/-! ## The transfer-complete wait of `MMC_SendSPI`

`MMC_SendSPI` writes the byte to `SSP2BUF` and then waits in
`while(!SSP2STATbits.BF) ;` for the peripheral to report the exchange complete.
The definitions above take the exchange as one step.  The definitions of this
section follow the same source functions with that wait in place: `bf k i` is
the value the `i`-th read of the flag gives during exchange number `k`, and
`fuel` is the number of reads of the flag the model follows in one wait.  A
result `none` means that a wait was still running after `fuel` reads. -/

/-- The loop `while(!SSP2STATbits.BF) ;`, entered at read number `i` of the
flag: the number of the read that finds the flag set, or `none` when none of
the next `fuel` reads does.  The loop has no counter of its own. -/
def MMC_wait_BF (flag : Nat → Bool) : Nat → Nat → Option Nat
  | 0, _ => none
  | fuel + 1, i => if flag i then some i else MMC_wait_BF flag fuel (i + 1)

/-- `MMC_SendSPI` with its wait: the exchange of the stream model, once the wait
for the flag has ended. -/
def MMC_SendSPI_bf (card : Nat → Nat) (bf : Nat → Nat → Bool) (fuel : Nat) (d : Nat)
    (s : MMC) : Option (Nat × MMC) :=
  match MMC_wait_BF (bf s.pos) fuel 0 with
  | none => none
  | some _ => some (MMC_SendSPI card d s)

/-- The loop `for (n = k; n; n--) MMC_SendSPI(0xFF)`, with the waits. -/
def MMC_dummy_clocks_bf (card : Nat → Nat) (bf : Nat → Nat → Bool) (fuel : Nat) :
    Nat → MMC → Option MMC
  | 0, s => some s
  | n + 1, s =>
    (MMC_SendSPI_bf card bf fuel 0xFF s).bind fun r =>
      MMC_dummy_clocks_bf card bf fuel n r.2

/-- The `while(wt--)` loop of `MMC_wait_ready`, with the waits. -/
def MMC_wait_ready_loop_bf (card : Nat → Nat) (bf : Nat → Nat → Bool) (fuel : Nat) :
    Nat → MMC → Option (Nat × MMC)
  | 0, s => some (0, s)
  | wt + 1, s =>
    (MMC_SendSPI_bf card bf fuel 0xFF s).bind fun r =>
      if r.1 = 0xFF then some (1, r.2) else MMC_wait_ready_loop_bf card bf fuel wt r.2

/-- `MMC_wait_ready`, with the waits. -/
def MMC_wait_ready_bf (card : Nat → Nat) (bf : Nat → Nat → Bool) (fuel : Nat) (wt : Nat)
    (s : MMC) : Option (Nat × MMC) :=
  MMC_wait_ready_loop_bf card bf fuel ((wt * 10) % 65536) s

/-- `MMC_deselect`, with the wait. -/
def MMC_deselect_bf (card : Nat → Nat) (bf : Nat → Nat → Bool) (fuel : Nat) (s : MMC) :
    Option MMC :=
  (MMC_SendSPI_bf card bf fuel 0xFF { s with MMC_CS := true }).bind fun r => some r.2

/-- `MMC_select`, with the waits. -/
def MMC_select_bf (card : Nat → Nat) (bf : Nat → Nat → Bool) (fuel : Nat) (s : MMC) :
    Option (Nat × MMC) :=
  (MMC_SendSPI_bf card bf fuel 0xFF { s with MMC_CS := false }).bind fun r0 =>
    (MMC_wait_ready_bf card bf fuel 500 r0.2).bind fun r =>
      if r.1 ≠ 0 then some (1, r.2)
      else (MMC_deselect_bf card bf fuel r.2).bind fun d => some (0, d)

/-- The response loop of `MMC_send_cmd_internal`, entered with counter `n + 1`,
with the waits. -/
def MMC_response_loop_bf (card : Nat → Nat) (bf : Nat → Nat → Bool) (fuel : Nat) :
    Nat → MMC → Option (Nat × MMC)
  | 0, s => MMC_SendSPI_bf card bf fuel 0xFF s
  | n + 1, s =>
    (MMC_SendSPI_bf card bf fuel 0xFF s).bind fun r =>
      if r.1 &&& 0x80 ≠ 0 then MMC_response_loop_bf card bf fuel n r.2 else some r

/-- `MMC_send_cmd_internal`, with the waits. -/
def MMC_send_cmd_internal_bf (card : Nat → Nat) (bf : Nat → Nat → Bool) (fuel : Nat)
    (cmd arg : Nat) (s : MMC) : Option (Nat × MMC) :=
  (MMC_deselect_bf card bf fuel s).bind fun d =>
  (MMC_select_bf card bf fuel d).bind fun sel =>
    if sel.1 = 0 then some (0xFF, sel.2)
    else
      (MMC_SendSPI_bf card bf fuel (0x40 ||| cmd) sel.2).bind fun r1 =>
      (MMC_SendSPI_bf card bf fuel ((arg >>> 24) % 256) r1.2).bind fun r2 =>
      (MMC_SendSPI_bf card bf fuel ((arg >>> 16) % 256) r2.2).bind fun r3 =>
      (MMC_SendSPI_bf card bf fuel ((arg >>> 8) % 256) r3.2).bind fun r4 =>
      (MMC_SendSPI_bf card bf fuel (arg % 256) r4.2).bind fun r5 =>
      (MMC_SendSPI_bf card bf fuel (cmd_crc cmd) r5.2).bind fun r6 =>
      (if cmd = CMD12 then (MMC_SendSPI_bf card bf fuel 0xFF r6.2).bind fun r => some r.2
        else some r6.2).bind fun s7 =>
      MMC_response_loop_bf card bf fuel 9 s7

/-- `MMC_send_cmd`, with the waits. -/
def MMC_send_cmd_bf (card : Nat → Nat) (bf : Nat → Nat → Bool) (fuel : Nat)
    (cmd arg : Nat) (s : MMC) : Option (Nat × MMC) :=
  if cmd &&& 0x80 ≠ 0 then
    (MMC_send_cmd_internal_bf card bf fuel CMD55 0 s).bind fun r =>
      if r.1 > 1 then some r else MMC_send_cmd_internal_bf card bf fuel (cmd &&& 0x7F) arg r.2
  else MMC_send_cmd_internal_bf card bf fuel cmd arg s

/-- The polling loop `for(tmr = 1000; tmr; tmr--)` of `disk_initialize`, with
the waits. -/
def MMC_idle_loop_bf (card : Nat → Nat) (bf : Nat → Nat → Bool) (fuel : Nat)
    (cmd arg : Nat) : Nat → MMC → Option (Nat × MMC)
  | 0, s => some (0, s)
  | tmr + 1, s =>
    (MMC_send_cmd_bf card bf fuel cmd arg s).bind fun r =>
      if r.1 = 0 then some (tmr + 1, r.2) else MMC_idle_loop_bf card bf fuel cmd arg tmr r.2

/-- The loop `for(n = 0; n < 4; n++) ocr[n] = MMC_SendSPI(0xFF)`, with the waits. -/
def MMC_receive_ocr_bf (card : Nat → Nat) (bf : Nat → Nat → Bool) (fuel : Nat) (s : MMC) :
    Option (List Nat × MMC) :=
  (MMC_SendSPI_bf card bf fuel 0xFF s).bind fun r0 =>
  (MMC_SendSPI_bf card bf fuel 0xFF r0.2).bind fun r1 =>
  (MMC_SendSPI_bf card bf fuel 0xFF r1.2).bind fun r2 =>
  (MMC_SendSPI_bf card bf fuel 0xFF r2.2).bind fun r3 =>
    some ([r0.1, r1.1, r2.1, r3.1], r3.2)

/-- The branch `SDv2?` of `disk_initialize`, with the waits. -/
def MMC_identify_sd2_bf (card : Nat → Nat) (bf : Nat → Nat → Bool) (fuel : Nat) (s : MMC) :
    Option (Nat × MMC) :=
  (MMC_receive_ocr_bf card bf fuel s).bind fun ocr =>
    if ocr.1.getD 2 0 = 0x01 ∧ ocr.1.getD 3 0 = 0xAA then
      (MMC_idle_loop_bf card bf fuel ACMD41 (2 ^ 30) 1000 ocr.2).bind fun w =>
        if w.1 ≠ 0 then
          (MMC_send_cmd_bf card bf fuel CMD58 0 w.2).bind fun c58 =>
            if c58.1 = 0 then
              (MMC_receive_ocr_bf card bf fuel c58.2).bind fun ocr2 =>
                some (if ocr2.1.getD 0 0 &&& 0x40 ≠ 0 then CT_SD2 ||| CT_BLOCK else CT_SD2,
                  ocr2.2)
            else some (0, c58.2)
        else some (0, w.2)
    else some (0, ocr.2)

/-- The branch `SDv1 or MMCv3` of `disk_initialize`, with the waits. -/
def MMC_identify_sd1_bf (card : Nat → Nat) (bf : Nat → Nat → Bool) (fuel : Nat) (s : MMC) :
    Option (Nat × MMC) :=
  (MMC_send_cmd_bf card bf fuel ACMD41 0 s).bind fun a =>
    (MMC_idle_loop_bf card bf fuel (if a.1 ≤ 1 then ACMD41 else CMD1) 0 1000 a.2).bind fun w =>
      if w.1 = 0 then some (0, w.2)
      else
        (MMC_send_cmd_bf card bf fuel CMD16 512 w.2).bind fun c16 =>
          some (if c16.1 ≠ 0 then 0 else (if a.1 ≤ 1 then CT_SD1 else CT_MMC), c16.2)

/-- The card identification of `disk_initialize`, with the waits. -/
def MMC_identify_bf (card : Nat → Nat) (bf : Nat → Nat → Bool) (fuel : Nat) (s : MMC) :
    Option (Nat × MMC) :=
  (MMC_send_cmd_bf card bf fuel CMD0 0 s).bind fun c0 =>
    if c0.1 = 1 then
      (MMC_send_cmd_bf card bf fuel CMD8 0x1AA c0.2).bind fun c8 =>
        if c8.1 = 1 then MMC_identify_sd2_bf card bf fuel c8.2
        else MMC_identify_sd1_bf card bf fuel c8.2
    else some (0, c0.2)

/-- `disk_initialize`, with the waits: the returned status and the state, or
`none` when a wait for the flag was still running after `fuel` reads. -/
def disk_initialize_bf (card : Nat → Nat) (bf : Nat → Nat → Bool) (fuel : Nat) (pdrv : Nat)
    (s : MMC) : Option (Nat × MMC) :=
  if pdrv ≠ DEV_MMC then some (STA_NOINIT, s)
  else if s.DiskStat &&& STA_NODISK ≠ 0 then some (s.DiskStat, s)
  else
    (MMC_dummy_clocks_bf card bf fuel 10 s).bind fun s1 =>
    (MMC_identify_bf card bf fuel s1).bind fun i =>
    (MMC_deselect_bf card bf fuel { i.2 with CardType := i.1 }).bind fun s2 =>
      let s3 := if i.1 ≠ 0 then { s2 with DiskStat := s2.DiskStat &&& (0xFF ^^^ STA_NOINIT) }
        else s2
      some (s3.DiskStat, s3)

/-- The peripheral completes every exchange: whatever the number `k` of the
exchange, one of the first `fuel` reads of the flag finds it set. -/
def Completes (bf : Nat → Nat → Bool) (fuel : Nat) : Prop :=
  ∀ k, ∃ i, i < fuel ∧ bf k i = true

/-- A peripheral whose flag is never set. -/
def bfStuck (_ _ : Nat) : Bool := false

/-- A peripheral whose flag is first set at read number `n` of each exchange. -/
def bfAfter (n : Nat) (_ i : Nat) : Bool := decide (n ≤ i)

/-! ## States and streams used as concrete inputs -/

/-- A card that is ready at once, accepts the first command (response 0 at
exchange 9) and then sends the error token 0x01 instead of a data packet. -/
def cardReadError (i : Nat) : Nat :=
  if i = 9 then 0 else if i = 10 then 0x01 else 0xFF

/-- A card that is ready at once and then holds the line at 0x80: every
response byte polled has its high bit set without being 0xFF. -/
def cardBusy (i : Nat) : Nat := if i < 9 then 0xFF else 0x80

/-- A card that is ready at once, accepts the first command (response 0 at
exchange 9), stays ready, and answers the data response 0xE5 ("accepted") to
the data packet sent in the exchanges 11 to 525. -/
def cardWriteOk (i : Nat) : Nat :=
  if i = 9 then 0 else if i = 526 then 0xE5 else 0xFF

/-- A card that is ready at once, answers idle (1) to CMD0 after the dummy
clocks of `disk_initialize`, and then never answers again. -/
def cardIdleOnly (i : Nat) : Nat := if i = 19 then 1 else 0xFF

/-- A card that never answers: the data line stays high. -/
def cardSilent (_ : Nat) : Nat := 0xFF

/-- An SD version 2 card that is ready at once and answers every
initialization alike, with a period of 69 exchanges: idle (1) to CMD0 and CMD8,
the echo 00 00 01 AA, idle to CMD55, ready (0) to ACMD41 and CMD58, and an
operating-condition register whose first byte 0xC0 has the CCS bit set. -/
def cardSD2 (i : Nat) : Nat :=
  ([(19, 1), (29, 1), (30, 0), (31, 0), (32, 1), (33, 0xAA), (43, 1), (53, 0), (63, 0),
    (64, 0xC0)] : List (Nat × Nat)).lookup (i % 69) |>.getD 0xFF


/-- An initialized device with a block-addressed SD version 2 card, bus idle. -/
def readyState : MMC :=
  { DiskStat := 0, ejected := false, CardType := CT_SD2 ||| CT_BLOCK,
    MMC_CS := true, MMC_INS_PORT := false, MMC_INS_IOCF := false, pos := 0, tx := [] }

/-- A card that is ready at once, accepts the first command (response 0 at
exchange 9), and then sends a data packet whose bytes are all 0xFF except the
first, 0x40: a version-2 register with every bit of the size field set. -/
def cardCsdV2Max (i : Nat) : Nat :=
  if i = 9 then 0 else if i = 10 then 0xFE else if i = 11 then 0x40 else 0xFF

/-- A card that is ready at once, accepts the first command, and then sends the
version-1 register of a 1 GB card behind the start token. -/
def cardCsdV1 (i : Nat) : Nat :=
  if i = 9 then 0 else if i = 10 then 0xFE else if i < 11 then 0xFF else
    ([0x00, 0x26, 0x00, 0x32, 0x5F, 0x59, 0x83, 0xC8, 0xAD, 0xDB, 0xCF, 0xFF, 0xD2, 0x40, 0x40,
      0xA5] : List Nat).getD (i - 11) 0xFF

/-- A card that is ready at once, accepts the first command, and then sends the
version-2 register of an 8 GB card (size field 0x003B37) behind the start token. -/
def cardCsdV2 (i : Nat) : Nat :=
  if i = 9 then 0 else if i = 10 then 0xFE else if i < 11 then 0xFF else
    ([0x40, 0x0E, 0x00, 0x32, 0x5B, 0x59, 0x00, 0x00, 0x3B, 0x37, 0x7F, 0x80, 0x0A, 0x40, 0x40,
      0xB9] : List Nat).getD (i - 11) 0xFF

instance (card : Nat → Nat) (p k : Nat) : Decidable (TokenAt card p k) := by
  unfold TokenAt; infer_instance

/-! ## Transport lemmas -/

theorem rxBytes_succ (card : Nat → Nat) (p n : Nat) :
    rxBytes card p (n + 1) = card p % 256 :: rxBytes card (p + 1) n := by
  simp only [rxBytes, List.range_succ_eq_map, List.map_cons, List.map_map, Nat.add_zero]
  congr 1
  apply List.map_congr_left
  intro i _
  simp only [Function.comp_apply]
  congr 2
  omega

theorem rxBytes_length (card : Nat → Nat) (p n : Nat) : (rxBytes card p n).length = n := by
  simp [rxBytes]

theorem rxBytes_getD (card : Nat → Nat) (p n i : Nat) (h : i < n) :
    (rxBytes card p n).getD i 0 = card (p + i) % 256 := by
  simp [rxBytes, List.getD_eq_getElem?_getD, List.getElem?_map, List.getElem?_range h]

theorem idleClocks_zero (s : MMC) : idleClocks 0 s = s := by
  simp [idleClocks]

theorem idleClocks_add (m n : Nat) (s : MMC) :
    idleClocks n (idleClocks m s) = idleClocks (m + n) s := by
  simp only [idleClocks, List.append_assoc, Nat.add_assoc]
  rw [List.replicate_add]

theorem MMC_SendSPI_idle (card : Nat → Nat) (s : MMC) :
    MMC_SendSPI card 0xFF s = (card s.pos % 256, idleClocks 1 s) := by
  simp [MMC_SendSPI, idleClocks]

theorem MMC_ReceiveBytesSPI_eq (card : Nat → Nat) (n : Nat) (s : MMC) :
    MMC_ReceiveBytesSPI card n s = (rxBytes card s.pos n, idleClocks n s) := by
  induction n generalizing s with
  | zero => simp [MMC_ReceiveBytesSPI, rxBytes, idleClocks_zero]
  | succ n ih =>
    simp only [MMC_ReceiveBytesSPI, MMC_SendSPI_idle, ih, rxBytes_succ, idleClocks_add]
    simp [idleClocks, Nat.add_comm]

theorem idleClocks_pos (n : Nat) (s : MMC) : (idleClocks n s).pos = s.pos + n := by
  cases s; rfl

theorem MMC_token_loop_found (card : Nat → Nat) (n : Nat) :
    ∀ (k tok : Nat) (s : MMC) (t : Nat), k < n →
      (∀ j, j < k → card (s.pos + j) % 256 = 0xFF) →
      card (s.pos + k) % 256 = t → t ≠ 0xFF →
      MMC_token_loop card n tok s = (t, idleClocks (k + 1) s) := by
  induction n with
  | zero => intro k tok s t hk; omega
  | succ n ih =>
    intro k tok s t hk hidle ht hne
    cases k with
    | zero =>
      have h0 : card s.pos % 256 = t := by simpa using ht
      simp [MMC_token_loop, MMC_SendSPI_idle, h0, hne]
    | succ k =>
      have h0 : card s.pos % 256 = 0xFF := by simpa using hidle 0 (Nat.succ_pos k)
      have hrec := ih k (card s.pos % 256) (idleClocks 1 s) t (by omega)
        (by
          intro j hj
          have := hidle (j + 1) (by omega)
          rw [idleClocks_pos]
          rw [← this]; congr 2; omega)
        (by rw [idleClocks_pos, ← ht]; congr 2; omega) hne
      simp only [MMC_token_loop, MMC_SendSPI_idle, h0] at hrec ⊢
      simp only [ne_eq, not_true_eq_false, if_false]
      rw [hrec, idleClocks_add]
      congr 2
      omega

theorem MMC_token_loop_start (card : Nat → Nat) (n : Nat) :
    ∀ (tok : Nat) (s : MMC), (MMC_token_loop card n tok s).1 = 0xFE → tok ≠ 0xFE →
      ∃ k, k < n ∧ (∀ j, j < k → card (s.pos + j) % 256 = 0xFF) ∧
        card (s.pos + k) % 256 = 0xFE := by
  induction n with
  | zero =>
    intro tok s h htok
    simp [MMC_token_loop] at h
    exact absurd h htok
  | succ n ih =>
    intro tok s h htok
    simp only [MMC_token_loop, MMC_SendSPI_idle] at h
    by_cases h0 : card s.pos % 256 = 0xFF
    · simp only [h0, ne_eq, not_true_eq_false, if_false] at h
      obtain ⟨k, hk, hidle, hfe⟩ := ih 0xFF (idleClocks 1 s) h (by decide)
      refine ⟨k + 1, by omega, ?_, ?_⟩
      · intro j hj
        cases j with
        | zero => simpa using h0
        | succ j =>
          have := hidle j (by omega)
          rw [idleClocks_pos] at this
          rw [← this]; congr 2; omega
      · rw [idleClocks_pos] at hfe
        rw [← hfe]; congr 2; omega
    · simp only [ne_eq, h0, not_false_eq_true, if_true] at h
      exact ⟨0, by omega, by intro j hj; omega, by simpa using h⟩

theorem MMC_ReceiveDataBlock_ok (card : Nat → Nat) (btr : Nat) (s : MMC) (k : Nat)
    (h : TokenAt card s.pos k) :
    MMC_ReceiveDataBlock card btr s =
      (1, rxBytes card (s.pos + k + 1) btr, idleClocks (k + 1 + btr + 2) s) := by
  obtain ⟨hk, hidle, hfe⟩ := h
  have ht := MMC_token_loop_found card 2000 k 0 s 0xFE hk hidle hfe (by decide)
  simp only [MMC_ReceiveDataBlock, ht, MMC_ReceiveBytesSPI_eq, MMC_SendSPI_idle,
    idleClocks_add, idleClocks_pos, ne_eq, not_true_eq_false, if_false]
  rw [Nat.add_assoc s.pos k 1]

theorem MMC_ReceiveDataBlock_token (card : Nat → Nat) (btr : Nat) (s : MMC)
    (h : (MMC_ReceiveDataBlock card btr s).1 ≠ 0) : ∃ k, TokenAt card s.pos k := by
  by_cases ht : (MMC_token_loop card 2000 0 s).1 = 0xFE
  · obtain ⟨k, hk, hidle, hfe⟩ := MMC_token_loop_start card 2000 0 s ht (by decide)
    exact ⟨k, hk, hidle, hfe⟩
  · simp [MMC_ReceiveDataBlock, ht] at h

/-! ## Decoding the card-description register -/

theorem rxBytes_getD_lt (card : Nat → Nat) (p n i : Nat) : (rxBytes card p n).getD i 0 < 256 := by
  by_cases h : i < n
  · rw [rxBytes_getD card p n i h]; omega
  · simp [rxBytes, List.getD_eq_getElem?_getD, List.getElem?_map]
    rw [List.getElem?_eq_none (by simpa using Nat.le_of_not_lt h)]
    simp

theorem v2_size_or_eq_add (c7 c8 c9 : Nat) (h8 : c8 < 256) (h9 : c9 < 256) :
    ((c7 &&& 0x3F) <<< 16) ||| (c8 <<< 8) ||| c9 = 65536 * (c7 &&& 0x3F) + (256 * c8 + c9) := by
  have e1 : 256 * c8 ||| c9 = 256 * c8 + c9 :=
    (Nat.mul_add_lt_is_or (i := 8) (by simpa using h9) _).symm
  have e2 : 65536 * (c7 &&& 0x3F) ||| (256 * c8 + c9) = 65536 * (c7 &&& 0x3F) + (256 * c8 + c9) :=
    (Nat.mul_add_lt_is_or (i := 16) (by norm_num; omega) _).symm
  simp only [Nat.shiftLeft_eq, Nat.or_assoc]
  norm_num
  rw [Nat.mul_comm _ 65536, Nat.mul_comm _ 256, e1, e2]

theorem csd_v2_size_eq (csd : List Nat) (hb : ∀ i, csd.getD i 0 < 256) :
    csd_v2_size csd =
      65536 * (csd.getD 7 0 &&& 0x3F) + (256 * csd.getD 8 0 + csd.getD 9 0) :=
  v2_size_or_eq_add _ _ _ (hb 8) (hb 9)

theorem csd_sector_count_v2 (csd : List Nat) (hb : ∀ i, csd.getD i 0 < 256)
    (hv2 : csd.getD 0 0 >>> 6 = 1) :
    csd_sector_count csd = ((csd_v2_size csd + 1) * 1024) % 2 ^ 32 := by
  have h8 := hb 8
  have h9 := hb 9
  have h7 : csd.getD 7 0 &&& 63 ≤ 63 := Nat.and_le_right
  rw [csd_v2_size_eq csd hb]
  simp only [csd_sector_count, hv2, if_true, Nat.shiftLeft_eq]
  generalize csd.getD 7 0 &&& 63 = x at h7 ⊢
  generalize csd.getD 8 0 = c8 at h8 ⊢
  generalize csd.getD 9 0 = c9 at h9 ⊢
  norm_num
  omega

theorem byte_bit7 (c : Nat) (h : c < 256) : (c &&& 128) >>> 7 = c / 128 := by
  interval_cases c <;> rfl

theorem v1_c_size_or_eq_add (c6 c7 c8 : Nat) (h7 : c7 < 256) (h8 : c8 < 256) :
    ((c6 &&& 3) <<< 10) ||| (c7 <<< 2) ||| (c8 >>> 6) = 1024 * (c6 &&& 3) + (4 * c7 + c8 / 64) := by
  have e1 : 4 * c7 ||| c8 / 64 = 4 * c7 + c8 / 64 :=
    (Nat.mul_add_lt_is_or (i := 2) (by norm_num; omega) _).symm
  have e2 : 1024 * (c6 &&& 3) ||| (4 * c7 + c8 / 64) = 1024 * (c6 &&& 3) + (4 * c7 + c8 / 64) :=
    (Nat.mul_add_lt_is_or (i := 10) (by norm_num; omega) _).symm
  simp only [Nat.shiftLeft_eq, Nat.shiftRight_eq_div_pow, Nat.or_assoc]
  norm_num
  rw [Nat.mul_comm _ 1024, Nat.mul_comm _ 4, e1, e2]

theorem v1_mult_or_eq_add (c9 c10 : Nat) (h10 : c10 < 256) :
    ((c9 &&& 3) <<< 1) ||| (c10 >>> 7) = 2 * (c9 &&& 3) + c10 / 128 := by
  have e1 : 2 * (c9 &&& 3) ||| c10 / 128 = 2 * (c9 &&& 3) + c10 / 128 :=
    (Nat.mul_add_lt_is_or (i := 1) (by norm_num; omega) _).symm
  simp only [Nat.shiftLeft_eq, Nat.shiftRight_eq_div_pow]
  norm_num
  rw [Nat.mul_comm _ 2, e1]

theorem shl32_of_small (x n : Nat) (hx : x ≤ 4096) (h9 : 9 ≤ n) (h24 : n ≤ 24) :
    shl32 x ((n : Int) - 9) = x * 2 ^ (n - 9) ∧ x * 2 ^ (n - 9) < 2 ^ 32 := by
  have hpow : 2 ^ (n - 9) ≤ 2 ^ 15 := Nat.pow_le_pow_right (by decide) (by omega)
  have hlt : x * 2 ^ (n - 9) < 2 ^ 32 :=
    calc x * 2 ^ (n - 9) ≤ 4096 * 2 ^ 15 := Nat.mul_le_mul hx hpow
      _ < 2 ^ 32 := by norm_num
  refine ⟨?_, hlt⟩
  have hk : ¬ ((n : Int) - 9 < 0) := by omega
  have ht : ((n : Int) - 9).toNat = n - 9 := by omega
  simp only [shl32, hk, if_false, ht, Nat.shiftLeft_eq]
  exact Nat.mod_eq_of_lt hlt

theorem csd_sector_count_v1 (csd : List Nat) (hb : ∀ i, csd.getD i 0 < 256)
    (hv1 : csd.getD 0 0 >>> 6 ≠ 1)
    (hn : 9 ≤ csd_read_bl_len csd + csd_c_size_mult csd + 2) :
    csd_sector_count csd =
        (csd_c_size csd + 1) * 2 ^ (csd_read_bl_len csd + csd_c_size_mult csd + 2 - 9) ∧
      (csd_c_size csd + 1) * 2 ^ (csd_read_bl_len csd + csd_c_size_mult csd + 2 - 9) < 2 ^ 32 := by
  have h7 := hb 7
  have h8 := hb 8
  have h10 := hb 10
  have hC : csd_c_size csd = 1024 * (csd.getD 6 0 &&& 3) + (4 * csd.getD 7 0 + csd.getD 8 0 / 64) :=
    v1_c_size_or_eq_add _ _ _ h7 h8
  have hM : csd_c_size_mult csd = 2 * (csd.getD 9 0 &&& 3) + csd.getD 10 0 / 128 :=
    v1_mult_or_eq_add _ _ h10
  have a5 : csd.getD 5 0 &&& 15 ≤ 15 := Nat.and_le_right
  have a6 : csd.getD 6 0 &&& 3 ≤ 3 := Nat.and_le_right
  have a9 : csd.getD 9 0 &&& 3 ≤ 3 := Nat.and_le_right
  have hcn : ((csd.getD 5 0 &&& 15) + ((csd.getD 10 0 &&& 128) >>> 7) +
      ((csd.getD 9 0 &&& 3) <<< 1) + 2) % 256 =
      csd_read_bl_len csd + csd_c_size_mult csd + 2 := by
    rw [hM, byte_bit7 _ h10, Nat.shiftLeft_eq, csd_read_bl_len]
    omega
  have hcc : ((csd.getD 8 0 >>> 6) + (csd.getD 7 0 <<< 2) % 2 ^ 16 +
      ((csd.getD 6 0 &&& 3) <<< 10) % 2 ^ 16 + 1) % 2 ^ 16 = csd_c_size csd + 1 := by
    rw [hC, Nat.shiftLeft_eq, Nat.shiftLeft_eq, Nat.shiftRight_eq_div_pow]
    omega
  have hle : csd_c_size csd + 1 ≤ 4096 := by rw [hC]; omega
  have h24 : csd_read_bl_len csd + csd_c_size_mult csd + 2 ≤ 24 := by
    rw [hM, csd_read_bl_len]; omega
  have hs := shl32_of_small _ _ hle hn h24
  simp only [csd_sector_count, if_neg hv1]
  rw [hcn, hcc]
  exact hs

theorem capacity_div_512 (c m r : Nat) (h : 9 ≤ r + m + 2) :
    (c + 1) * 2 ^ (m + 2) * 2 ^ r / 512 = (c + 1) * 2 ^ (r + m + 2 - 9) := by
  have e : (c + 1) * 2 ^ (m + 2) * 2 ^ r = (c + 1) * 2 ^ (r + m + 2 - 9) * 512 := by
    have h2 : m + 2 + r = (r + m + 2 - 9) + 9 := by omega
    rw [Nat.mul_assoc, ← Nat.pow_add, h2, Nat.pow_add, ← Nat.mul_assoc]
  rw [e]
  exact Nat.mul_div_cancel _ (by decide)

theorem disk_ioctl_sector_count (card : Nat → Nat) (s : MMC) (k : Nat)
    (hinit : s.DiskStat &&& STA_NOINIT = 0)
    (hcmd : (MMC_send_cmd card CMD9 0 s).1 = 0)
    (htok : TokenAt card (MMC_send_cmd card CMD9 0 s).2.pos k) :
    (disk_ioctl card DEV_MMC GET_SECTOR_COUNT s).1 = RES_OK ∧
      (disk_ioctl card DEV_MMC GET_SECTOR_COUNT s).2.1 =
        some (csd_sector_count (csdAfterCmd9 card s k)) := by
  have hb := MMC_ReceiveDataBlock_ok card 16 _ k htok
  have h1 : GET_SECTOR_COUNT ≠ CTRL_SYNC := by decide
  simp [disk_ioctl, hinit, hcmd, hb, h1, csdAfterCmd9]

/-! ## C1: sector count of a version-2 register -/

/-- C1, counterexample: the card accepts CMD9 and sends, behind the token 0xFE,
a version-2 register whose size field is 0x3FFFFF.  `disk_ioctl` returns RES_OK
but stores 0, not `(0x3FFFFF + 1) * 1024`: the product does not fit the 32-bit
result. -/
theorem get_sector_count_v2_counterexample :
    readyState.DiskStat &&& STA_NOINIT = 0 ∧
    (MMC_send_cmd cardCsdV2Max CMD9 0 readyState).1 = 0 ∧
    TokenAt cardCsdV2Max (MMC_send_cmd cardCsdV2Max CMD9 0 readyState).2.pos 0 ∧
    (csdAfterCmd9 cardCsdV2Max readyState 0).getD 0 0 >>> 6 = 1 ∧
    csd_v2_size (csdAfterCmd9 cardCsdV2Max readyState 0) = 0x3FFFFF ∧
    (disk_ioctl cardCsdV2Max DEV_MMC GET_SECTOR_COUNT readyState).1 = RES_OK ∧
    (disk_ioctl cardCsdV2Max DEV_MMC GET_SECTOR_COUNT readyState).2.1 = some 0 ∧
    (disk_ioctl cardCsdV2Max DEV_MMC GET_SECTOR_COUNT readyState).2.1 ≠
      some ((csd_v2_size (csdAfterCmd9 cardCsdV2Max readyState 0) + 1) * 1024) := by
  decide

/-- C1, amended: on an initialized device, when the card accepts CMD9 and a
version-2 register `csd` arrives behind a 0xFE token, `disk_ioctl` with
GET_SECTOR_COUNT returns RES_OK and stores `((S + 1) * 1024) mod 2^32`, where
`S` is the 22-bit size field; this is exactly `(S + 1) * 1024` for every
`S < 0x3FFFFF`. -/
theorem get_sector_count_v2_wraps (card : Nat → Nat) (s : MMC) (k : Nat)
    (hinit : s.DiskStat &&& STA_NOINIT = 0)
    (hcmd : (MMC_send_cmd card CMD9 0 s).1 = 0)
    (htok : TokenAt card (MMC_send_cmd card CMD9 0 s).2.pos k)
    (hv2 : (csdAfterCmd9 card s k).getD 0 0 >>> 6 = 1) :
    (disk_ioctl card DEV_MMC GET_SECTOR_COUNT s).1 = RES_OK ∧
    (disk_ioctl card DEV_MMC GET_SECTOR_COUNT s).2.1 =
      some (((csd_v2_size (csdAfterCmd9 card s k) + 1) * 1024) % 2 ^ 32) ∧
    (csd_v2_size (csdAfterCmd9 card s k) < 0x3FFFFF →
      (disk_ioctl card DEV_MMC GET_SECTOR_COUNT s).2.1 =
        some ((csd_v2_size (csdAfterCmd9 card s k) + 1) * 1024)) := by
  obtain ⟨hres, hval⟩ := disk_ioctl_sector_count card s k hinit hcmd htok
  have hdec := csd_sector_count_v2 (csdAfterCmd9 card s k)
    (fun i => rxBytes_getD_lt card _ 16 i) hv2
  rw [hdec] at hval
  refine ⟨hres, hval, ?_⟩
  intro hS
  rw [hval, Nat.mod_eq_of_lt]
  norm_num
  omega

/-- C1, amended, at the register of an 8 GB card (size field 0x003B37). -/
theorem get_sector_count_v2_wraps_witness :
    (disk_ioctl cardCsdV2 DEV_MMC GET_SECTOR_COUNT readyState).1 = RES_OK ∧
    (disk_ioctl cardCsdV2 DEV_MMC GET_SECTOR_COUNT readyState).2.1 =
      some (((csd_v2_size (csdAfterCmd9 cardCsdV2 readyState 0) + 1) * 1024) % 2 ^ 32) ∧
    (csd_v2_size (csdAfterCmd9 cardCsdV2 readyState 0) < 0x3FFFFF →
      (disk_ioctl cardCsdV2 DEV_MMC GET_SECTOR_COUNT readyState).2.1 =
        some ((csd_v2_size (csdAfterCmd9 cardCsdV2 readyState 0) + 1) * 1024)) :=
  get_sector_count_v2_wraps cardCsdV2 readyState 0 (by decide) (by decide) (by decide) (by decide)

/-! ## C2: sector count of a version-1 or MMC register -/

/-- C2: on an initialized device, when the card accepts CMD9 and a register
`csd` that does not select the version-2 layout arrives behind a 0xFE token,
with `n = READ_BL_LEN + C_SIZE_MULT + 2 ≥ 9`, `disk_ioctl` with GET_SECTOR_COUNT
stores exactly `(C_SIZE + 1) * 2^(n - 9)`; this is the capacity in bytes
`(C_SIZE + 1) * 2^(C_SIZE_MULT + 2) * 2^READ_BL_LEN` divided by 512, and it is
below `2^32`. -/
theorem get_sector_count_v1_exact (card : Nat → Nat) (s : MMC) (k : Nat)
    (hinit : s.DiskStat &&& STA_NOINIT = 0)
    (hcmd : (MMC_send_cmd card CMD9 0 s).1 = 0)
    (htok : TokenAt card (MMC_send_cmd card CMD9 0 s).2.pos k)
    (hv1 : (csdAfterCmd9 card s k).getD 0 0 >>> 6 ≠ 1)
    (hn : 9 ≤ csd_read_bl_len (csdAfterCmd9 card s k) +
      csd_c_size_mult (csdAfterCmd9 card s k) + 2) :
    (disk_ioctl card DEV_MMC GET_SECTOR_COUNT s).1 = RES_OK ∧
    (disk_ioctl card DEV_MMC GET_SECTOR_COUNT s).2.1 =
      some ((csd_c_size (csdAfterCmd9 card s k) + 1) *
        2 ^ (csd_read_bl_len (csdAfterCmd9 card s k) +
          csd_c_size_mult (csdAfterCmd9 card s k) + 2 - 9)) ∧
    (csd_c_size (csdAfterCmd9 card s k) + 1) *
        2 ^ (csd_read_bl_len (csdAfterCmd9 card s k) +
          csd_c_size_mult (csdAfterCmd9 card s k) + 2 - 9) =
      (csd_c_size (csdAfterCmd9 card s k) + 1) *
        2 ^ (csd_c_size_mult (csdAfterCmd9 card s k) + 2) *
        2 ^ csd_read_bl_len (csdAfterCmd9 card s k) / 512 ∧
    (csd_c_size (csdAfterCmd9 card s k) + 1) *
        2 ^ (csd_read_bl_len (csdAfterCmd9 card s k) +
          csd_c_size_mult (csdAfterCmd9 card s k) + 2 - 9) < 2 ^ 32 := by
  obtain ⟨hres, hval⟩ := disk_ioctl_sector_count card s k hinit hcmd htok
  obtain ⟨hdec, hlt⟩ := csd_sector_count_v1 (csdAfterCmd9 card s k)
    (fun i => rxBytes_getD_lt card _ 16 i) hv1 hn
  rw [hdec] at hval
  exact ⟨hres, hval, (capacity_div_512 _ _ _ hn).symm, hlt⟩

/-- C2 at the register of a 1 GB card: READ_BL_LEN 9, C_SIZE 3874,
C_SIZE_MULT 7, so 3875 * 2^9 = 1984000 sectors. -/
theorem get_sector_count_v1_exact_witness :
    (disk_ioctl cardCsdV1 DEV_MMC GET_SECTOR_COUNT readyState).2.1 = some 1984000 ∧
    (1984000 : Nat) = 3875 * 2 ^ (7 + 2) * 2 ^ 9 / 512 := by
  have h := get_sector_count_v1_exact cardCsdV1 readyState 0 (by decide) (by decide) (by decide)
    (by decide) (by decide)
  have e1 : csd_c_size (csdAfterCmd9 cardCsdV1 readyState 0) = 3874 := by decide
  have e2 : csd_read_bl_len (csdAfterCmd9 cardCsdV1 readyState 0) = 9 := by decide
  have e3 : csd_c_size_mult (csdAfterCmd9 cardCsdV1 readyState 0) = 7 := by decide
  rw [e1, e2, e3] at h
  exact ⟨h.2.1, by norm_num⟩

/-! ## Bus transfers leave the driver's variables alone -/

@[simp] theorem MMC_SendSPI_drive (card : Nat → Nat) (d : Nat) (s : MMC) :
    drive (MMC_SendSPI card d s).2 = drive s := by
  cases s; rfl

@[simp] theorem MMC_ReceiveBytesSPI_drive (card : Nat → Nat) (n : Nat) (s : MMC) :
    drive (MMC_ReceiveBytesSPI card n s).2 = drive s := by
  rw [MMC_ReceiveBytesSPI_eq]; rfl

@[simp] theorem MMC_SendBytesSPI_drive (card : Nat → Nat) (p : Nat → Nat) (n : Nat) :
    ∀ (off : Nat) (s : MMC), drive (MMC_SendBytesSPI card p off n s) = drive s := by
  induction n with
  | zero => intro off s; rfl
  | succ n ih => intro off s; simp [MMC_SendBytesSPI, ih]

@[simp] theorem MMC_wait_ready_loop_drive (card : Nat → Nat) (n : Nat) :
    ∀ s : MMC, drive (MMC_wait_ready_loop card n s).2 = drive s := by
  induction n with
  | zero => intro s; rfl
  | succ n ih =>
    intro s
    simp only [MMC_wait_ready_loop]
    split <;> simp [ih]

@[simp] theorem MMC_wait_ready_drive (card : Nat → Nat) (wt : Nat) (s : MMC) :
    drive (MMC_wait_ready card wt s).2 = drive s := by
  simp [MMC_wait_ready]

@[simp] theorem MMC_deselect_drive (card : Nat → Nat) (s : MMC) :
    drive (MMC_deselect card s) = drive s := by
  cases s; rfl

@[simp] theorem MMC_select_drive (card : Nat → Nat) (s : MMC) :
    drive (MMC_select card s).2 = drive s := by
  simp only [MMC_select]
  split <;> simp <;> rfl

@[simp] theorem MMC_response_loop_drive (card : Nat → Nat) (n : Nat) :
    ∀ s : MMC, drive (MMC_response_loop card n s).2 = drive s := by
  induction n with
  | zero => intro s; rfl
  | succ n ih =>
    intro s
    simp only [MMC_response_loop]
    split <;> simp [ih]

@[simp] theorem MMC_send_cmd_internal_drive (card : Nat → Nat) (cmd arg : Nat) (s : MMC) :
    drive (MMC_send_cmd_internal card cmd arg s).2 = drive s := by
  simp only [MMC_send_cmd_internal]
  split
  · simp
  · split <;> simp

@[simp] theorem MMC_send_cmd_drive (card : Nat → Nat) (cmd arg : Nat) (s : MMC) :
    drive (MMC_send_cmd card cmd arg s).2 = drive s := by
  simp only [MMC_send_cmd]
  split
  · split <;> simp
  · simp

@[simp] theorem MMC_token_loop_drive (card : Nat → Nat) (n : Nat) :
    ∀ (tok : Nat) (s : MMC), drive (MMC_token_loop card n tok s).2 = drive s := by
  induction n with
  | zero => intro tok s; rfl
  | succ n ih =>
    intro tok s
    simp only [MMC_token_loop]
    split <;> simp [ih]

@[simp] theorem MMC_ReceiveDataBlock_drive (card : Nat → Nat) (btr : Nat) (s : MMC) :
    drive (MMC_ReceiveDataBlock card btr s).2.2 = drive s := by
  simp only [MMC_ReceiveDataBlock]
  split <;> simp

theorem MMC_SendDataBlock_drive (card : Nat → Nat) (buff : Nat → Nat) (off token : Nat)
    (s : MMC) : drive (MMC_SendDataBlock card buff off token s).2 = drive s := by
  unfold MMC_SendDataBlock
  generalize (512 : Nat) = n
  simp only [apply_ite Prod.snd, apply_ite drive, MMC_SendSPI_drive, MMC_SendBytesSPI_drive,
    MMC_wait_ready_drive, ite_self]

@[simp] theorem MMC_read_blocks_drive (card : Nat → Nat) (n : Nat) :
    ∀ s : MMC, drive (MMC_read_blocks card n s).2.2 = drive s := by
  induction n with
  | zero => intro s; rfl
  | succ n ih =>
    intro s
    simp only [MMC_read_blocks]
    split <;> simp only [ih, MMC_ReceiveDataBlock_drive]

@[simp] theorem MMC_write_blocks_drive (card : Nat → Nat) (buff : Nat → Nat) (n : Nat) :
    ∀ (off : Nat) (s : MMC), drive (MMC_write_blocks card buff off n s).2 = drive s := by
  induction n with
  | zero => intro off s; rfl
  | succ n ih =>
    intro off s
    simp only [MMC_write_blocks]
    split <;> simp only [ih, MMC_SendDataBlock_drive]

@[simp] theorem MMC_dummy_clocks_drive (card : Nat → Nat) (n : Nat) :
    ∀ s : MMC, drive (MMC_dummy_clocks card n s) = drive s := by
  induction n with
  | zero => intro s; rfl
  | succ n ih => intro s; simp only [MMC_dummy_clocks, ih, MMC_SendSPI_drive]

theorem disk_read_drive (card : Nat → Nat) (pdrv sector count : Nat) (s : MMC) :
    drive (disk_read card pdrv sector count s).2.2 = drive s := by
  unfold disk_read
  simp only [apply_ite Prod.snd, apply_ite drive, MMC_deselect_drive, MMC_send_cmd_drive,
    MMC_read_blocks_drive, MMC_ReceiveDataBlock_drive, ite_self]

theorem disk_write_drive (card : Nat → Nat) (pdrv : Nat) (buff : Nat → Nat) (sector count : Nat)
    (s : MMC) : drive (disk_write card pdrv buff sector count s).2 = drive s := by
  unfold disk_write
  simp only [apply_ite Prod.snd, apply_ite drive, MMC_deselect_drive, MMC_send_cmd_drive,
    MMC_write_blocks_drive, MMC_SendDataBlock_drive, ite_self]

theorem disk_ioctl_drive (card : Nat → Nat) (pdrv cmd : Nat) (s : MMC) :
    drive (disk_ioctl card pdrv cmd s).2.2 = drive s := by
  unfold disk_ioctl
  generalize (64 - 16 : Nat) = n
  simp only [apply_ite Prod.snd, apply_ite drive, MMC_deselect_drive, MMC_send_cmd_drive,
    MMC_select_drive, MMC_ReceiveDataBlock_drive, MMC_dummy_clocks_drive, MMC_SendSPI_drive,
    ite_self]

theorem drive_DiskStat (s t : MMC) (h : drive t = drive s) : t.DiskStat = s.DiskStat :=
  congrArg Prod.fst h

theorem drive_CardType (s t : MMC) (h : drive t = drive s) : t.CardType = s.CardType :=
  congrArg (fun x => x.2.1) h

theorem MMC_idle_loop_drive (card : Nat → Nat) (cmd arg n : Nat) :
    ∀ s : MMC, drive (MMC_idle_loop card cmd arg n s).2 = drive s := by
  induction n with
  | zero => intro s; rfl
  | succ n ih =>
    intro s
    simp only [MMC_idle_loop, apply_ite Prod.snd, apply_ite drive, ih, MMC_send_cmd_drive,
      ite_self]

theorem MMC_receive_ocr_drive (card : Nat → Nat) (s : MMC) :
    drive (MMC_receive_ocr card s).2 = drive s := by
  cases s; rfl

theorem MMC_identify_sd2_drive (card : Nat → Nat) (s : MMC) :
    drive (MMC_identify_sd2 card s).2 = drive s := by
  simp only [MMC_identify_sd2]
  repeat' split
  all_goals simp only [MMC_send_cmd_drive, MMC_idle_loop_drive, MMC_receive_ocr_drive]

theorem MMC_identify_sd1_drive (card : Nat → Nat) (s : MMC) :
    drive (MMC_identify_sd1 card s).2 = drive s := by
  simp only [MMC_identify_sd1]
  repeat' split
  all_goals simp only [MMC_send_cmd_drive, MMC_idle_loop_drive]

theorem MMC_identify_drive (card : Nat → Nat) (s : MMC) :
    drive (MMC_identify card s).2 = drive s := by
  simp only [MMC_identify]
  repeat' split
  all_goals simp only [MMC_send_cmd_drive, MMC_identify_sd2_drive, MMC_identify_sd1_drive]

theorem disk_initialize_CardType (card : Nat → Nat) (s : MMC)
    (h : s.DiskStat &&& STA_NODISK = 0) :
    ( disk_initialize card DEV_MMC s).2.CardType =
      (MMC_identify card (MMC_dummy_clocks card 10 s)).1 := by
  simp only [ disk_initialize, h, ne_eq, not_true_eq_false, if_false]
  split <;> rfl

theorem disk_initialize_DiskStat (card : Nat → Nat) (s : MMC)
    (h : s.DiskStat &&& STA_NODISK = 0) :
    ( disk_initialize card DEV_MMC s).2.DiskStat =
      if ( disk_initialize card DEV_MMC s).2.CardType ≠ 0 then
        s.DiskStat &&& (0xFF ^^^ STA_NOINIT) else s.DiskStat := by
  have e : (MMC_identify card (MMC_dummy_clocks card 10 s)).2.DiskStat = s.DiskStat := by
    have h1 := MMC_identify_drive card (MMC_dummy_clocks card 10 s)
    rw [MMC_dummy_clocks_drive] at h1
    exact drive_DiskStat _ _ h1
  rw [ disk_initialize_CardType card s h]
  simp only [ disk_initialize, h, ne_eq, not_true_eq_false, if_false]
  split
  · show (MMC_identify card (MMC_dummy_clocks card 10 s)).2.DiskStat &&& _ = _
    rw [e]
  · exact e

theorem disk_initialize_status (card : Nat → Nat) (pdrv : Nat) (s : MMC) (h : pdrv = DEV_MMC) :
    ( disk_initialize card pdrv s).1 = ( disk_initialize card pdrv s).2.DiskStat := by
  subst h
  simp only [ disk_initialize, ne_eq, not_true_eq_false, if_false]
  split <;> rfl

theorem clear_noinit_nodisk (d : Nat) :
    (d &&& (0xFF ^^^ STA_NOINIT)) &&& STA_NODISK = d &&& STA_NODISK := by
  rw [Nat.and_assoc]; rfl

theorem clear_noinit_noinit (d : Nat) : (d &&& (0xFF ^^^ STA_NOINIT)) &&& STA_NOINIT = 0 := by
  rw [Nat.and_assoc]; exact Nat.and_zero d

theorem clear_noinit_protect (d : Nat) :
    (d &&& (0xFF ^^^ STA_NOINIT)) &&& STA_PROTECT = d &&& STA_PROTECT := by
  rw [Nat.and_assoc]; rfl

/-! ## C4: a zero sector count is a parameter error -/

/-- C4: for every device state, drive number, sector and buffer, `disk_read`
and `disk_write` called with `count = 0` return RES_PARERR, store nothing
through the read buffer, and leave the whole state as it was: no byte is
exchanged (`pos` and `tx` are unchanged) and chip-select, `DiskStat` and
`CardType` keep their values. -/
theorem count_zero_parameter_error (card : Nat → Nat) (pdrv sector : Nat) (buff : Nat → Nat)
    (s : MMC) :
    disk_read card pdrv sector 0 s = (RES_PARERR, [], s) ∧
    disk_write card pdrv buff sector 0 s = (RES_PARERR, s) := by
  simp [disk_read, disk_write]

/-! ## C5: an uninitialized device is not ready -/

/-- C5: whenever the `Uninitialized` flag is set in `DiskStat`, `disk_read` and
`disk_write` (valid drive, `count ≥ 1`) and `disk_ioctl` (valid drive, every
opcode) return RES_NOTRDY, store nothing through the caller's buffer, and leave
the whole state as it was, so no byte is exchanged with the transport. -/
theorem uninitialized_not_ready (card : Nat → Nat) (buff : Nat → Nat) (sector count cmd : Nat)
    (s : MMC) (hs : s.DiskStat &&& STA_NOINIT ≠ 0) (hc : 1 ≤ count) :
    disk_read card DEV_MMC sector count s = (RES_NOTRDY, [], s) ∧
    disk_write card DEV_MMC buff sector count s = (RES_NOTRDY, s) ∧
    disk_ioctl card DEV_MMC cmd s = (RES_NOTRDY, none, s) := by
  have hc0 : count ≠ 0 := by omega
  simp [disk_read, disk_write, disk_ioctl, hs, hc0]

/-- C5 at the power-on state, for one sector and the sector-count query. -/
theorem uninitialized_not_ready_witness :
    disk_read cardCsdV2 DEV_MMC 7 1 (powerOn true false false) =
      (RES_NOTRDY, [], powerOn true false false) ∧
    disk_write cardCsdV2 DEV_MMC (fun _ => 0) 7 1 (powerOn true false false) =
      (RES_NOTRDY, powerOn true false false) ∧
    disk_ioctl cardCsdV2 DEV_MMC GET_SECTOR_COUNT (powerOn true false false) =
      (RES_NOTRDY, none, powerOn true false false) :=
  uninitialized_not_ready cardCsdV2 (fun _ => 0) 7 1 GET_SECTOR_COUNT (powerOn true false false)
    (by decide) (by decide)

/-! ## C6: a write-protected device refuses to write -/

/-- C6: for every initialized device whose `WriteProtected` flag is set,
`disk_write` with a valid drive and `count ≥ 1` returns RES_WRPRT and leaves
the whole state as it was; in particular the list of bytes sent to the
transport is unchanged, so no data token (0xFE, 0xFC or 0xFD) is sent. -/
theorem write_protected_refused (card : Nat → Nat) (buff : Nat → Nat) (sector count : Nat)
    (s : MMC) (hi : s.DiskStat &&& STA_NOINIT = 0) (hp : s.DiskStat &&& STA_PROTECT ≠ 0)
    (hc : 1 ≤ count) :
    disk_write card DEV_MMC buff sector count s = (RES_WRPRT, s) ∧
    (disk_write card DEV_MMC buff sector count s).2.tx = s.tx ∧
    (disk_write card DEV_MMC buff sector count s).2.pos = s.pos := by
  have hc0 : count ≠ 0 := by omega
  simp [disk_write, hi, hp, hc0]

/-- C6 at an initialized, write-protected device, for a run of three sectors. -/
theorem write_protected_refused_witness :
    disk_write cardCsdV2 DEV_MMC (fun i => i) 0 3 { readyState with DiskStat := STA_PROTECT } =
      (RES_WRPRT, { readyState with DiskStat := STA_PROTECT }) ∧
    (disk_write cardCsdV2 DEV_MMC (fun i => i) 0 3
      { readyState with DiskStat := STA_PROTECT }).2.tx = [] ∧
    (disk_write cardCsdV2 DEV_MMC (fun i => i) 0 3
      { readyState with DiskStat := STA_PROTECT }).2.pos = 0 :=
  write_protected_refused cardCsdV2 (fun i => i) 0 3 { readyState with DiskStat := STA_PROTECT }
    (by decide) (by decide) (by decide)

/-! ## C9: `NoMedia` implies `Uninitialized` -/

theorem disk_initialize_StatusOk (card : Nat → Nat) (pdrv : Nat) (s : MMC)
    (hs : StatusOk s.DiskStat) :
    StatusOk ( disk_initialize card pdrv s).2.DiskStat ∧
      StatusOk ( disk_initialize card pdrv s).1 := by
  by_cases hp : pdrv = DEV_MMC
  · rw [ disk_initialize_status card pdrv s hp]
    subst hp
    refine ⟨?_, ?_⟩ <;>
    · by_cases hn : s.DiskStat &&& STA_NODISK = 0
      · rw [ disk_initialize_DiskStat card s hn]
        split
        · intro h
          rw [clear_noinit_nodisk] at h
          exact absurd hn h
        · exact hs
      · simpa [ disk_initialize, hn] using hs
  · simp only [ disk_initialize, ne_eq, hp, not_false_eq_true, if_true]
    exact ⟨hs, by decide⟩

/-- C9: the predicate "`NoMedia` set implies `Uninitialized` set" holds of the
status word in the power-on state, and every operation, run to completion from
a state where it holds, leaves a state where it holds: `MMC_Init`,
`MMC_Interrupt`, `MMC_Eject`, `disk_status` (which changes nothing and returns
such a word), `disk_initialize` (state and returned word), `disk_read`,
`disk_write` and `disk_ioctl`, for every presence-pin value, every argument and
every card response stream. -/
theorem nomedia_implies_uninitialized :
    (∀ cs ins iocf, StatusOk (powerOn cs ins iocf).DiskStat) ∧
    ∀ (card : Nat → Nat) (s : MMC), StatusOk s.DiskStat →
      StatusOk (MMC_Init s).DiskStat ∧
      StatusOk (MMC_Interrupt s).DiskStat ∧
      StatusOk (MMC_Eject s).DiskStat ∧
      (∀ pdrv, StatusOk (disk_status pdrv s)) ∧
      (∀ pdrv, StatusOk ( disk_initialize card pdrv s).2.DiskStat ∧
        StatusOk ( disk_initialize card pdrv s).1) ∧
      (∀ pdrv sector count, StatusOk (disk_read card pdrv sector count s).2.2.DiskStat) ∧
      (∀ pdrv buff sector count,
        StatusOk (disk_write card pdrv buff sector count s).2.DiskStat) ∧
      (∀ pdrv cmd, StatusOk (disk_ioctl card pdrv cmd s).2.2.DiskStat) := by
  have h1 : StatusOk STA_NOINIT := by decide
  have h3 : StatusOk (STA_NOINIT ||| STA_NODISK) := by decide
  refine ⟨fun _ _ _ => h1, ?_⟩
  intro card s hs
  refine ⟨?_, ?_, ?_, ?_, ?_, ?_, ?_, ?_⟩
  · simp only [MMC_Init]
    split
    · exact h1
    · exact h3
  · simp only [MMC_Interrupt]
    split
    · split
      · exact h1
      · exact h3
    · exact hs
  · exact h3
  · intro pdrv
    simp only [disk_status]
    split
    · exact h1
    · exact hs
  · intro pdrv
    exact disk_initialize_StatusOk card pdrv s hs
  · intro pdrv sector count
    rw [drive_DiskStat _ _ (disk_read_drive card pdrv sector count s)]
    exact hs
  · intro pdrv buff sector count
    rw [drive_DiskStat _ _ (disk_write_drive card pdrv buff sector count s)]
    exact hs
  · intro pdrv cmd
    rw [drive_DiskStat _ _ (disk_ioctl_drive card pdrv cmd s)]
    exact hs

/-- C9 at the state after an eject with a card that answers the sector-count
query: the invariant holds there and after each operation. -/
theorem nomedia_implies_uninitialized_witness :
    StatusOk (MMC_Eject (powerOn true false false)).DiskStat ∧
    StatusOk (MMC_Interrupt (MMC_Eject (powerOn true false false))).DiskStat ∧
    StatusOk
      ( disk_initialize cardCsdV2 DEV_MMC (MMC_Eject (powerOn true false false))).2.DiskStat :=
  have h := nomedia_implies_uninitialized.2 cardCsdV2 (MMC_Eject (powerOn true false false))
    (by decide)
  ⟨by decide, h.2.1, (h.2.2.2.2.1 DEV_MMC).1⟩

/-! ## Runs against cards that answer alike -/

theorem SameStream_of_pos (card1 card2 : Nat → Nat) (s1 s2 t1 t2 : MMC)
    (h : SameStream card1 card2 s1 s2) (e1 : t1.pos = s1.pos) (e2 : t2.pos = s2.pos) :
    SameStream card1 card2 t1 t2 := by
  intro i
  rw [e1, e2]
  exact h i

theorem MMC_SendSPI_same (card1 card2 : Nat → Nat) (d1 d2 : Nat) (s1 s2 : MMC)
    (h : SameStream card1 card2 s1 s2) :
    SameOut card1 card2 (MMC_SendSPI card1 d1 s1) (MMC_SendSPI card2 d2 s2) := by
  refine ⟨by simpa using h 0, ?_⟩
  intro i
  have := h (1 + i)
  simpa [MMC_SendSPI, Nat.add_assoc] using this

theorem MMC_wait_ready_loop_same (card1 card2 : Nat → Nat) (n : Nat) :
    ∀ s1 s2 : MMC, SameStream card1 card2 s1 s2 →
      SameOut card1 card2 (MMC_wait_ready_loop card1 n s1) (MMC_wait_ready_loop card2 n s2) := by
  induction n with
  | zero => intro s1 s2 h; exact ⟨rfl, h⟩
  | succ n ih =>
    intro s1 s2 h
    obtain ⟨hv, hs⟩ := MMC_SendSPI_same card1 card2 0xFF 0xFF s1 s2 h
    simp only [MMC_wait_ready_loop, hv]
    split
    · exact ⟨rfl, hs⟩
    · exact ih _ _ hs

theorem MMC_wait_ready_same (card1 card2 : Nat → Nat) (wt : Nat) (s1 s2 : MMC)
    (h : SameStream card1 card2 s1 s2) :
    SameOut card1 card2 (MMC_wait_ready card1 wt s1) (MMC_wait_ready card2 wt s2) :=
  MMC_wait_ready_loop_same card1 card2 _ s1 s2 h

theorem MMC_deselect_same (card1 card2 : Nat → Nat) (s1 s2 : MMC)
    (h : SameStream card1 card2 s1 s2) :
    SameStream card1 card2 (MMC_deselect card1 s1) (MMC_deselect card2 s2) :=
  (MMC_SendSPI_same card1 card2 0xFF 0xFF _ _
    (SameStream_of_pos card1 card2 s1 s2 _ _ h rfl rfl)).2

theorem MMC_select_same (card1 card2 : Nat → Nat) (s1 s2 : MMC)
    (h : SameStream card1 card2 s1 s2) :
    SameOut card1 card2 (MMC_select card1 s1) (MMC_select card2 s2) := by
  have a := (MMC_SendSPI_same card1 card2 0xFF 0xFF _ _
    (SameStream_of_pos card1 card2 s1 s2 { s1 with MMC_CS := false } { s2 with MMC_CS := false }
      h rfl rfl)).2
  obtain ⟨hv, hs⟩ := MMC_wait_ready_same card1 card2 500 _ _ a
  simp only [MMC_select, hv]
  split
  · exact ⟨rfl, hs⟩
  · exact ⟨rfl, MMC_deselect_same card1 card2 _ _ hs⟩

theorem MMC_response_loop_same (card1 card2 : Nat → Nat) (n : Nat) :
    ∀ s1 s2 : MMC, SameStream card1 card2 s1 s2 →
      SameOut card1 card2 (MMC_response_loop card1 n s1) (MMC_response_loop card2 n s2) := by
  induction n with
  | zero => intro s1 s2 h; exact MMC_SendSPI_same card1 card2 0xFF 0xFF s1 s2 h
  | succ n ih =>
    intro s1 s2 h
    obtain ⟨hv, hs⟩ := MMC_SendSPI_same card1 card2 0xFF 0xFF s1 s2 h
    simp only [MMC_response_loop, hv]
    split
    · exact ih _ _ hs
    · exact ⟨hv, hs⟩

theorem MMC_send_cmd_internal_same (card1 card2 : Nat → Nat) (cmd arg : Nat) (s1 s2 : MMC)
    (h : SameStream card1 card2 s1 s2) :
    SameOut card1 card2 (MMC_send_cmd_internal card1 cmd arg s1)
      (MMC_send_cmd_internal card2 cmd arg s2) := by
  obtain ⟨hv, hs⟩ := MMC_select_same card1 card2 _ _ (MMC_deselect_same card1 card2 s1 s2 h)
  have h1 := (MMC_SendSPI_same card1 card2 (0x40 ||| cmd) (0x40 ||| cmd) _ _ hs).2
  have h2 := (MMC_SendSPI_same card1 card2 ((arg >>> 24) % 256) ((arg >>> 24) % 256) _ _ h1).2
  have h3 := (MMC_SendSPI_same card1 card2 ((arg >>> 16) % 256) ((arg >>> 16) % 256) _ _ h2).2
  have h4 := (MMC_SendSPI_same card1 card2 ((arg >>> 8) % 256) ((arg >>> 8) % 256) _ _ h3).2
  have h5 := (MMC_SendSPI_same card1 card2 (arg % 256) (arg % 256) _ _ h4).2
  have h6 := (MMC_SendSPI_same card1 card2 (cmd_crc cmd) (cmd_crc cmd) _ _ h5).2
  have h7 := (MMC_SendSPI_same card1 card2 0xFF 0xFF _ _ h6).2
  simp only [MMC_send_cmd_internal, hv]
  split
  · exact ⟨rfl, hs⟩
  · split
    · exact MMC_response_loop_same card1 card2 9 _ _ h7
    · exact MMC_response_loop_same card1 card2 9 _ _ h6

theorem MMC_send_cmd_same (card1 card2 : Nat → Nat) (cmd arg : Nat) (s1 s2 : MMC)
    (h : SameStream card1 card2 s1 s2) :
    SameOut card1 card2 (MMC_send_cmd card1 cmd arg s1) (MMC_send_cmd card2 cmd arg s2) := by
  obtain ⟨hv, hs⟩ := MMC_send_cmd_internal_same card1 card2 CMD55 0 s1 s2 h
  simp only [MMC_send_cmd, hv]
  split
  · split
    · exact ⟨hv, hs⟩
    · exact MMC_send_cmd_internal_same card1 card2 _ _ _ _ hs
  · exact MMC_send_cmd_internal_same card1 card2 _ _ _ _ h

theorem MMC_idle_loop_same (card1 card2 : Nat → Nat) (cmd arg n : Nat) :
    ∀ s1 s2 : MMC, SameStream card1 card2 s1 s2 →
      SameOut card1 card2 (MMC_idle_loop card1 cmd arg n s1)
        (MMC_idle_loop card2 cmd arg n s2) := by
  induction n with
  | zero => intro s1 s2 h; exact ⟨rfl, h⟩
  | succ n ih =>
    intro s1 s2 h
    obtain ⟨hv, hs⟩ := MMC_send_cmd_same card1 card2 cmd arg s1 s2 h
    simp only [MMC_idle_loop, hv]
    split
    · exact ⟨rfl, hs⟩
    · exact ih _ _ hs

theorem MMC_receive_ocr_same (card1 card2 : Nat → Nat) (s1 s2 : MMC)
    (h : SameStream card1 card2 s1 s2) :
    SameOut card1 card2 (MMC_receive_ocr card1 s1) (MMC_receive_ocr card2 s2) := by
  obtain ⟨v0, h0⟩ := MMC_SendSPI_same card1 card2 0xFF 0xFF s1 s2 h
  obtain ⟨v1, h1⟩ := MMC_SendSPI_same card1 card2 0xFF 0xFF _ _ h0
  obtain ⟨v2, h2⟩ := MMC_SendSPI_same card1 card2 0xFF 0xFF _ _ h1
  obtain ⟨v3, h3⟩ := MMC_SendSPI_same card1 card2 0xFF 0xFF _ _ h2
  refine ⟨?_, h3⟩
  simp only [MMC_receive_ocr, v0, v1, v2, v3]

theorem MMC_dummy_clocks_same (card1 card2 : Nat → Nat) (n : Nat) :
    ∀ s1 s2 : MMC, SameStream card1 card2 s1 s2 →
      SameStream card1 card2 (MMC_dummy_clocks card1 n s1) (MMC_dummy_clocks card2 n s2) := by
  induction n with
  | zero => intro s1 s2 h; exact h
  | succ n ih =>
    intro s1 s2 h
    exact ih _ _ (MMC_SendSPI_same card1 card2 0xFF 0xFF s1 s2 h).2

theorem MMC_identify_sd2_same (card1 card2 : Nat → Nat) (s1 s2 : MMC)
    (h : SameStream card1 card2 s1 s2) :
    SameOut card1 card2 (MMC_identify_sd2 card1 s1) (MMC_identify_sd2 card2 s2) := by
  obtain ⟨vo, ho⟩ := MMC_receive_ocr_same card1 card2 s1 s2 h
  obtain ⟨vw, hw⟩ := MMC_idle_loop_same card1 card2 ACMD41 (2 ^ 30) 1000 _ _ ho
  obtain ⟨v58, h58⟩ := MMC_send_cmd_same card1 card2 CMD58 0 _ _ hw
  obtain ⟨vo2, ho2⟩ := MMC_receive_ocr_same card1 card2 _ _ h58
  simp only [MMC_identify_sd2, vo, vw, v58, vo2]
  split
  · split
    · split
      · exact ⟨rfl, ho2⟩
      · exact ⟨rfl, h58⟩
    · exact ⟨rfl, hw⟩
  · exact ⟨rfl, ho⟩

theorem MMC_identify_sd1_same (card1 card2 : Nat → Nat) (s1 s2 : MMC)
    (h : SameStream card1 card2 s1 s2) :
    SameOut card1 card2 (MMC_identify_sd1 card1 s1) (MMC_identify_sd1 card2 s2) := by
  obtain ⟨va, ha⟩ := MMC_send_cmd_same card1 card2 ACMD41 0 s1 s2 h
  by_cases hle : (MMC_send_cmd card2 ACMD41 0 s2).1 ≤ 1
  · obtain ⟨vw, hw⟩ := MMC_idle_loop_same card1 card2 ACMD41 0 1000 _ _ ha
    obtain ⟨v16, h16⟩ := MMC_send_cmd_same card1 card2 CMD16 512 _ _ hw
    simp only [MMC_identify_sd1, va, hle, if_true, vw, v16]
    split
    · exact ⟨rfl, hw⟩
    · exact ⟨rfl, h16⟩
  · obtain ⟨vw, hw⟩ := MMC_idle_loop_same card1 card2 CMD1 0 1000 _ _ ha
    obtain ⟨v16, h16⟩ := MMC_send_cmd_same card1 card2 CMD16 512 _ _ hw
    simp only [MMC_identify_sd1, va, hle, if_false, vw, v16]
    split
    · exact ⟨rfl, hw⟩
    · exact ⟨rfl, h16⟩

theorem MMC_identify_same (card1 card2 : Nat → Nat) (s1 s2 : MMC)
    (h : SameStream card1 card2 s1 s2) :
    SameOut card1 card2 (MMC_identify card1 s1) (MMC_identify card2 s2) := by
  obtain ⟨v0, h0⟩ := MMC_send_cmd_same card1 card2 CMD0 0 s1 s2 h
  obtain ⟨v8, h8⟩ := MMC_send_cmd_same card1 card2 CMD8 0x1AA _ _ h0
  simp only [MMC_identify, v0, v8]
  split
  · split
    · exact MMC_identify_sd2_same card1 card2 _ _ h8
    · exact MMC_identify_sd1_same card1 card2 _ _ h8
  · exact ⟨rfl, h0⟩

theorem disk_initialize_ready (card : Nat → Nat) (s : MMC)
    (h : s.DiskStat &&& STA_NODISK = 0)
    (hty : ( disk_initialize card DEV_MMC s).2.CardType ≠ 0) :
    ( disk_initialize card DEV_MMC s).1 &&& STA_NOINIT = 0 := by
  rw [ disk_initialize_status card DEV_MMC s rfl, disk_initialize_DiskStat card s h, if_pos hty]
  exact clear_noinit_noinit _

theorem disk_initialize_failed (card : Nat → Nat) (s : MMC)
    (h : s.DiskStat &&& STA_NODISK = 0)
    (hty : ( disk_initialize card DEV_MMC s).2.CardType = 0) :
    ( disk_initialize card DEV_MMC s).1 = s.DiskStat ∧
      ( disk_initialize card DEV_MMC s).2.DiskStat = s.DiskStat := by
  rw [ disk_initialize_status card DEV_MMC s rfl, disk_initialize_DiskStat card s h,
    if_neg (by simpa using hty)]
  exact ⟨rfl, rfl⟩

/-! ## C7: a failed initialization and the `Uninitialized` flag -/

/-- C7, at the failing input: the device was initialized before (`DiskStat = 0`,
`CardType = CT_SD2 | CT_BLOCK`, `NoMedia` clear) and the card no longer answers
(every byte read is 0xFF).  `disk_initialize` ends with `CardType = 0`, yet the
status it returns and leaves in `DiskStat` is 0: `Uninitialized` is clear. -/
theorem initialize_failure_stays_initialized :
    readyState.DiskStat &&& STA_NODISK = 0 ∧
    ( disk_initialize cardSilent DEV_MMC readyState).2.CardType = 0 ∧
    ( disk_initialize cardSilent DEV_MMC readyState).1 = 0 ∧
    ( disk_initialize cardSilent DEV_MMC readyState).1 &&& STA_NOINIT = 0 ∧
    ( disk_initialize cardSilent DEV_MMC readyState).2.DiskStat &&& STA_NOINIT = 0 := by
  decide

/-! ## C8: initialization is idempotent -/

/-- C8: for any two starting states with `NoMedia` clear, whatever their prior
`CardType` and `Uninitialized` flag, run against cards that answer alike from
where each state stands (in particular the same card answering two consecutive
runs identically), `disk_initialize` leaves the same `CardType`; and whenever
that `CardType` is non-zero the status returned by each run has `Uninitialized`
clear. -/
theorem initialize_idempotent (card1 card2 : Nat → Nat) (s1 s2 : MMC)
    (h1 : s1.DiskStat &&& STA_NODISK = 0) (h2 : s2.DiskStat &&& STA_NODISK = 0)
    (h : SameStream card1 card2 s1 s2) :
    ( disk_initialize card1 DEV_MMC s1).2.CardType =
      ( disk_initialize card2 DEV_MMC s2).2.CardType ∧
    (( disk_initialize card1 DEV_MMC s1).2.CardType ≠ 0 →
      ( disk_initialize card1 DEV_MMC s1).1 &&& STA_NOINIT = 0 ∧
      ( disk_initialize card2 DEV_MMC s2).1 &&& STA_NOINIT = 0) := by
  have hty : ( disk_initialize card1 DEV_MMC s1).2.CardType =
      ( disk_initialize card2 DEV_MMC s2).2.CardType := by
    rw [ disk_initialize_CardType card1 s1 h1, disk_initialize_CardType card2 s2 h2]
    exact (MMC_identify_same card1 card2 _ _ (MMC_dummy_clocks_same card1 card2 10 s1 s2 h)).1
  refine ⟨hty, fun hne => ⟨disk_initialize_ready card1 s1 h1 hne, ?_⟩⟩
  exact disk_initialize_ready card2 s2 h2 (hty ▸ hne)

/-- C8 at two calls in a row from power-on, against an SD version 2 card that
answers both runs identically: both leave `CT_SD2 | CT_BLOCK` and both return a
status with `Uninitialized` clear. -/
theorem initialize_idempotent_witness :
    ( disk_initialize cardSD2 DEV_MMC (powerOn true false false)).2.CardType =
      ( disk_initialize cardSD2 DEV_MMC
        ( disk_initialize cardSD2 DEV_MMC (powerOn true false false)).2).2.CardType ∧
    (( disk_initialize cardSD2 DEV_MMC (powerOn true false false)).2.CardType ≠ 0 →
      ( disk_initialize cardSD2 DEV_MMC (powerOn true false false)).1 &&& STA_NOINIT = 0 ∧
      ( disk_initialize cardSD2 DEV_MMC
        ( disk_initialize cardSD2 DEV_MMC (powerOn true false false)).2).1 &&& STA_NOINIT = 0) :=
  initialize_idempotent cardSD2 cardSD2 (powerOn true false false)
    ( disk_initialize cardSD2 DEV_MMC (powerOn true false false)).2 (by decide) (by decide)
    (by
      have hp : ( disk_initialize cardSD2 DEV_MMC (powerOn true false false)).2.pos = 69 := by
        decide
      intro i
      rw [hp]
      simp [cardSD2, powerOn, Nat.add_mod_left])

/-! ## C3: the result and the buffer of `disk_read` -/

theorem MMC_read_blocks_succ (card : Nat → Nat) (n : Nat) (s : MMC) :
    MMC_read_blocks card (n + 1) s =
      if (MMC_ReceiveDataBlock card 512 s).1 = 0 then
        (n + 1, [], (MMC_ReceiveDataBlock card 512 s).2.2)
      else ((MMC_read_blocks card n (MMC_ReceiveDataBlock card 512 s).2.2).1,
        (MMC_ReceiveDataBlock card 512 s).2.1 ++
          (MMC_read_blocks card n (MMC_ReceiveDataBlock card 512 s).2.2).2.1,
        (MMC_read_blocks card n (MMC_ReceiveDataBlock card 512 s).2.2).2.2) := by
  rw [MMC_read_blocks]

theorem MMC_read_blocks_of_blocks (card : Nat → Nat) (n : Nat) :
    ∀ (s : MMC) (data : List Nat), BlocksAt card s.pos n data →
      (MMC_read_blocks card n s).1 = 0 ∧ (MMC_read_blocks card n s).2.1 = data := by
  induction n with
  | zero =>
    intro s data h
    exact ⟨rfl, h.symm⟩
  | succ n ih =>
    intro s data h
    obtain ⟨k, ht, rest, hd, hrest⟩ := h
    have hb := MMC_ReceiveDataBlock_ok card 512 s k ht
    have e : (idleClocks (k + 1 + 512 + 2) s).pos = s.pos + k + 1 + 512 + 2 := by
      rw [idleClocks_pos]; omega
    rw [← e] at hrest
    obtain ⟨h1, h2⟩ := ih _ _ hrest
    rw [MMC_read_blocks_succ, hb, if_neg (by exact one_ne_zero)]
    exact ⟨h1, by rw [h2, hd]⟩

theorem MMC_blocks_of_read_blocks (card : Nat → Nat) (n : Nat) :
    ∀ s : MMC, (MMC_read_blocks card n s).1 = 0 →
      BlocksAt card s.pos n (MMC_read_blocks card n s).2.1 := by
  induction n with
  | zero =>
    intro s _
    exact rfl
  | succ n ih =>
    intro s h
    by_cases hb0 : (MMC_ReceiveDataBlock card 512 s).1 = 0
    · rw [MMC_read_blocks_succ, if_pos hb0] at h
      exact absurd h (Nat.succ_ne_zero n)
    · obtain ⟨k, ht⟩ := MMC_ReceiveDataBlock_token card 512 s hb0
      have hb := MMC_ReceiveDataBlock_ok card 512 s k ht
      have e : (idleClocks (k + 1 + 512 + 2) s).pos = s.pos + k + 1 + 512 + 2 := by
        rw [idleClocks_pos]; omega
      rw [MMC_read_blocks_succ, hb, if_neg (by exact one_ne_zero)] at h ⊢
      dsimp only at h ⊢
      have hrec := ih (idleClocks (k + 1 + 512 + 2) s) h
      rw [e] at hrec
      exact ⟨k, ht, _, rfl, hrec⟩

theorem disk_read_single (card : Nat → Nat) (sector : Nat) (s : MMC)
    (hinit : s.DiskStat &&& STA_NOINIT = 0) :
    ((disk_read card DEV_MMC sector 1 s).1 = RES_OK ↔
      (MMC_send_cmd card CMD17 (sector_arg s sector) s).1 = 0 ∧
      ∃ data, BlocksAt card (MMC_send_cmd card CMD17 (sector_arg s sector) s).2.pos 1 data) ∧
    ((disk_read card DEV_MMC sector 1 s).1 = RES_OK →
      BlocksAt card (MMC_send_cmd card CMD17 (sector_arg s sector) s).2.pos 1
        (disk_read card DEV_MMC sector 1 s).2.1) := by
  by_cases hc : (MMC_send_cmd card CMD17 (sector_arg s sector) s).1 = 0
  · by_cases hb0 : (MMC_ReceiveDataBlock card 512
        (MMC_send_cmd card CMD17 (sector_arg s sector) s).2).1 = 0
    · have hres : (disk_read card DEV_MMC sector 1 s).1 = RES_ERROR := by
        simp [disk_read, hinit, hc, hb0]
      refine ⟨⟨fun h => ?_, fun h => ?_⟩, fun h => ?_⟩
      · rw [hres] at h; exact absurd h (by decide)
      · obtain ⟨_, data, k, ht, _⟩ := h
        rw [MMC_ReceiveDataBlock_ok card 512 _ k ht] at hb0
        exact absurd hb0 (Nat.succ_ne_zero 0)
      · rw [hres] at h; exact absurd h (by decide)
    · obtain ⟨k, ht⟩ := MMC_ReceiveDataBlock_token card 512 _ hb0
      have hb := MMC_ReceiveDataBlock_ok card 512 _ k ht
      have hres : (disk_read card DEV_MMC sector 1 s).1 = RES_OK := by
        simp [disk_read, hinit, hc, hb0]
      have hdat : (disk_read card DEV_MMC sector 1 s).2.1 =
          rxBytes card ((MMC_send_cmd card CMD17 (sector_arg s sector) s).2.pos + k + 1) 512 := by
        simp [disk_read, hinit, hc, hb]
      have hblk : BlocksAt card (MMC_send_cmd card CMD17 (sector_arg s sector) s).2.pos 1
          (disk_read card DEV_MMC sector 1 s).2.1 :=
        ⟨k, ht, [], by rw [hdat, List.append_nil], rfl⟩
      exact ⟨⟨fun _ => ⟨hc, _, hblk⟩, fun _ => hres⟩, fun _ => hblk⟩
  · have hres : (disk_read card DEV_MMC sector 1 s).1 = RES_ERROR := by
      simp [disk_read, hinit, hc]
    refine ⟨⟨fun h => ?_, fun h => absurd h.1 hc⟩, fun h => ?_⟩ <;>
    · rw [hres] at h; exact absurd h (by decide)

theorem disk_read_multi (card : Nat → Nat) (sector count : Nat) (s : MMC)
    (hinit : s.DiskStat &&& STA_NOINIT = 0) (hc : 1 < count) :
    ((disk_read card DEV_MMC sector count s).1 = RES_OK ↔
      (MMC_send_cmd card CMD18 (sector_arg s sector) s).1 = 0 ∧
      ∃ data,
        BlocksAt card (MMC_send_cmd card CMD18 (sector_arg s sector) s).2.pos count data) ∧
    ((disk_read card DEV_MMC sector count s).1 = RES_OK →
      BlocksAt card (MMC_send_cmd card CMD18 (sector_arg s sector) s).2.pos count
        (disk_read card DEV_MMC sector count s).2.1) := by
  have h0 : count ≠ 0 := by omega
  have h1 : count ≠ 1 := by omega
  by_cases hcmd : (MMC_send_cmd card CMD18 (sector_arg s sector) s).1 = 0
  · have hres : (disk_read card DEV_MMC sector count s).1 =
        if (MMC_read_blocks card count (MMC_send_cmd card CMD18 (sector_arg s sector) s).2).1 > 0
        then RES_ERROR else RES_OK := by
      simp [disk_read, hinit, hcmd, h0, h1]
    have hdat : (disk_read card DEV_MMC sector count s).2.1 =
        (MMC_read_blocks card count (MMC_send_cmd card CMD18 (sector_arg s sector) s).2).2.1 := by
      simp [disk_read, hinit, hcmd, h0, h1]
    by_cases hl : (MMC_read_blocks card count
        (MMC_send_cmd card CMD18 (sector_arg s sector) s).2).1 = 0
    · have hblk := MMC_blocks_of_read_blocks card count _ hl
      rw [← hdat] at hblk
      have hok : (disk_read card DEV_MMC sector count s).1 = RES_OK := by
        rw [hres, hl]; rfl
      exact ⟨⟨fun _ => ⟨hcmd, _, hblk⟩, fun _ => hok⟩, fun _ => hblk⟩
    · have herr : (disk_read card DEV_MMC sector count s).1 = RES_ERROR := by
        rw [hres, if_pos (Nat.pos_of_ne_zero hl)]
      refine ⟨⟨fun h => ?_, fun h => ?_⟩, fun h => ?_⟩
      · rw [herr] at h; exact absurd h (by decide)
      · obtain ⟨_, data, hb⟩ := h
        exact absurd (MMC_read_blocks_of_blocks card count _ data hb).1 hl
      · rw [herr] at h; exact absurd h (by decide)
  · have hres : (disk_read card DEV_MMC sector count s).1 = RES_ERROR := by
      simp [disk_read, hinit, hcmd, h0, h1]
    refine ⟨⟨fun h => ?_, fun h => absurd h.1 hcmd⟩, fun h => ?_⟩ <;>
    · rw [hres] at h; exact absurd h (by decide)

/-- C3: for every initialized device, sector, `count ≥ 1` and card response
stream, `disk_read` returns RES_OK if and only if the read command (CMD17 for
one sector, CMD18 for more) was answered 0 and, from the exchange after that
response on, each of the `count` data packets is announced by the start token
0xFE as the first byte other than 0xFF within the window of 2000 polls; and
when it returns RES_OK the bytes stored through `buff` are, in order, exactly
the 512 payload bytes that follow each token, the two checksum bytes after each
packet being left out. -/
theorem disk_read_ok_iff (card : Nat → Nat) (sector count : Nat) (s : MMC)
    (hinit : s.DiskStat &&& STA_NOINIT = 0) (hc : 1 ≤ count) :
    ((disk_read card DEV_MMC sector count s).1 = RES_OK ↔
      (MMC_send_cmd card (if count = 1 then CMD17 else CMD18) (sector_arg s sector) s).1 = 0 ∧
      ∃ data, BlocksAt card
        (MMC_send_cmd card (if count = 1 then CMD17 else CMD18) (sector_arg s sector) s).2.pos
        count data) ∧
    ((disk_read card DEV_MMC sector count s).1 = RES_OK →
      BlocksAt card
        (MMC_send_cmd card (if count = 1 then CMD17 else CMD18) (sector_arg s sector) s).2.pos
        count (disk_read card DEV_MMC sector count s).2.1) := by
  by_cases h1 : count = 1
  · subst h1
    rw [if_pos rfl]
    exact disk_read_single card sector s hinit
  · rw [if_neg h1]
    exact disk_read_multi card sector count s hinit (by omega)

/-- C3 at a single-sector read from a card that accepts CMD17 and sends a
packet behind the start token: the read succeeds and the buffer holds the
payload. -/
theorem disk_read_ok_iff_witness :
    (disk_read cardCsdV2 DEV_MMC 0 1 readyState).1 = RES_OK ∧
    BlocksAt cardCsdV2
      (MMC_send_cmd cardCsdV2 (if 1 = 1 then CMD17 else CMD18) (sector_arg readyState 0)
        readyState).2.pos
      1 (disk_read cardCsdV2 DEV_MMC 0 1 readyState).2.1 :=
  have h := disk_read_ok_iff cardCsdV2 0 1 readyState (by decide) (by decide)
  have hok : (disk_read cardCsdV2 DEV_MMC 0 1 readyState).1 = RES_OK := by decide
  ⟨hok, h.2 hok⟩

/-! ## The bytes sent only grow -/

theorem Extends.refl (s : MMC) : Extends s s := ⟨[], (List.append_nil _).symm⟩

theorem Extends.trans {s t u : MMC} (h1 : Extends s t) (h2 : Extends t u) : Extends s u := by
  obtain ⟨a, ha⟩ := h1
  obtain ⟨b, hb⟩ := h2
  exact ⟨a ++ b, by rw [hb, ha, List.append_assoc]⟩

theorem MMC_SendSPI_tx (card : Nat → Nat) (d : Nat) (s : MMC) :
    (MMC_SendSPI card d s).2.tx = s.tx ++ [d % 256] := by
  cases s; rfl

theorem MMC_SendSPI_extends (card : Nat → Nat) (d : Nat) (s : MMC) :
    Extends s (MMC_SendSPI card d s).2 := ⟨_, MMC_SendSPI_tx card d s⟩

theorem MMC_wait_ready_loop_extends (card : Nat → Nat) (n : Nat) :
    ∀ s : MMC, Extends s (MMC_wait_ready_loop card n s).2 := by
  induction n with
  | zero => intro s; exact Extends.refl s
  | succ n ih =>
    intro s
    simp only [MMC_wait_ready_loop]
    split
    · exact MMC_SendSPI_extends card 0xFF s
    · exact (MMC_SendSPI_extends card 0xFF s).trans (ih _)

theorem MMC_deselect_tx (card : Nat → Nat) (s : MMC) :
    (MMC_deselect card s).tx = s.tx ++ [0xFF] := by
  cases s; rfl

theorem MMC_deselect_extends (card : Nat → Nat) (s : MMC) : Extends s (MMC_deselect card s) :=
  ⟨_, MMC_deselect_tx card s⟩

theorem MMC_select_extends (card : Nat → Nat) (s : MMC) : Extends s (MMC_select card s).2 := by
  have h1 : Extends s (MMC_SendSPI card 0xFF { s with MMC_CS := false }).2 :=
    ⟨_, MMC_SendSPI_tx card 0xFF { s with MMC_CS := false }⟩
  have h2 := h1.trans (MMC_wait_ready_loop_extends card ((500 * 10) % 65536) _)
  simp only [MMC_select]
  split
  · exact h2
  · exact h2.trans (MMC_deselect_extends card _)

theorem MMC_response_loop_extends (card : Nat → Nat) (n : Nat) :
    ∀ s : MMC, Extends s (MMC_response_loop card n s).2 := by
  induction n with
  | zero => intro s; exact MMC_SendSPI_extends card 0xFF s
  | succ n ih =>
    intro s
    simp only [MMC_response_loop]
    split
    · exact (MMC_SendSPI_extends card 0xFF s).trans (ih _)
    · exact MMC_SendSPI_extends card 0xFF s

theorem idleClocks_extends (n : Nat) (s : MMC) : Extends s (idleClocks n s) := ⟨_, rfl⟩

theorem MMC_token_loop_extends (card : Nat → Nat) (n : Nat) :
    ∀ (tok : Nat) (s : MMC), Extends s (MMC_token_loop card n tok s).2 := by
  induction n with
  | zero => intro tok s; exact Extends.refl s
  | succ n ih =>
    intro tok s
    simp only [MMC_token_loop]
    split
    · exact MMC_SendSPI_extends card 0xFF s
    · exact (MMC_SendSPI_extends card 0xFF s).trans (ih _ _)

theorem MMC_ReceiveDataBlock_extends (card : Nat → Nat) (btr : Nat) (s : MMC) :
    Extends s (MMC_ReceiveDataBlock card btr s).2.2 := by
  have h1 := MMC_token_loop_extends card 2000 0 s
  simp only [MMC_ReceiveDataBlock, MMC_ReceiveBytesSPI_eq]
  split
  · exact h1
  · exact ((h1.trans (idleClocks_extends btr _)).trans (MMC_SendSPI_extends card 0xFF _)).trans
      (MMC_SendSPI_extends card 0xFF _)

theorem MMC_read_blocks_extends (card : Nat → Nat) (n : Nat) :
    ∀ s : MMC, Extends s (MMC_read_blocks card n s).2.2 := by
  induction n with
  | zero => intro s; exact Extends.refl s
  | succ n ih =>
    intro s
    rw [MMC_read_blocks_succ]
    split
    · exact MMC_ReceiveDataBlock_extends card 512 s
    · exact (MMC_ReceiveDataBlock_extends card 512 s).trans (ih _)

theorem cmd_crc_lt (cmd : Nat) : cmd_crc cmd < 256 := by
  unfold cmd_crc
  split
  · decide
  · split <;> decide

theorem MMC_send_cmd_internal_accepted (card : Nat → Nat) (cmd arg : Nat) (s : MMC)
    (h : (MMC_send_cmd_internal card cmd arg s).1 = 0) :
    (MMC_select card (MMC_deselect card s)).1 ≠ 0 := by
  intro hsel
  simp [MMC_send_cmd_internal, hsel] at h

theorem MMC_send_cmd_internal_frame (card : Nat → Nat) (cmd arg : Nat) (s : MMC)
    (hsel : (MMC_select card (MMC_deselect card s)).1 ≠ 0) :
    ∃ pre post,
      (MMC_send_cmd_internal card cmd arg s).2.tx = s.tx ++ pre ++ cmd_frame cmd arg ++ post := by
  obtain ⟨e1, h1⟩ := (MMC_deselect_extends card s).trans (MMC_select_extends card _)
  have hcrc : cmd_crc cmd % 256 = cmd_crc cmd := Nat.mod_eq_of_lt (cmd_crc_lt cmd)
  simp only [MMC_send_cmd_internal, if_neg hsel]
  split
  · obtain ⟨e3, h3⟩ := MMC_response_loop_extends card 9
      (MMC_SendSPI card 0xFF (MMC_SendSPI card (cmd_crc cmd) (MMC_SendSPI card (arg % 256)
        (MMC_SendSPI card ((arg >>> 8) % 256) (MMC_SendSPI card ((arg >>> 16) % 256)
        (MMC_SendSPI card ((arg >>> 24) % 256) (MMC_SendSPI card (0x40 ||| cmd)
        (MMC_select card (MMC_deselect card s)).2).2).2).2).2).2).2).2
    refine ⟨e1, [0xFF] ++ e3, ?_⟩
    rw [h3]
    simp only [MMC_SendSPI_tx, h1, cmd_frame, Nat.mod_mod, hcrc, List.append_assoc,
      List.cons_append, List.nil_append, Nat.reduceMod]
  · obtain ⟨e3, h3⟩ := MMC_response_loop_extends card 9
      (MMC_SendSPI card (cmd_crc cmd) (MMC_SendSPI card (arg % 256)
        (MMC_SendSPI card ((arg >>> 8) % 256) (MMC_SendSPI card ((arg >>> 16) % 256)
        (MMC_SendSPI card ((arg >>> 24) % 256) (MMC_SendSPI card (0x40 ||| cmd)
        (MMC_select card (MMC_deselect card s)).2).2).2).2).2).2).2
    refine ⟨e1, e3, ?_⟩
    rw [h3]
    simp only [MMC_SendSPI_tx, h1, cmd_frame, Nat.mod_mod, hcrc, List.append_assoc,
      List.cons_append, List.nil_append]

theorem MMC_send_cmd_plain (card : Nat → Nat) (cmd arg : Nat) (s : MMC)
    (h : cmd &&& 0x80 = 0) :
    MMC_send_cmd card cmd arg s = MMC_send_cmd_internal card cmd arg s := by
  simp [MMC_send_cmd, h]

/-! ## C10: the stop command of a multiple block read -/

/-- C10, counterexample: a multiple block read of two sectors from a card that
never answers.  The frame of CMD18 (first byte 0x52) is sent, no response
arrives, `disk_read` returns RES_ERROR, and no byte 0x4C, hence no frame of
CMD12, is sent before it returns. -/
theorem stop_missing_when_read_rejected :
    readyState.DiskStat &&& STA_NOINIT = 0 ∧
    (MMC_send_cmd cardSilent CMD18 (sector_arg readyState 0) readyState).1 ≠ 0 ∧
    (disk_read cardSilent DEV_MMC 0 2 readyState).1 = RES_ERROR ∧
    (disk_read cardSilent DEV_MMC 0 2 readyState).2.2.tx =
      [0xFF, 0xFF, 0xFF, 0x52, 0, 0, 0, 0, 0x01,
       0xFF, 0xFF, 0xFF, 0xFF, 0xFF, 0xFF, 0xFF, 0xFF, 0xFF, 0xFF, 0xFF] ∧
    0x4C ∉ (disk_read cardSilent DEV_MMC 0 2 readyState).2.2.tx := by
  decide

/-- C10, amended: for every multiple block read (`count > 1`, initialized
device) whose CMD18 was answered 0, whatever the number of packets received,
`disk_read` ends by issuing CMD12 with argument 0 after the packet loop and
then deselecting; and when the card signals ready as it is selected for that
command, the bytes sent hold the frame of CMD18 and, after it, the frame
0x4C 00 00 00 00 01 of CMD12. -/
theorem stop_after_accepted_multi_read (card : Nat → Nat) (sector count : Nat) (s : MMC)
    (hinit : s.DiskStat &&& STA_NOINIT = 0) (hc : 1 < count)
    (hacc : (MMC_send_cmd card CMD18 (sector_arg s sector) s).1 = 0) :
    (disk_read card DEV_MMC sector count s).2.2 =
      MMC_deselect card (MMC_send_cmd card CMD12 0
        (MMC_read_blocks card count
          (MMC_send_cmd card CMD18 (sector_arg s sector) s).2).2.2).2 ∧
    ((MMC_select card (MMC_deselect card
        (MMC_read_blocks card count
          (MMC_send_cmd card CMD18 (sector_arg s sector) s).2).2.2)).1 ≠ 0 →
      ∃ a b c, (disk_read card DEV_MMC sector count s).2.2.tx =
        s.tx ++ a ++ cmd_frame CMD18 (sector_arg s sector) ++ b ++
          [0x4C, 0, 0, 0, 0, 0x01] ++ c) := by
  have h0 : count ≠ 0 := by omega
  have h1 : count ≠ 1 := by omega
  have hfin : (disk_read card DEV_MMC sector count s).2.2 =
      MMC_deselect card (MMC_send_cmd card CMD12 0
        (MMC_read_blocks card count
          (MMC_send_cmd card CMD18 (sector_arg s sector) s).2).2.2).2 := by
    simp [disk_read, hinit, hacc, h0, h1]
  refine ⟨hfin, fun hrdy => ?_⟩
  have e18 := MMC_send_cmd_plain card CMD18 (sector_arg s sector) s (by decide)
  have e12 := MMC_send_cmd_plain card CMD12 0
    (MMC_read_blocks card count (MMC_send_cmd card CMD18 (sector_arg s sector) s).2).2.2
    (by decide)
  obtain ⟨a, b1, hcmd⟩ := MMC_send_cmd_internal_frame card CMD18 (sector_arg s sector) s
    (MMC_send_cmd_internal_accepted card CMD18 (sector_arg s sector) s (e18 ▸ hacc))
  rw [← e18] at hcmd
  obtain ⟨b2, hblk⟩ := MMC_read_blocks_extends card count
    (MMC_send_cmd card CMD18 (sector_arg s sector) s).2
  obtain ⟨b3, c1, hstop⟩ := MMC_send_cmd_internal_frame card CMD12 0 _ hrdy
  rw [← e12] at hstop
  have hf : cmd_frame CMD12 0 = [0x4C, 0, 0, 0, 0, 0x01] := by decide
  refine ⟨a, b1 ++ b2 ++ b3, c1 ++ [0xFF], ?_⟩
  rw [hfin, MMC_deselect_tx, hstop, hblk, hcmd, hf]
  simp only [List.append_assoc]

/-- C10, amended, at a read of two sectors from a card that accepts CMD18 and
then sends an error token: no packet is received, and the frame of CMD12 is
sent after the frame of CMD18. -/
theorem stop_after_accepted_multi_read_witness :
    (MMC_read_blocks cardReadError 2
      (MMC_send_cmd cardReadError CMD18 (sector_arg readyState 0) readyState).2).2.1 = [] ∧
    ∃ a b c, (disk_read cardReadError DEV_MMC 0 2 readyState).2.2.tx =
      readyState.tx ++ a ++ cmd_frame CMD18 (sector_arg readyState 0) ++ b ++
        [0x4C, 0, 0, 0, 0, 0x01] ++ c :=
  ⟨by decide,
    (stop_after_accepted_multi_read cardReadError 0 2 readyState (by decide) (by decide)
      (by decide)).2 (by decide)⟩

/-! ## The command frame and the response poll -/

theorem idleClocks_tx (n : Nat) (s : MMC) :
    (idleClocks n s).tx = s.tx ++ List.replicate n 0xFF := by
  cases s; rfl

theorem sent_tx (bytes : List Nat) (s : MMC) : (sent bytes s).tx = s.tx ++ bytes := by
  cases s; rfl

theorem sent_pos (bytes : List Nat) (s : MMC) : (sent bytes s).pos = s.pos + bytes.length := by
  cases s; rfl

theorem sent_drive (bytes : List Nat) (s : MMC) : drive (sent bytes s) = drive s := by
  cases s; rfl

theorem MMC_SendSPI_sent (card : Nat → Nat) (d : Nat) (s : MMC) :
    MMC_SendSPI card d s = (card s.pos % 256, sent [d % 256] s) := by
  cases s; rfl

theorem IdleRun_refl (s : MMC) : IdleRun s s := ⟨0, rfl, (List.append_nil _).symm⟩

theorem IdleRun_trans {s t u : MMC} (h1 : IdleRun s t) (h2 : IdleRun t u) : IdleRun s u := by
  obtain ⟨a, pa, ta⟩ := h1
  obtain ⟨b, pb, tb⟩ := h2
  refine ⟨a + b, by rw [pb, pa, Nat.add_assoc], ?_⟩
  rw [tb, ta, List.append_assoc, List.replicate_add]

theorem idleClocks_IdleRun (n : Nat) (s : MMC) : IdleRun s (idleClocks n s) :=
  ⟨n, idleClocks_pos n s, idleClocks_tx n s⟩

theorem MMC_SendSPI_IdleRun (card : Nat → Nat) (s : MMC) :
    IdleRun s (MMC_SendSPI card 0xFF s).2 := by
  rw [MMC_SendSPI_idle]
  exact idleClocks_IdleRun 1 s

theorem MMC_wait_ready_loop_IdleRun (card : Nat → Nat) (n : Nat) :
    ∀ s : MMC, IdleRun s (MMC_wait_ready_loop card n s).2 := by
  induction n with
  | zero => intro s; exact IdleRun_refl s
  | succ n ih =>
    intro s
    simp only [MMC_wait_ready_loop]
    split
    · exact MMC_SendSPI_IdleRun card s
    · exact IdleRun_trans (MMC_SendSPI_IdleRun card s) (ih _)

theorem MMC_deselect_IdleRun (card : Nat → Nat) (s : MMC) : IdleRun s (MMC_deselect card s) :=
  ⟨1, by cases s; rfl, by cases s; rfl⟩

theorem MMC_select_IdleRun (card : Nat → Nat) (s : MMC) : IdleRun s (MMC_select card s).2 := by
  have h1 : IdleRun s (MMC_SendSPI card 0xFF { s with MMC_CS := false }).2 :=
    ⟨1, by cases s; rfl, by cases s; rfl⟩
  have h2 := IdleRun_trans h1 (MMC_wait_ready_loop_IdleRun card ((500 * 10) % 65536) _)
  simp only [MMC_select]
  split
  · exact h2
  · exact IdleRun_trans h2 (MMC_deselect_IdleRun card _)

theorem MMC_response_loop_spec (card : Nat → Nat) (n : Nat) :
    ∀ s : MMC, ∃ j, j ≤ n ∧ (∀ i, i < j → card (s.pos + i) % 256 &&& 0x80 ≠ 0) ∧
      (j < n → card (s.pos + j) % 256 &&& 0x80 = 0) ∧
      MMC_response_loop card n s = (card (s.pos + j) % 256, idleClocks (j + 1) s) := by
  induction n with
  | zero =>
    intro s
    exact ⟨0, Nat.le_refl 0, fun i hi => absurd hi (Nat.not_lt_zero i),
      fun h => absurd h (Nat.lt_irrefl 0), MMC_SendSPI_idle card s⟩
  | succ n ih =>
    intro s
    by_cases hb : card s.pos % 256 &&& 0x80 = 0
    · refine ⟨0, Nat.zero_le _, fun i hi => absurd hi (Nat.not_lt_zero i), fun _ => hb, ?_⟩
      simp only [MMC_response_loop, MMC_SendSPI_idle, hb, ne_eq, not_true_eq_false, if_false,
        Nat.add_zero]
    · obtain ⟨j, hj, hhigh, hclear, heq⟩ := ih (idleClocks 1 s)
      have e : ∀ i, (idleClocks 1 s).pos + i = s.pos + (i + 1) := by
        intro i; rw [idleClocks_pos]; omega
      refine ⟨j + 1, by omega, ?_, ?_, ?_⟩
      · intro i hi
        cases i with
        | zero => simpa using hb
        | succ i =>
          have := hhigh i (by omega)
          rwa [e] at this
      · intro hlt
        have := hclear (by omega)
        rwa [e] at this
      · simp only [MMC_response_loop, MMC_SendSPI_idle, ne_eq, hb, not_false_eq_true, if_true]
        rw [heq, e, idleClocks_add]
        congr 2
        omega

theorem MMC_frame_sent (card : Nat → Nat) (cmd arg : Nat) (s : MMC) :
    (MMC_SendSPI card (cmd_crc cmd) (MMC_SendSPI card (arg % 256)
      (MMC_SendSPI card ((arg >>> 8) % 256) (MMC_SendSPI card ((arg >>> 16) % 256)
      (MMC_SendSPI card ((arg >>> 24) % 256) (MMC_SendSPI card (0x40 ||| cmd) s).2).2).2).2).2).2 =
      sent (cmd_frame cmd arg) s := by
  have hcrc : cmd_crc cmd % 256 = cmd_crc cmd := Nat.mod_eq_of_lt (cmd_crc_lt cmd)
  cases s
  simp only [MMC_SendSPI, sent, cmd_frame, Nat.mod_mod, hcrc, List.append_assoc,
    List.cons_append, List.nil_append, List.length_cons, List.length_nil, Nat.add_assoc]

theorem MMC_send_cmd_internal_spec (card : Nat → Nat) (cmd arg : Nat) (s : MMC)
    (hsel : (MMC_select card (MMC_deselect card s)).1 ≠ 0) :
    ∃ j, j ≤ 9 ∧
      (∀ i, i < j →
        card ((MMC_select card (MMC_deselect card s)).2.pos + 6 + stuffBytes cmd + i)
          % 256 &&& 0x80 ≠ 0) ∧
      (j < 9 → card ((MMC_select card (MMC_deselect card s)).2.pos + 6 + stuffBytes cmd + j)
        % 256 &&& 0x80 = 0) ∧
      MMC_send_cmd_internal card cmd arg s =
        (card ((MMC_select card (MMC_deselect card s)).2.pos + 6 + stuffBytes cmd + j) % 256,
          idleClocks (stuffBytes cmd + (j + 1))
            (sent (cmd_frame cmd arg) (MMC_select card (MMC_deselect card s)).2)) := by
  have hlen : (cmd_frame cmd arg).length = 6 := rfl
  by_cases h12 : cmd = CMD12
  · obtain ⟨j, hj, hhigh, hclear, heq⟩ := MMC_response_loop_spec card 9
      (idleClocks 1 (sent (cmd_frame cmd arg) (MMC_select card (MMC_deselect card s)).2))
    have e : ∀ i, (idleClocks 1
        (sent (cmd_frame cmd arg) (MMC_select card (MMC_deselect card s)).2)).pos + i =
        (MMC_select card (MMC_deselect card s)).2.pos + 6 + stuffBytes cmd + i := by
      intro i
      rw [idleClocks_pos, sent_pos, hlen, stuffBytes, if_pos h12]
    simp only [e] at hhigh hclear heq
    refine ⟨j, hj, hhigh, hclear, ?_⟩
    simp only [MMC_send_cmd_internal, if_neg hsel, if_pos h12, MMC_frame_sent, MMC_SendSPI_idle,
      heq, idleClocks_add, stuffBytes]
  · obtain ⟨j, hj, hhigh, hclear, heq⟩ := MMC_response_loop_spec card 9
      (sent (cmd_frame cmd arg) (MMC_select card (MMC_deselect card s)).2)
    have e : ∀ i, (sent (cmd_frame cmd arg) (MMC_select card (MMC_deselect card s)).2).pos + i =
        (MMC_select card (MMC_deselect card s)).2.pos + 6 + stuffBytes cmd + i := by
      intro i
      rw [sent_pos, hlen, stuffBytes, if_neg h12]
    simp only [e] at hhigh hclear heq
    refine ⟨j, hj, hhigh, hclear, ?_⟩
    simp only [MMC_send_cmd_internal, if_neg hsel, if_neg h12, MMC_frame_sent, heq, stuffBytes,
      Nat.zero_add]

theorem MMC_send_cmd_internal_tx (card : Nat → Nat) (cmd arg : Nat) (s : MMC)
    (hsel : (MMC_select card (MMC_deselect card s)).1 ≠ 0) :
    ∃ k, 1 ≤ k ∧ k ≤ 11 ∧
      (MMC_send_cmd_internal card cmd arg s).2.tx =
        (MMC_select card (MMC_deselect card s)).2.tx ++ cmd_frame cmd arg ++
          List.replicate k 0xFF := by
  obtain ⟨j, hj, _, _, heq⟩ := MMC_send_cmd_internal_spec card cmd arg s hsel
  refine ⟨stuffBytes cmd + (j + 1), by omega, ?_, ?_⟩
  · unfold stuffBytes; split <;> omega
  · rw [heq, idleClocks_tx, sent_tx]

/-! ## C18: the command frame -/

/-- C18: for every command index `cmd < 0x40` and every 32-bit argument `a`,
once the card is selected and ready, `MMC_send_cmd_internal` sends exactly the
six bytes `0x40 | cmd`, `a >> 24`, `(a >> 16) & 0xFF`, `(a >> 8) & 0xFF`,
`a & 0xFF` and the checksum (0x95 for `cmd = 0`, 0x87 for `cmd = 8`, 0x01
otherwise), followed only by 0xFF clocks; and the four argument bytes, read
big-endian, give back `a`. -/
theorem command_frame_exact (card : Nat → Nat) (cmd a : Nat) (s : MMC)
    (hcmd : cmd < 0x40) (ha : a < 2 ^ 32)
    (hsel : (MMC_select card (MMC_deselect card s)).1 ≠ 0) :
    (∃ k, 1 ≤ k ∧ k ≤ 11 ∧
      (MMC_send_cmd_internal card cmd a s).2.tx =
        (MMC_select card (MMC_deselect card s)).2.tx ++
          [0x40 ||| cmd, a >>> 24, (a >>> 16) &&& 0xFF, (a >>> 8) &&& 0xFF, a &&& 0xFF,
            if cmd = 0 then 0x95 else if cmd = 8 then 0x87 else 0x01] ++
          List.replicate k 0xFF) ∧
    (a >>> 24) * 2 ^ 24 + ((a >>> 16) &&& 0xFF) * 2 ^ 16 + ((a >>> 8) &&& 0xFF) * 2 ^ 8 +
      (a &&& 0xFF) = a := by
  have m16 : (a >>> 16) &&& 0xFF = (a >>> 16) % 256 := Nat.and_pow_two_sub_one_eq_mod _ 8
  have m8 : (a >>> 8) &&& 0xFF = (a >>> 8) % 256 := Nat.and_pow_two_sub_one_eq_mod _ 8
  have m0 : a &&& 0xFF = a % 256 := Nat.and_pow_two_sub_one_eq_mod _ 8
  have h24 : (a >>> 24) % 256 = a >>> 24 := by
    rw [Nat.shiftRight_eq_div_pow]
    apply Nat.mod_eq_of_lt
    have : (2 : Nat) ^ 32 = 2 ^ 24 * 256 := by norm_num
    omega
  have hidx : (0x40 ||| cmd) % 256 = 0x40 ||| cmd := by
    apply Nat.mod_eq_of_lt
    have h7 : 0x40 ||| cmd < 2 ^ 7 :=
      Nat.or_lt_two_pow (by norm_num) (Nat.lt_trans hcmd (by norm_num))
    exact Nat.lt_trans h7 (by norm_num)
  have hf : cmd_frame cmd a =
      [0x40 ||| cmd, a >>> 24, (a >>> 16) &&& 0xFF, (a >>> 8) &&& 0xFF, a &&& 0xFF,
        if cmd = 0 then 0x95 else if cmd = 8 then 0x87 else 0x01] := by
    rw [m16, m8, m0]
    simp only [cmd_frame, hidx, h24, cmd_crc, CMD0, CMD8]
  refine ⟨?_, ?_⟩
  · obtain ⟨k, h1, h2, htx⟩ := MMC_send_cmd_internal_tx card cmd a s hsel
    exact ⟨k, h1, h2, by rw [htx, hf]⟩
  · rw [m16, m8, m0]
    simp only [Nat.shiftRight_eq_div_pow]
    norm_num
    omega

/-- C18 at CMD17 with argument 0x12345678 on a card that is ready at once. -/
theorem command_frame_exact_witness :
    (∃ k, 1 ≤ k ∧ k ≤ 11 ∧
      (MMC_send_cmd_internal cardSilent 17 0x12345678 readyState).2.tx =
        (MMC_select cardSilent (MMC_deselect cardSilent readyState)).2.tx ++
          [0x40 ||| 17, 0x12345678 >>> 24, (0x12345678 >>> 16) &&& 0xFF,
            (0x12345678 >>> 8) &&& 0xFF, 0x12345678 &&& 0xFF,
            if 17 = 0 then 0x95 else if 17 = 8 then 0x87 else 0x01] ++
          List.replicate k 0xFF) ∧
    (0x12345678 >>> 24) * 2 ^ 24 + ((0x12345678 >>> 16) &&& 0xFF) * 2 ^ 16 +
      ((0x12345678 >>> 8) &&& 0xFF) * 2 ^ 8 + (0x12345678 &&& 0xFF) = 0x12345678 :=
  command_frame_exact cardSilent 17 0x12345678 readyState (by decide) (by decide) (by decide)

/-! ## C19: the response poll -/

/-- C19, counterexample: the card is ready at once and then answers ten bytes
0x80.  None of the ten polled bytes has its high bit clear, exactly ten bytes
are polled after the frame, and `MMC_send_cmd_internal` returns 0x80, not
0xFF. -/
theorem response_timeout_counterexample :
    (MMC_select cardBusy (MMC_deselect cardBusy readyState)).1 ≠ 0 ∧
    (MMC_select cardBusy (MMC_deselect cardBusy readyState)).2.pos + 6 = 9 ∧
    (∀ i, i < 10 → cardBusy (9 + i) % 256 &&& 0x80 ≠ 0) ∧
    (MMC_send_cmd_internal cardBusy CMD17 0 readyState).2.pos = 9 + 10 ∧
    (MMC_send_cmd_internal cardBusy CMD17 0 readyState).1 = 0x80 ∧
    (MMC_send_cmd_internal cardBusy CMD17 0 readyState).1 ≠ 0xFF := by
  decide

/-- C19, amended: once the card is selected and ready, after the command frame
(and the stuff byte of CMD12) `MMC_send_cmd_internal` polls at most 10 response
bytes.  It returns the first one whose high bit is 0, polling no further; and
if none of the 10 polled bytes has its high bit clear it returns the tenth
polled byte as it is (which is 0xFF when the line idles high). -/
theorem response_poll (card : Nat → Nat) (cmd arg : Nat) (s : MMC)
    (hsel : (MMC_select card (MMC_deselect card s)).1 ≠ 0) :
    (∀ m, m < 10 →
      (∀ i, i < m →
        card ((MMC_select card (MMC_deselect card s)).2.pos + 6 + stuffBytes cmd + i) % 256
          &&& 0x80 ≠ 0) →
      card ((MMC_select card (MMC_deselect card s)).2.pos + 6 + stuffBytes cmd + m) % 256
        &&& 0x80 = 0 →
      (MMC_send_cmd_internal card cmd arg s).1 =
        card ((MMC_select card (MMC_deselect card s)).2.pos + 6 + stuffBytes cmd + m) % 256 ∧
      (MMC_send_cmd_internal card cmd arg s).2.pos =
        (MMC_select card (MMC_deselect card s)).2.pos + 6 + stuffBytes cmd + (m + 1)) ∧
    ((∀ i, i < 10 →
        card ((MMC_select card (MMC_deselect card s)).2.pos + 6 + stuffBytes cmd + i) % 256
          &&& 0x80 ≠ 0) →
      (MMC_send_cmd_internal card cmd arg s).1 =
        card ((MMC_select card (MMC_deselect card s)).2.pos + 6 + stuffBytes cmd + 9) % 256 ∧
      (MMC_send_cmd_internal card cmd arg s).2.pos =
        (MMC_select card (MMC_deselect card s)).2.pos + 6 + stuffBytes cmd + 10) := by
  obtain ⟨j, hj, hhigh, hclear, heq⟩ := MMC_send_cmd_internal_spec card cmd arg s hsel
  have hpos : (MMC_send_cmd_internal card cmd arg s).2.pos =
      (MMC_select card (MMC_deselect card s)).2.pos + 6 + stuffBytes cmd + (j + 1) := by
    rw [heq, idleClocks_pos, sent_pos]
    have hlen : (cmd_frame cmd arg).length = 6 := rfl
    rw [hlen]
    omega
  have hval : (MMC_send_cmd_internal card cmd arg s).1 =
      card ((MMC_select card (MMC_deselect card s)).2.pos + 6 + stuffBytes cmd + j) % 256 := by
    rw [heq]
  refine ⟨?_, ?_⟩
  · intro m hm hpre hm0
    have hjm : j = m := by
      rcases Nat.lt_trichotomy j m with h | h | h
      · exact absurd (hclear (by omega)) (hpre j h)
      · exact h
      · exact absurd hm0 (hhigh m h)
    subst hjm
    exact ⟨hval, hpos⟩
  · intro hall
    have hj9 : j = 9 := by
      by_cases h : j < 9
      · exact absurd (hclear h) (hall j (by omega))
      · omega
    subst hj9
    exact ⟨hval, hpos⟩

/-- C19, amended, at a card that answers 0 in the first poll after the frame of
CMD9. -/
theorem response_poll_witness :
    (MMC_send_cmd_internal cardCsdV2 CMD9 0 readyState).1 =
      cardCsdV2 ((MMC_select cardCsdV2 (MMC_deselect cardCsdV2 readyState)).2.pos + 6 +
        stuffBytes CMD9 + 0) % 256 ∧
    (MMC_send_cmd_internal cardCsdV2 CMD9 0 readyState).2.pos =
      (MMC_select cardCsdV2 (MMC_deselect cardCsdV2 readyState)).2.pos + 6 +
        stuffBytes CMD9 + (0 + 1) :=
  (response_poll cardCsdV2 CMD9 0 readyState (by decide)).1 0 (by decide)
    (fun i hi => absurd hi (Nat.not_lt_zero i)) (by decide)

/-! ## C20: application commands -/

/-- C20: for an application command (index with bit 7 set), `MMC_send_cmd`
first sends CMD55 with argument 0 (frame 0x77 00 00 00 00 01 once the card is
selected and ready).  If the response `r` to it is greater than 1,
`MMC_send_cmd` returns `r` and stops in the state CMD55 left, so no frame is
sent for the command itself; if `r ≤ 1` it goes on as `MMC_send_cmd_internal`
with index `cmd & 0x7F` and the caller's argument, returns that response, and
sends that frame once the card is selected and ready again. -/
theorem app_command_prefixed (card : Nat → Nat) (cmd arg : Nat) (s : MMC)
    (h : cmd &&& 0x80 ≠ 0) :
    ((MMC_select card (MMC_deselect card s)).1 ≠ 0 →
      ∃ k, (MMC_send_cmd_internal card CMD55 0 s).2.tx =
        (MMC_select card (MMC_deselect card s)).2.tx ++ [0x77, 0, 0, 0, 0, 0x01] ++
          List.replicate k 0xFF) ∧
    ((MMC_send_cmd_internal card CMD55 0 s).1 > 1 →
      MMC_send_cmd card cmd arg s = MMC_send_cmd_internal card CMD55 0 s) ∧
    ((MMC_send_cmd_internal card CMD55 0 s).1 ≤ 1 →
      MMC_send_cmd card cmd arg s =
        MMC_send_cmd_internal card (cmd &&& 0x7F) arg (MMC_send_cmd_internal card CMD55 0 s).2 ∧
      ((MMC_select card (MMC_deselect card (MMC_send_cmd_internal card CMD55 0 s).2)).1 ≠ 0 →
        ∃ k, (MMC_send_cmd card cmd arg s).2.tx =
          (MMC_select card (MMC_deselect card (MMC_send_cmd_internal card CMD55 0 s).2)).2.tx ++
            cmd_frame (cmd &&& 0x7F) arg ++ List.replicate k 0xFF)) := by
  have h55 : cmd_frame CMD55 0 = [0x77, 0, 0, 0, 0, 0x01] := by decide
  refine ⟨fun hsel => ?_, fun hr => ?_, fun hr => ?_⟩
  · obtain ⟨k, _, _, htx⟩ := MMC_send_cmd_internal_tx card CMD55 0 s hsel
    exact ⟨k, by rw [htx, h55]⟩
  · simp only [MMC_send_cmd, h, ne_eq, not_false_eq_true, if_true, hr]
  · have hr' : ¬ (MMC_send_cmd_internal card CMD55 0 s).1 > 1 := by omega
    have e : MMC_send_cmd card cmd arg s =
        MMC_send_cmd_internal card (cmd &&& 0x7F) arg
          (MMC_send_cmd_internal card CMD55 0 s).2 := by
      simp only [MMC_send_cmd, h, ne_eq, not_false_eq_true, if_true, hr', if_false]
    refine ⟨e, fun hsel => ?_⟩
    obtain ⟨k, _, _, htx⟩ := MMC_send_cmd_internal_tx card (cmd &&& 0x7F) arg _ hsel
    exact ⟨k, by rw [e, htx]⟩

/-- C20 at ACMD41 on a card that never answers: CMD55 gets 0xFF and ACMD41
returns it without a frame of its own. -/
theorem app_command_prefixed_witness :
    MMC_send_cmd cardSilent ACMD41 0 readyState =
      MMC_send_cmd_internal cardSilent CMD55 0 readyState ∧
    (MMC_send_cmd cardSilent ACMD41 0 readyState).1 = 0xFF :=
  ⟨(app_command_prefixed cardSilent ACMD41 0 readyState (by decide)).2.1 (by decide),
    by decide⟩

/-! ## C14: chip-select when `disk_ioctl` returns -/

theorem MMC_deselect_CS (card : Nat → Nat) (s : MMC) : (MMC_deselect card s).MMC_CS = true := by
  cases s; rfl

theorem disk_ioctl_deselected (card : Nat → Nat) (cmd : Nat) (s : MMC)
    (hinit : s.DiskStat &&& STA_NOINIT = 0)
    (h : cmd ≠ CTRL_SYNC ∨ (disk_ioctl card DEV_MMC cmd s).1 ≠ RES_OK) :
    (disk_ioctl card DEV_MMC cmd s).2.2.MMC_CS = true := by
  by_cases hc : cmd = CTRL_SYNC
  · subst hc
    by_cases hsel : (MMC_select card s).1 ≠ 0
    · have hres : (disk_ioctl card DEV_MMC CTRL_SYNC s).1 = RES_OK := by
        simp only [disk_ioctl, hinit, hsel, ne_eq, not_true_eq_false, not_false_eq_true,
          if_true, if_false]
      rcases h with h | h
      · exact absurd rfl h
      · exact absurd hres h
    · simp only [disk_ioctl, hinit, hsel, ne_eq, not_true_eq_false, if_true, if_false]
      exact MMC_deselect_CS card _
  · unfold disk_ioctl
    generalize (64 - 16 : Nat) = n
    simp only [hinit, hc, ne_eq, not_true_eq_false, if_false, apply_ite Prod.snd,
      apply_ite MMC.MMC_CS, MMC_deselect_CS, ite_self]

/-- C14, at the failing input: an initialized device, the sync query, a card
that is ready at once.  `disk_ioctl` returns RES_OK straight from the branch of
CTRL_SYNC, before the common `MMC_deselect`, and the chip-select latch is left
low: the card is still selected. -/
theorem sync_returns_selected :
    readyState.DiskStat &&& STA_NOINIT = 0 ∧
    (disk_ioctl cardSilent DEV_MMC CTRL_SYNC readyState).1 = RES_OK ∧
    (disk_ioctl cardSilent DEV_MMC CTRL_SYNC readyState).2.2.MMC_CS = false ∧
    (disk_ioctl cardSilent DEV_MMC CTRL_SYNC readyState).2.2 =
      (MMC_select cardSilent readyState).2 := by
  decide

/-! ## C16: removal and eject -/

theorem MMC_Interrupt_removal (s : MMC) (hf : s.MMC_INS_IOCF = true)
    (ha : s.MMC_INS_PORT = true) :
    (MMC_Interrupt s).DiskStat = STA_NOINIT ||| STA_NODISK ∧ (MMC_Interrupt s).CardType = 0 := by
  simp [MMC_Interrupt, MMC_IsInserted, hf, ha]

theorem MMC_Eject_fields (s : MMC) :
    (MMC_Eject s).DiskStat = STA_NOINIT ||| STA_NODISK ∧ (MMC_Eject s).CardType = s.CardType := by
  cases s; exact ⟨rfl, rfl⟩

/-- C16, at the failing input: an initialized device with a block-addressed SD
version 2 card is ejected.  `MMC_Eject` sets `Uninitialized` and `NoMedia`, but
`CardType` keeps the value `CT_SD2 | CT_BLOCK`: the card family is not reset. -/
theorem eject_keeps_card_type :
    (MMC_Eject readyState).DiskStat = STA_NOINIT ||| STA_NODISK ∧
    (MMC_Eject readyState).CardType = CT_SD2 ||| CT_BLOCK ∧
    (MMC_Eject readyState).CardType ≠ 0 := by
  decide

/-! ## C17: the status word and the card type are only read -/

/-- C17: `disk_status` is a read of the state (it returns `DiskStat`, or
STA_NOINIT for another drive, and stores nothing), and `disk_read`,
`disk_write` and `disk_ioctl` leave `DiskStat` and `CardType` as they found
them, for every argument and every card response stream. -/
theorem status_and_type_unchanged (card : Nat → Nat) (pdrv sector count cmd : Nat)
    (buff : Nat → Nat) (s : MMC) :
    (disk_status pdrv s = if pdrv ≠ DEV_MMC then STA_NOINIT else s.DiskStat) ∧
    ((disk_read card pdrv sector count s).2.2.DiskStat = s.DiskStat ∧
      (disk_read card pdrv sector count s).2.2.CardType = s.CardType) ∧
    ((disk_write card pdrv buff sector count s).2.DiskStat = s.DiskStat ∧
      (disk_write card pdrv buff sector count s).2.CardType = s.CardType) ∧
    ((disk_ioctl card pdrv cmd s).2.2.DiskStat = s.DiskStat ∧
      (disk_ioctl card pdrv cmd s).2.2.CardType = s.CardType) :=
  ⟨rfl,
    ⟨drive_DiskStat _ _ (disk_read_drive card pdrv sector count s),
      drive_CardType _ _ (disk_read_drive card pdrv sector count s)⟩,
    ⟨drive_DiskStat _ _ (disk_write_drive card pdrv buff sector count s),
      drive_CardType _ _ (disk_write_drive card pdrv buff sector count s)⟩,
    ⟨drive_DiskStat _ _ (disk_ioctl_drive card pdrv cmd s),
      drive_CardType _ _ (disk_ioctl_drive card pdrv cmd s)⟩⟩

/-! ## Sending a data packet -/

theorem bufBytes_succ (buff : Nat → Nat) (off n : Nat) :
    bufBytes buff off (n + 1) = buff off % 256 :: bufBytes buff (off + 1) n :=
  rxBytes_succ buff off n

theorem bufBytes_length (buff : Nat → Nat) (off n : Nat) : (bufBytes buff off n).length = n := by
  simp [bufBytes]

theorem sent_nil (s : MMC) : sent [] s = s := by
  cases s; simp [sent]

theorem sent_sent (a b : List Nat) (s : MMC) : sent b (sent a s) = sent (a ++ b) s := by
  cases s
  simp only [sent, List.append_assoc, List.length_append, Nat.add_assoc]

theorem idleClocks_eq_sent (n : Nat) (s : MMC) :
    idleClocks n s = sent (List.replicate n 0xFF) s := by
  cases s
  simp only [idleClocks, sent, List.length_replicate]

theorem MMC_SendBytesSPI_eq (card : Nat → Nat) (buff : Nat → Nat) (n : Nat) :
    ∀ (off : Nat) (s : MMC),
      MMC_SendBytesSPI card buff off n s = sent (bufBytes buff off n) s := by
  induction n with
  | zero =>
    intro off s
    rw [MMC_SendBytesSPI]
    exact (sent_nil s).symm
  | succ n ih =>
    intro off s
    rw [MMC_SendBytesSPI, MMC_SendSPI_sent, ih, sent_sent, bufBytes_succ]
    rfl

theorem MMC_SendDataBlock_data (card : Nat → Nat) (buff : Nat → Nat) (off token : Nat) (s : MMC)
    (hw : (MMC_wait_ready card 500 s).1 ≠ 0) (ht : token ≠ 0xFD) :
    MMC_SendDataBlock card buff off token s =
      (if card ((MMC_wait_ready card 500 s).2.pos + 1 + 512 + 2) % 256 &&& 0x1F ≠ 0x05 then 0
        else 1,
        sent ([token % 256] ++ bufBytes buff off 512 ++ [0xFF, 0xFF, 0xFF])
          (MMC_wait_ready card 500 s).2) := by
  unfold MMC_SendDataBlock
  generalize (512 : Nat) = n
  have e : ∀ t : MMC,
      MMC_SendSPI card 0xFF (MMC_SendSPI card 0xFF (MMC_SendSPI card 0xFF
        (MMC_SendBytesSPI card buff off n (MMC_SendSPI card token t).2)).2).2 =
      (card (t.pos + 1 + n + 2) % 256,
        sent ([token % 256] ++ bufBytes buff off n ++ [0xFF, 0xFF, 0xFF]) t) := by
    intro t
    simp only [MMC_SendSPI_sent, MMC_SendBytesSPI_eq, sent_sent, sent_pos, List.length_append,
      List.length_cons, List.length_nil, bufBytes_length, List.append_assoc, List.cons_append,
      List.nil_append, Nat.reduceMod]
    congr 3
    omega
  simp only [if_neg hw, if_pos ht, e]
  split <;> rfl

theorem MMC_SendDataBlock_not_ready (card : Nat → Nat) (buff : Nat → Nat) (off token : Nat)
    (s : MMC) (hw : (MMC_wait_ready card 500 s).1 = 0) :
    MMC_SendDataBlock card buff off token s = (0, (MMC_wait_ready card 500 s).2) := by
  unfold MMC_SendDataBlock
  generalize (512 : Nat) = n
  simp only [if_pos hw]

theorem MMC_SendDataBlock_stop (card : Nat → Nat) (buff : Nat → Nat) (off : Nat) (s : MMC)
    (hw : (MMC_wait_ready card 500 s).1 ≠ 0) :
    MMC_SendDataBlock card buff off 0xFD s = (1, sent [0xFD] (MMC_wait_ready card 500 s).2) := by
  unfold MMC_SendDataBlock
  generalize (512 : Nat) = n
  simp only [if_neg hw, ne_eq, not_true_eq_false, if_false, MMC_SendSPI_sent, Nat.reduceMod]

/-! ## C11: the data phase of a single block write -/

/-- C11: for a single-sector write on an initialized, unprotected device whose
CMD24 is answered 0 (`c`) and whose ready wait succeeds (`w`), the bytes sent
after the ready wait are exactly the start token 0xFE, the 512 buffer bytes in
buffer order and two checksum bytes 0xFF 0xFF, followed by the 0xFF that clocks
in the data response and the 0xFF of the final deselect; the data response `r`
is the byte received right after the checksum bytes, and `disk_write` returns
RES_OK if and only if `r & 0x1F = 0x05`, and RES_ERROR otherwise. -/
theorem single_write_data_phase (card : Nat → Nat) (buff : Nat → Nat) (sector : Nat) (s : MMC)
    (c w : Nat × MMC)
    (hinit : s.DiskStat &&& STA_NOINIT = 0) (hprot : s.DiskStat &&& STA_PROTECT = 0)
    (hc : c = MMC_send_cmd card CMD24 (sector_arg s sector) s)
    (hw : w = MMC_wait_ready card 500 c.2)
    (hacc : c.1 = 0) (hrdy : w.1 ≠ 0) :
    (disk_write card DEV_MMC buff sector 1 s).2.tx =
      w.2.tx ++ [0xFE] ++ bufBytes buff 0 512 ++ [0xFF, 0xFF] ++ [0xFF] ++ [0xFF] ∧
    ((disk_write card DEV_MMC buff sector 1 s).1 = RES_OK ↔
      card (w.2.pos + 1 + 512 + 2) % 256 &&& 0x1F = 0x05) ∧
    ((disk_write card DEV_MMC buff sector 1 s).1 ≠ RES_OK →
      (disk_write card DEV_MMC buff sector 1 s).1 = RES_ERROR) := by
  subst hc
  subst hw
  have hb := MMC_SendDataBlock_data card buff 0 0xFE _ hrdy (by decide)
  have hdw : disk_write card DEV_MMC buff sector 1 s =
      (if (MMC_SendDataBlock card buff 0 0xFE
          (MMC_send_cmd card CMD24 (sector_arg s sector) s).2).1 ≠ 0 then RES_OK else RES_ERROR,
        MMC_deselect card (MMC_SendDataBlock card buff 0 0xFE
          (MMC_send_cmd card CMD24 (sector_arg s sector) s).2).2) := by
    simp [disk_write, hinit, hprot, hacc]
  rw [hdw, hb]
  refine ⟨?_, ?_⟩
  · simp only [MMC_deselect_tx, sent_tx, List.append_assoc, List.cons_append, List.nil_append,
      Nat.reduceMod]
  · by_cases hr : card ((MMC_wait_ready card 500
        (MMC_send_cmd card CMD24 (sector_arg s sector) s).2).2.pos + 1 + 512 + 2) % 256
        &&& 0x1F = 0x05
    · simp only [hr, ne_eq, not_true_eq_false, if_false, one_ne_zero, not_false_eq_true, if_true,
        true_iff, false_implies, and_self]
    · simp only [hr, ne_eq, not_false_eq_true, if_true, not_true_eq_false, if_false,
        reduceCtorEq, iff_self, true_implies, and_self]

/-- C11 at a card that accepts CMD24, is ready at once and answers the data
response 0xE5: the write of one sector returns RES_OK. -/
theorem single_write_data_phase_witness :
    (disk_write cardWriteOk DEV_MMC (fun i => i) 0 1 readyState).2.tx =
      (MMC_wait_ready cardWriteOk 500
        (MMC_send_cmd cardWriteOk CMD24 (sector_arg readyState 0) readyState).2).2.tx ++
        [0xFE] ++ bufBytes (fun i => i) 0 512 ++ [0xFF, 0xFF] ++ [0xFF] ++ [0xFF] ∧
    (disk_write cardWriteOk DEV_MMC (fun i => i) 0 1 readyState).1 = RES_OK :=
  have h := single_write_data_phase cardWriteOk (fun i => i) 0 readyState
    (MMC_send_cmd cardWriteOk CMD24 (sector_arg readyState 0) readyState)
    (MMC_wait_ready cardWriteOk 500
      (MMC_send_cmd cardWriteOk CMD24 (sector_arg readyState 0) readyState).2)
    (by decide) (by decide) rfl rfl (by decide) (by decide)
  ⟨h.1, h.2.1.2 (by decide)⟩

/-! ## C12: the blocks and the stop token of a multiple block write -/

theorem MMC_write_blocks_succ (card : Nat → Nat) (buff : Nat → Nat) (off n : Nat) (s : MMC) :
    MMC_write_blocks card buff off (n + 1) s =
      if (MMC_SendDataBlock card buff off 0xFC s).1 = 0 then
        (n + 1, (MMC_SendDataBlock card buff off 0xFC s).2)
      else MMC_write_blocks card buff (off + 512) n (MMC_SendDataBlock card buff off 0xFC s).2 := by
  rw [MMC_write_blocks]

theorem afterBlocks_zero (card : Nat → Nat) (buff : Nat → Nat) (off : Nat) (s : MMC) :
    afterBlocks card buff off 0 s = s := by
  rw [afterBlocks]

theorem afterBlocks_succ (card : Nat → Nat) (buff : Nat → Nat) (off i : Nat) (s : MMC) :
    afterBlocks card buff off (i + 1) s =
      (MMC_SendDataBlock card buff (off + 512 * i) 0xFC (afterBlocks card buff off i s)).2 := by
  rw [afterBlocks]

theorem afterBlocks_shift (card : Nat → Nat) (buff : Nat → Nat) (i : Nat) :
    ∀ (off : Nat) (s : MMC),
      afterBlocks card buff off (i + 1) s =
        afterBlocks card buff (off + 512) i (MMC_SendDataBlock card buff off 0xFC s).2 := by
  induction i with
  | zero =>
    intro off s
    rw [afterBlocks_succ, afterBlocks_zero, afterBlocks_zero, Nat.mul_zero, Nat.add_zero]
  | succ i ih =>
    intro off s
    rw [afterBlocks_succ, ih, afterBlocks_succ]
    have e : off + 512 * (i + 1) = off + 512 + 512 * i := by omega
    rw [e]

theorem blockResult_zero (card : Nat → Nat) (buff : Nat → Nat) (off : Nat) (s : MMC) :
    blockResult card buff off 0 s = (MMC_SendDataBlock card buff off 0xFC s).1 := by
  rw [blockResult, afterBlocks_zero, Nat.mul_zero, Nat.add_zero]

theorem blockResult_succ (card : Nat → Nat) (buff : Nat → Nat) (off i : Nat) (s : MMC) :
    blockResult card buff off (i + 1) s =
      blockResult card buff (off + 512) i (MMC_SendDataBlock card buff off 0xFC s).2 := by
  have e : off + 512 * (i + 1) = off + 512 + 512 * i := by omega
  rw [blockResult, blockResult, afterBlocks_shift, e]

theorem MMC_write_blocks_spec (card : Nat → Nat) (buff : Nat → Nat) (n : Nat) :
    ∀ (off : Nat) (s : MMC), ∃ m, m ≤ n ∧
      (∀ i, i < m → blockResult card buff off i s ≠ 0) ∧
      (m < n → blockResult card buff off m s = 0) ∧
      MMC_write_blocks card buff off n s =
        (n - m, afterBlocks card buff off (min (m + 1) n) s) := by
  induction n with
  | zero =>
    intro off s
    refine ⟨0, Nat.le_refl 0, fun i hi => absurd hi (Nat.not_lt_zero i),
      fun h => absurd h (Nat.lt_irrefl 0), ?_⟩
    rw [MMC_write_blocks]
    rfl
  | succ n ih =>
    intro off s
    by_cases hb : (MMC_SendDataBlock card buff off 0xFC s).1 = 0
    · refine ⟨0, Nat.zero_le _, fun i hi => absurd hi (Nat.not_lt_zero i), fun _ => ?_, ?_⟩
      · rw [blockResult_zero]; exact hb
      · have hmin : min (0 + 1) (n + 1) = 0 + 1 := by omega
        rw [MMC_write_blocks_succ, if_pos hb, hmin, afterBlocks_shift, afterBlocks_zero]
        rfl
    · obtain ⟨m, hm, hacc, hrej, heq⟩ :=
        ih (off + 512) (MMC_SendDataBlock card buff off 0xFC s).2
      refine ⟨m + 1, by omega, ?_, ?_, ?_⟩
      · intro i hi
        cases i with
        | zero => rw [blockResult_zero]; exact hb
        | succ i => rw [blockResult_succ]; exact hacc i (by omega)
      · intro hlt
        rw [blockResult_succ]
        exact hrej (by omega)
      · have hmin : min (m + 1 + 1) (n + 1) = min (m + 1) n + 1 := by omega
        have hsub : n + 1 - (m + 1) = n - m := by omega
        rw [MMC_write_blocks_succ, if_neg hb, heq, hmin, afterBlocks_shift, hsub]

theorem disk_write_multi_eq (card : Nat → Nat) (buff : Nat → Nat) (sector count : Nat)
    (s s0 : MMC) (c : Nat × MMC)
    (hinit : s.DiskStat &&& STA_NOINIT = 0) (hprot : s.DiskStat &&& STA_PROTECT = 0)
    (hcnt : 1 < count)
    (hs0 : s0 = if s.CardType &&& CT_SDC ≠ 0 then (MMC_send_cmd card ACMD23 count s).2 else s)
    (hc : c = MMC_send_cmd card CMD25 (sector_arg s sector) s0) :
    disk_write card DEV_MMC buff sector count s =
      if c.1 = 0 then
        (if (if (MMC_SendDataBlock card buff 0 0xFD
            (MMC_write_blocks card buff 0 count c.2).2).1 = 0 then 1
            else (MMC_write_blocks card buff 0 count c.2).1) ≠ 0 then RES_ERROR else RES_OK,
          MMC_deselect card (MMC_SendDataBlock card buff 0 0xFD
            (MMC_write_blocks card buff 0 count c.2).2).2)
      else (RES_ERROR, MMC_deselect card c.2) := by
  subst hs0
  subst hc
  have h0 : ¬ (DEV_MMC ≠ DEV_MMC ∨ count = 0) := by
    intro h
    rcases h with h | h
    · exact h rfl
    · omega
  have h1 : ¬ count = 1 := by omega
  unfold disk_write
  rw [if_neg h0, if_neg (not_not.mpr hinit), if_neg (not_not.mpr hprot), if_neg h1]

/-- C12: for a multiple block write (`count > 1`, initialized, unprotected),
with `c` the outcome of CMD25.  If CMD25 is not answered 0 the result is
RES_ERROR and nothing follows the command but the 0xFF of the deselect: no data
token is sent.  If it is answered 0, there is a number `m` of accepted blocks:
blocks `0 … m-1` are accepted, block `m` (if `m < count`) is rejected or its
ready wait fails and no further block is sent, the stop token is then
attempted in every case, and the result is RES_OK if and only if `m = count`
and the ready wait before the stop token succeeded, RES_ERROR otherwise.  Each
block whose ready wait succeeds is sent as the token 0xFC, its 512 buffer
bytes and two checksum bytes, and is accepted when the data response has
`r & 0x1F = 0x05`; a block whose ready wait fails sends no token; the stop
token is the single byte 0xFD. -/
theorem multi_write_blocks_and_stop (card : Nat → Nat) (buff : Nat → Nat) (sector count : Nat)
    (s s0 : MMC) (c : Nat × MMC)
    (hinit : s.DiskStat &&& STA_NOINIT = 0) (hprot : s.DiskStat &&& STA_PROTECT = 0)
    (hcnt : 1 < count)
    (hs0 : s0 = if s.CardType &&& CT_SDC ≠ 0 then (MMC_send_cmd card ACMD23 count s).2 else s)
    (hc : c = MMC_send_cmd card CMD25 (sector_arg s sector) s0) :
    (c.1 ≠ 0 →
      disk_write card DEV_MMC buff sector count s = (RES_ERROR, MMC_deselect card c.2)) ∧
    (c.1 = 0 → ∃ m, m ≤ count ∧
      (∀ i, i < m → blockResult card buff 0 i c.2 ≠ 0) ∧
      (m < count → blockResult card buff 0 m c.2 = 0) ∧
      (disk_write card DEV_MMC buff sector count s).2 =
        MMC_deselect card (MMC_SendDataBlock card buff 0 0xFD
          (afterBlocks card buff 0 (min (m + 1) count) c.2)).2 ∧
      ((disk_write card DEV_MMC buff sector count s).1 = RES_OK ↔
        m = count ∧
        (MMC_wait_ready card 500 (afterBlocks card buff 0 (min (m + 1) count) c.2)).1 ≠ 0) ∧
      ((disk_write card DEV_MMC buff sector count s).1 ≠ RES_OK →
        (disk_write card DEV_MMC buff sector count s).1 = RES_ERROR)) ∧
    (∀ off t, (MMC_wait_ready card 500 t).1 ≠ 0 →
      (MMC_SendDataBlock card buff off 0xFC t).2.tx =
        (MMC_wait_ready card 500 t).2.tx ++ [0xFC] ++ bufBytes buff off 512 ++
          [0xFF, 0xFF, 0xFF] ∧
      ((MMC_SendDataBlock card buff off 0xFC t).1 ≠ 0 ↔
        card ((MMC_wait_ready card 500 t).2.pos + 1 + 512 + 2) % 256 &&& 0x1F = 0x05)) ∧
    (∀ off t, (MMC_wait_ready card 500 t).1 = 0 →
      MMC_SendDataBlock card buff off 0xFC t = (0, (MMC_wait_ready card 500 t).2)) ∧
    (∀ t, ((MMC_wait_ready card 500 t).1 ≠ 0 →
        MMC_SendDataBlock card buff 0 0xFD t = (1, sent [0xFD] (MMC_wait_ready card 500 t).2)) ∧
      ((MMC_wait_ready card 500 t).1 = 0 →
        MMC_SendDataBlock card buff 0 0xFD t = (0, (MMC_wait_ready card 500 t).2))) := by
  have hdw0 := disk_write_multi_eq card buff sector count s s0 c hinit hprot hcnt hs0 hc
  refine ⟨fun hrej => ?_, fun hacc => ?_, fun off t hw => ?_, fun off t hw => ?_, fun t => ?_⟩
  · rw [hdw0, if_neg hrej]
  · obtain ⟨m, hm, hok, hfail, heq⟩ := MMC_write_blocks_spec card buff count 0 c.2
    rw [if_pos hacc, heq] at hdw0
    dsimp only at hdw0
    refine ⟨m, hm, hok, hfail, by rw [hdw0], ?_, ?_⟩
    · rw [hdw0]
      by_cases hw : (MMC_wait_ready card 500
          (afterBlocks card buff 0 (min (m + 1) count) c.2)).1 = 0
      · rw [MMC_SendDataBlock_not_ready card buff 0 0xFD _ hw]
        simp [hw]
      · rw [MMC_SendDataBlock_stop card buff 0 _ hw]
        by_cases hmc : m = count
        · have hz : count - m = 0 := by omega
          have hmin : min (m + 1) count = count := by omega
          rw [hmin] at hw ⊢
          simp [hw, hmc, hz]
        · have : count - m ≠ 0 := by omega
          simp [hw, hmc, this]
    · rw [hdw0]
      dsimp only
      split_ifs <;> simp
  · rw [MMC_SendDataBlock_data card buff off 0xFC t hw (by decide)]
    refine ⟨?_, ?_⟩
    · simp only [sent_tx, List.append_assoc, List.cons_append, List.nil_append, Nat.reduceMod]
    · by_cases hr : card ((MMC_wait_ready card 500 t).2.pos + 1 + 512 + 2) % 256 &&& 0x1F = 0x05
      · simp only [hr, ne_eq, not_true_eq_false, if_false, one_ne_zero, not_false_eq_true]
      · simp only [hr, ne_eq, not_false_eq_true, if_true, not_true_eq_false]
  · exact MMC_SendDataBlock_not_ready card buff off 0xFC t hw
  · exact ⟨fun hw => MMC_SendDataBlock_stop card buff 0 t hw,
      fun hw => MMC_SendDataBlock_not_ready card buff 0 0xFD t hw⟩

/-- C12 at a write of two sectors to a card that never answers: CMD25 is not
accepted, the result is RES_ERROR and only the deselect follows the command. -/
theorem multi_write_blocks_and_stop_witness :
    disk_write cardSilent DEV_MMC (fun i => i) 0 2 readyState =
      (RES_ERROR, MMC_deselect cardSilent
        (MMC_send_cmd cardSilent CMD25 (sector_arg readyState 0)
          (if readyState.CardType &&& CT_SDC ≠ 0 then
            (MMC_send_cmd cardSilent ACMD23 2 readyState).2 else readyState)).2) :=
  (multi_write_blocks_and_stop cardSilent (fun i => i) 0 2 readyState _ _
    (by decide) (by decide) (by decide) rfl rfl).1 (by decide)

/-! ## C13: the argument of the read and write commands -/

theorem sent_extends (bytes : List Nat) (s : MMC) : Extends s (sent bytes s) :=
  ⟨bytes, sent_tx bytes s⟩

theorem MMC_send_cmd_internal_extends (card : Nat → Nat) (cmd arg : Nat) (s : MMC) :
    Extends s (MMC_send_cmd_internal card cmd arg s).2 := by
  have hsel := (MMC_deselect_extends card s).trans (MMC_select_extends card _)
  by_cases h : (MMC_select card (MMC_deselect card s)).1 = 0
  · simp only [MMC_send_cmd_internal, if_pos h]
    exact hsel
  · obtain ⟨j, _, _, _, heq⟩ := MMC_send_cmd_internal_spec card cmd arg s h
    rw [heq]
    exact (hsel.trans (sent_extends _ _)).trans (idleClocks_extends _ _)

theorem MMC_send_cmd_extends (card : Nat → Nat) (cmd arg : Nat) (s : MMC) :
    Extends s (MMC_send_cmd card cmd arg s).2 := by
  simp only [MMC_send_cmd]
  split
  · split
    · exact MMC_send_cmd_internal_extends card CMD55 0 s
    · exact (MMC_send_cmd_internal_extends card CMD55 0 s).trans
        (MMC_send_cmd_internal_extends card _ _ _)
  · exact MMC_send_cmd_internal_extends card cmd arg s

theorem MMC_SendDataBlock_extends (card : Nat → Nat) (buff : Nat → Nat) (off token : Nat)
    (s : MMC) : Extends s (MMC_SendDataBlock card buff off token s).2 := by
  have hw : Extends s (MMC_wait_ready card 500 s).2 := MMC_wait_ready_loop_extends card _ s
  by_cases h : (MMC_wait_ready card 500 s).1 = 0
  · rw [MMC_SendDataBlock_not_ready card buff off token s h]
    exact hw
  · by_cases ht : token = 0xFD
    · subst ht
      rw [MMC_SendDataBlock_stop card buff off s h]
      exact hw.trans (sent_extends _ _)
    · rw [MMC_SendDataBlock_data card buff off token s h ht]
      exact hw.trans (sent_extends _ _)

theorem MMC_write_blocks_extends (card : Nat → Nat) (buff : Nat → Nat) (n : Nat) :
    ∀ (off : Nat) (s : MMC), Extends s (MMC_write_blocks card buff off n s).2 := by
  induction n with
  | zero => intro off s; rw [MMC_write_blocks]; exact Extends.refl s
  | succ n ih =>
    intro off s
    rw [MMC_write_blocks_succ]
    split
    · exact MMC_SendDataBlock_extends card buff off 0xFC s
    · exact (MMC_SendDataBlock_extends card buff off 0xFC s).trans (ih _ _)

theorem MMC_send_cmd_frame_idle (card : Nat → Nat) (cmd arg : Nat) (s : MMC)
    (hplain : cmd &&& 0x80 = 0)
    (hsel : (MMC_select card (MMC_deselect card s)).1 ≠ 0) :
    ∃ k post, (MMC_send_cmd card cmd arg s).2.tx =
      s.tx ++ List.replicate k 0xFF ++ cmd_frame cmd arg ++ post := by
  obtain ⟨k, _, hk⟩ := IdleRun_trans (MMC_deselect_IdleRun card s) (MMC_select_IdleRun card _)
  obtain ⟨k2, _, _, htx⟩ := MMC_send_cmd_internal_tx card cmd arg s hsel
  exact ⟨k, List.replicate k2 0xFF, by rw [MMC_send_cmd_plain card cmd arg s hplain, htx, hk]⟩

theorem disk_read_after_cmd (card : Nat → Nat) (sector count : Nat) (s : MMC)
    (hinit : s.DiskStat &&& STA_NOINIT = 0) (hcnt : 1 ≤ count) :
    Extends (MMC_send_cmd card (if count = 1 then CMD17 else CMD18) (sector_arg s sector) s).2
      (disk_read card DEV_MMC sector count s).2.2 := by
  have h0 : ¬ (DEV_MMC ≠ DEV_MMC ∨ count = 0) := by
    intro h
    rcases h with h | h
    · exact h rfl
    · omega
  unfold disk_read
  rw [if_neg h0, if_neg (not_not.mpr hinit)]
  by_cases h1 : count = 1
  · rw [if_pos h1, if_pos h1]
    dsimp only
    split
    · exact (MMC_ReceiveDataBlock_extends card 512 _).trans (MMC_deselect_extends card _)
    · exact MMC_deselect_extends card _
  · rw [if_neg h1, if_neg h1]
    dsimp only
    split
    · exact ((MMC_read_blocks_extends card count _).trans
        (MMC_send_cmd_extends card CMD12 0 _)).trans (MMC_deselect_extends card _)
    · exact MMC_deselect_extends card _

theorem disk_write_after_cmd (card : Nat → Nat) (buff : Nat → Nat) (sector count : Nat)
    (s s0 : MMC)
    (hinit : s.DiskStat &&& STA_NOINIT = 0) (hprot : s.DiskStat &&& STA_PROTECT = 0)
    (hcnt : 1 ≤ count)
    (hs0 : s0 = if count = 1 then s else
      if s.CardType &&& CT_SDC ≠ 0 then (MMC_send_cmd card ACMD23 count s).2 else s) :
    Extends (MMC_send_cmd card (if count = 1 then CMD24 else CMD25) (sector_arg s sector) s0).2
      (disk_write card DEV_MMC buff sector count s).2 := by
  by_cases h1 : count = 1
  · rw [if_pos h1] at hs0
    subst hs0
    have h0 : ¬ (DEV_MMC ≠ DEV_MMC ∨ count = 0) := by
      intro h
      rcases h with h | h
      · exact h rfl
      · omega
    unfold disk_write
    rw [if_neg h0, if_neg (not_not.mpr hinit), if_neg (not_not.mpr hprot), if_pos h1, if_pos h1]
    dsimp only
    split
    · exact (MMC_SendDataBlock_extends card buff 0 0xFE _).trans (MMC_deselect_extends card _)
    · exact MMC_deselect_extends card _
  · rw [if_neg h1] at hs0
    rw [if_neg h1, disk_write_multi_eq card buff sector count s s0 _ hinit hprot (by omega) hs0 rfl]
    split
    · exact ((MMC_write_blocks_extends card buff count 0 _).trans
        (MMC_SendDataBlock_extends card buff 0 0xFD _)).trans (MMC_deselect_extends card _)
    · exact MMC_deselect_extends card _

theorem sector_arg_lt (s : MMC) (sector : Nat) (hsec : sector < 2 ^ 32) :
    sector_arg s sector < 2 ^ 32 := by
  unfold sector_arg
  split
  · exact Nat.mod_lt _ (by norm_num)
  · exact hsec

theorem cmd_frame_argument (cmd a : Nat) (ha : a < 2 ^ 32) :
    (cmd_frame cmd a).getD 1 0 * 2 ^ 24 + (cmd_frame cmd a).getD 2 0 * 2 ^ 16 +
      (cmd_frame cmd a).getD 3 0 * 2 ^ 8 + (cmd_frame cmd a).getD 4 0 = a := by
  have e : (cmd_frame cmd a).getD 1 0 * 2 ^ 24 + (cmd_frame cmd a).getD 2 0 * 2 ^ 16 +
      (cmd_frame cmd a).getD 3 0 * 2 ^ 8 + (cmd_frame cmd a).getD 4 0 =
      (a >>> 24) % 256 * 2 ^ 24 + (a >>> 16) % 256 * 2 ^ 16 + (a >>> 8) % 256 * 2 ^ 8 +
        a % 256 := rfl
  rw [e]
  simp only [Nat.shiftRight_eq_div_pow]
  norm_num
  omega

/-- C13: for every 32-bit sector index, the argument `disk_read` and
`disk_write` hand to the read command (CMD17, CMD18 for more than one sector)
and to the write command (CMD24, CMD25) is the sector itself when `CardType`
has the block-addressing flag and `(sector * 512) mod 2^32` otherwise, which
is the byte address `sector * 512` exactly when `sector < 2^23`.  Once the
card is selected and ready the frame carrying that argument is sent as the first
bytes other than 0xFF (for CMD25 after the ACMD23 hint `s0` of an SD card), and
its four argument bytes, read big-endian, give the argument back. -/
theorem sector_argument (card : Nat → Nat) (buff : Nat → Nat) (sector count : Nat) (s s0 : MMC)
    (hsec : sector < 2 ^ 32) (hinit : s.DiskStat &&& STA_NOINIT = 0) (hcnt : 1 ≤ count)
    (hs0 : s0 = if count = 1 then s else
      if s.CardType &&& CT_SDC ≠ 0 then (MMC_send_cmd card ACMD23 count s).2 else s) :
    (s.CardType &&& CT_BLOCK ≠ 0 → sector_arg s sector = sector) ∧
    (s.CardType &&& CT_BLOCK = 0 →
      sector_arg s sector = (sector * 512) % 2 ^ 32 ∧
      (sector_arg s sector = sector * 512 ↔ sector < 2 ^ 23)) ∧
    ((MMC_select card (MMC_deselect card s)).1 ≠ 0 →
      ∃ k post, (disk_read card DEV_MMC sector count s).2.2.tx =
        s.tx ++ List.replicate k 0xFF ++
          cmd_frame (if count = 1 then CMD17 else CMD18) (sector_arg s sector) ++ post) ∧
    (s.DiskStat &&& STA_PROTECT = 0 → (MMC_select card (MMC_deselect card s0)).1 ≠ 0 →
      ∃ k post, (disk_write card DEV_MMC buff sector count s).2.tx =
        s0.tx ++ List.replicate k 0xFF ++
          cmd_frame (if count = 1 then CMD24 else CMD25) (sector_arg s sector) ++ post) ∧
    (∀ cmd, (cmd_frame cmd (sector_arg s sector)).getD 1 0 * 2 ^ 24 +
      (cmd_frame cmd (sector_arg s sector)).getD 2 0 * 2 ^ 16 +
      (cmd_frame cmd (sector_arg s sector)).getD 3 0 * 2 ^ 8 +
      (cmd_frame cmd (sector_arg s sector)).getD 4 0 = sector_arg s sector) := by
  refine ⟨fun hb => ?_, fun hb => ?_, fun hsel => ?_, fun hprot hsel => ?_, fun cmd => ?_⟩
  · simp only [sector_arg, if_neg hb]
  · have e : sector_arg s sector = (sector * 512) % 2 ^ 32 := by
      simp only [sector_arg, if_pos hb]
    refine ⟨e, ?_⟩
    rw [e]
    constructor
    · intro h
      have hlt : sector * 512 < 2 ^ 32 := by
        rw [← h]; exact Nat.mod_lt _ (by norm_num)
      have : (2 : Nat) ^ 32 = 2 ^ 23 * 512 := by norm_num
      omega
    · intro h
      apply Nat.mod_eq_of_lt
      have : (2 : Nat) ^ 32 = 2 ^ 23 * 512 := by norm_num
      omega
  · have hplain : (if count = 1 then CMD17 else CMD18) &&& 0x80 = 0 := by
      split <;> decide
    obtain ⟨k, post, htx⟩ := MMC_send_cmd_frame_idle card
      (if count = 1 then CMD17 else CMD18) (sector_arg s sector) s hplain hsel
    obtain ⟨ext, hext⟩ := disk_read_after_cmd card sector count s hinit hcnt
    exact ⟨k, post ++ ext, by rw [hext, htx, List.append_assoc]⟩
  · have hplain : (if count = 1 then CMD24 else CMD25) &&& 0x80 = 0 := by
      split <;> decide
    obtain ⟨k, post, htx⟩ := MMC_send_cmd_frame_idle card
      (if count = 1 then CMD24 else CMD25) (sector_arg s sector) s0 hplain hsel
    obtain ⟨ext, hext⟩ := disk_write_after_cmd card buff sector count s s0 hinit hprot hcnt hs0
    exact ⟨k, post ++ ext, by rw [hext, htx, List.append_assoc]⟩
  · exact cmd_frame_argument cmd _ (sector_arg_lt s sector hsec)

/-- C13 at sector 0x00900000 of a byte-addressed SD version 1 card: beyond
2^23, so the argument is the byte address reduced modulo 2^32. -/
theorem sector_argument_witness :
    sector_arg { readyState with CardType := CT_SD1 } 0x00900000 = 0x20000000 ∧
    ¬ (sector_arg { readyState with CardType := CT_SD1 } 0x00900000 = 0x00900000 * 512) :=
  have h := (sector_argument cardSilent (fun i => i) 0x00900000 1
    { readyState with CardType := CT_SD1 } { readyState with CardType := CT_SD1 }
    (by decide) (by decide) (by decide) rfl).2.1 (by decide)
  ⟨h.1.trans (by decide), fun e => absurd (h.2.1 e) (by decide)⟩

/-! ## C15: bounded polling in `disk_initialize` -/

theorem MMC_SendSPI_pos (card : Nat → Nat) (d : Nat) (s : MMC) :
    (MMC_SendSPI card d s).2.pos = s.pos + 1 := by
  cases s; rfl

theorem MMC_deselect_pos (card : Nat → Nat) (s : MMC) :
    (MMC_deselect card s).pos = s.pos + 1 := by
  cases s; rfl

theorem MMC_wait_ready_loop_pos (card : Nat → Nat) (n : Nat) :
    ∀ s : MMC, s.pos ≤ (MMC_wait_ready_loop card n s).2.pos ∧
      (MMC_wait_ready_loop card n s).2.pos ≤ s.pos + n := by
  induction n with
  | zero => intro s; exact ⟨Nat.le_refl _, Nat.le_refl _⟩
  | succ n ih =>
    intro s
    have h1 := MMC_SendSPI_pos card 0xFF s
    have h2 := ih (MMC_SendSPI card 0xFF s).2
    simp only [MMC_wait_ready_loop]
    split <;> first | omega | (dsimp only; omega)

theorem MMC_select_pos (card : Nat → Nat) (s : MMC) :
    s.pos + 1 ≤ (MMC_select card s).2.pos ∧ (MMC_select card s).2.pos ≤ s.pos + 5002 := by
  have h1 : (MMC_SendSPI card 0xFF { s with MMC_CS := false }).2.pos = s.pos + 1 := by
    cases s; rfl
  have h2 := MMC_wait_ready_loop_pos card ((500 * 10) % 65536)
    (MMC_SendSPI card 0xFF { s with MMC_CS := false }).2
  have h3 := MMC_deselect_pos card
    (MMC_wait_ready card 500 (MMC_SendSPI card 0xFF { s with MMC_CS := false }).2).2
  have h4 : (500 * 10) % 65536 = 5000 := by norm_num
  rw [h4] at h2
  simp only [MMC_select]
  unfold MMC_wait_ready at h3 ⊢
  rw [h4] at h3 ⊢
  split <;> first | omega | (dsimp only; omega)

theorem MMC_send_cmd_internal_pos (card : Nat → Nat) (cmd arg : Nat) (s : MMC) :
    s.pos + 1 ≤ (MMC_send_cmd_internal card cmd arg s).2.pos ∧
      (MMC_send_cmd_internal card cmd arg s).2.pos ≤ s.pos + 5020 := by
  have h1 := MMC_deselect_pos card s
  have h2 := MMC_select_pos card (MMC_deselect card s)
  by_cases h : (MMC_select card (MMC_deselect card s)).1 = 0
  · simp only [MMC_send_cmd_internal, if_pos h]
    omega
  · obtain ⟨j, hj, _, _, heq⟩ := MMC_send_cmd_internal_spec card cmd arg s h
    have hlen : (cmd_frame cmd arg).length = 6 := rfl
    have hst : stuffBytes cmd ≤ 1 := by unfold stuffBytes; split <;> omega
    rw [heq, idleClocks_pos, sent_pos, hlen]
    omega

theorem MMC_send_cmd_pos (card : Nat → Nat) (cmd arg : Nat) (s : MMC) :
    s.pos + 1 ≤ (MMC_send_cmd card cmd arg s).2.pos ∧
      (MMC_send_cmd card cmd arg s).2.pos ≤ s.pos + 10040 := by
  have h1 := MMC_send_cmd_internal_pos card CMD55 0 s
  have h2 := MMC_send_cmd_internal_pos card (cmd &&& 0x7F) arg
    (MMC_send_cmd_internal card CMD55 0 s).2
  have h3 := MMC_send_cmd_internal_pos card cmd arg s
  simp only [MMC_send_cmd]
  split
  · split <;> omega
  · omega

theorem MMC_idle_loop_pos (card : Nat → Nat) (cmd arg n : Nat) :
    ∀ s : MMC, (MMC_idle_loop card cmd arg n s).2.pos ≤ s.pos + n * 10040 := by
  induction n with
  | zero => intro s; exact Nat.le_of_eq (by simp [MMC_idle_loop])
  | succ n ih =>
    intro s
    have h1 := MMC_send_cmd_pos card cmd arg s
    have h2 := ih (MMC_send_cmd card cmd arg s).2
    simp only [MMC_idle_loop]
    split <;> first | omega | (dsimp only; omega)

theorem MMC_receive_ocr_pos (card : Nat → Nat) (s : MMC) :
    (MMC_receive_ocr card s).2.pos = s.pos + 4 := by
  cases s; rfl

theorem MMC_dummy_clocks_pos (card : Nat → Nat) (n : Nat) :
    ∀ s : MMC, (MMC_dummy_clocks card n s).pos = s.pos + n := by
  induction n with
  | zero => intro s; rfl
  | succ n ih =>
    intro s
    rw [MMC_dummy_clocks, ih, MMC_SendSPI_pos]
    omega

theorem MMC_identify_sd2_pos (card : Nat → Nat) (s : MMC) :
    (MMC_identify_sd2 card s).2.pos ≤ s.pos + 10050048 := by
  have h1 := MMC_receive_ocr_pos card s
  have h2 := MMC_idle_loop_pos card ACMD41 (2 ^ 30) 1000 (MMC_receive_ocr card s).2
  have h3 := MMC_send_cmd_pos card CMD58 0
    (MMC_idle_loop card ACMD41 (2 ^ 30) 1000 (MMC_receive_ocr card s).2).2
  have h4 := MMC_receive_ocr_pos card (MMC_send_cmd card CMD58 0
    (MMC_idle_loop card ACMD41 (2 ^ 30) 1000 (MMC_receive_ocr card s).2).2).2
  simp only [MMC_identify_sd2]
  repeat' split
  all_goals first | omega | (dsimp only; omega)

theorem MMC_identify_sd1_pos (card : Nat → Nat) (s : MMC) :
    (MMC_identify_sd1 card s).2.pos ≤ s.pos + 10060080 := by
  have h1 := MMC_send_cmd_pos card ACMD41 0 s
  have h2 := MMC_idle_loop_pos card ACMD41 0 1000 (MMC_send_cmd card ACMD41 0 s).2
  have h3 := MMC_send_cmd_pos card CMD16 512
    (MMC_idle_loop card ACMD41 0 1000 (MMC_send_cmd card ACMD41 0 s).2).2
  have h4 := MMC_idle_loop_pos card CMD1 0 1000 (MMC_send_cmd card ACMD41 0 s).2
  have h5 := MMC_send_cmd_pos card CMD16 512
    (MMC_idle_loop card CMD1 0 1000 (MMC_send_cmd card ACMD41 0 s).2).2
  simp only [MMC_identify_sd1]
  repeat' split
  all_goals first | omega | (dsimp only; omega)

theorem MMC_identify_pos (card : Nat → Nat) (s : MMC) :
    (MMC_identify card s).2.pos ≤ s.pos + 10080160 := by
  have h1 := MMC_send_cmd_pos card CMD0 0 s
  have h2 := MMC_send_cmd_pos card CMD8 0x1AA (MMC_send_cmd card CMD0 0 s).2
  have h3 := MMC_identify_sd2_pos card (MMC_send_cmd card CMD8 0x1AA
    (MMC_send_cmd card CMD0 0 s).2).2
  have h4 := MMC_identify_sd1_pos card (MMC_send_cmd card CMD8 0x1AA
    (MMC_send_cmd card CMD0 0 s).2).2
  simp only [MMC_identify]
  split
  · split <;> omega
  · dsimp only; omega

theorem disk_initialize_pos (card : Nat → Nat) (pdrv : Nat) (s : MMC) :
    ( disk_initialize card pdrv s).2.pos ≤ s.pos + 10080171 := by
  have h1 := MMC_dummy_clocks_pos card 10 s
  have h2 := MMC_identify_pos card (MMC_dummy_clocks card 10 s)
  by_cases hp : pdrv ≠ DEV_MMC
  · simp only [ disk_initialize, if_pos hp]
    omega
  · by_cases hn : s.DiskStat &&& STA_NODISK ≠ 0
    · simp only [ disk_initialize, if_neg hp, if_pos hn]
      omega
    · have e : ( disk_initialize card pdrv s).2.pos =
          (MMC_identify card (MMC_dummy_clocks card 10 s)).2.pos + 1 := by
        simp only [ disk_initialize, if_neg hp, if_neg hn]
        split <;> rfl
      omega

theorem probes_zero (card : Nat → Nat) (cmd arg : Nat) (s : MMC) :
    probes card cmd arg 0 s = s := by
  rw [probes]

theorem probes_succ (card : Nat → Nat) (cmd arg i : Nat) (s : MMC) :
    probes card cmd arg (i + 1) s = (MMC_send_cmd card cmd arg (probes card cmd arg i s)).2 := by
  rw [probes]

theorem probes_shift (card : Nat → Nat) (cmd arg i : Nat) :
    ∀ s : MMC, probes card cmd arg (i + 1) s =
      probes card cmd arg i (MMC_send_cmd card cmd arg s).2 := by
  induction i with
  | zero => intro s; rw [probes_succ, probes_zero, probes_zero]
  | succ i ih => intro s; rw [probes_succ, ih, probes_succ]

theorem probes_pos_lt (card : Nat → Nat) (cmd arg i : Nat) (s : MMC) :
    (probes card cmd arg i s).pos < (probes card cmd arg (i + 1) s).pos := by
  rw [probes_succ]
  have := (MMC_send_cmd_pos card cmd arg (probes card cmd arg i s)).1
  omega

theorem probes_pos_le (card : Nat → Nat) (cmd arg i : Nat) (s : MMC) :
    s.pos ≤ (probes card cmd arg i s).pos := by
  induction i with
  | zero => rw [probes_zero]
  | succ i ih =>
    have := probes_pos_lt card cmd arg i s
    omega

theorem MMC_idle_loop_succ (card : Nat → Nat) (cmd arg n : Nat) (s : MMC) :
    MMC_idle_loop card cmd arg (n + 1) s =
      if (MMC_send_cmd card cmd arg s).1 = 0 then (n + 1, (MMC_send_cmd card cmd arg s).2)
      else MMC_idle_loop card cmd arg n (MMC_send_cmd card cmd arg s).2 := by
  rw [MMC_idle_loop]

theorem MMC_idle_loop_never (card : Nat → Nat) (cmd arg n : Nat) :
    ∀ s : MMC,
      (∀ i, i < n → (MMC_send_cmd card cmd arg (probes card cmd arg i s)).1 ≠ 0) →
      MMC_idle_loop card cmd arg n s = (0, probes card cmd arg n s) := by
  induction n with
  | zero => intro s _; rw [MMC_idle_loop, probes_zero]
  | succ n ih =>
    intro s h
    have h0 : (MMC_send_cmd card cmd arg s).1 ≠ 0 := by
      have := h 0 (Nat.succ_pos n)
      rwa [probes_zero] at this
    have hrest : ∀ i, i < n →
        (MMC_send_cmd card cmd arg
          (probes card cmd arg i (MMC_send_cmd card cmd arg s).2)).1 ≠ 0 := by
      intro i hi
      have := h (i + 1) (by omega)
      rwa [probes_shift] at this
    rw [MMC_idle_loop_succ, if_neg h0, ih _ hrest, probes_shift]

theorem MMC_send_cmd_internal_silent (card : Nat → Nat) (p cmd arg : Nat) (s : MMC)
    (hsil : ∀ j, p ≤ j → card j % 256 = 0xFF) (hp : p ≤ s.pos) :
    (MMC_send_cmd_internal card cmd arg s).1 = 0xFF := by
  by_cases h : (MMC_select card (MMC_deselect card s)).1 = 0
  · simp only [MMC_send_cmd_internal, if_pos h]
  · obtain ⟨j, _, _, _, heq⟩ := MMC_send_cmd_internal_spec card cmd arg s h
    have h1 := MMC_deselect_pos card s
    have h2 := (MMC_select_pos card (MMC_deselect card s)).1
    rw [heq]
    exact hsil _ (by omega)

theorem NeverReady_of_silent (card : Nat → Nat) (p cmd arg : Nat) (s : MMC)
    (hplain : cmd &&& 0x80 = 0)
    (hsil : ∀ j, p ≤ j → card j % 256 = 0xFF) (hp : p ≤ s.pos) :
    NeverReady card cmd arg s := by
  intro i _
  have hle := probes_pos_le card cmd arg i s
  rw [MMC_send_cmd_plain card cmd arg _ hplain,
    MMC_send_cmd_internal_silent card p cmd arg _ hsil (by omega)]
  decide

theorem MMC_identify_sd2_never (card : Nat → Nat) (s : MMC)
    (h2 : (MMC_receive_ocr card s).1.getD 2 0 = 0x01)
    (h3 : (MMC_receive_ocr card s).1.getD 3 0 = 0xAA)
    (hn : NeverReady card ACMD41 (2 ^ 30) (MMC_receive_ocr card s).2) :
    (MMC_identify_sd2 card s).1 = 0 := by
  have hl := MMC_idle_loop_never card ACMD41 (2 ^ 30) 1000 _ hn
  simp only [MMC_identify_sd2, h2, h3, and_self, if_true, hl, ne_eq, not_true_eq_false, if_false]

theorem MMC_identify_sd1_never (card : Nat → Nat) (s : MMC)
    (hn : NeverReady card (if (MMC_send_cmd card ACMD41 0 s).1 ≤ 1 then ACMD41 else CMD1) 0
      (MMC_send_cmd card ACMD41 0 s).2) :
    (MMC_identify_sd1 card s).1 = 0 := by
  have hl := MMC_idle_loop_never card _ 0 1000 _ hn
  simp only [MMC_identify_sd1, hl, if_true]

/-! ## The run of `disk_initialize` with the transfer-complete waits -/

theorem MMC_wait_BF_none (flag : Nat → Bool) (h : ∀ i, flag i = false) :
    ∀ fuel i, MMC_wait_BF flag fuel i = none := by
  intro fuel
  induction fuel with
  | zero => intro i; rfl
  | succ n ih =>
    intro i
    rw [MMC_wait_BF, h i]
    exact ih (i + 1)

theorem MMC_wait_BF_some (flag : Nat → Bool) :
    ∀ fuel i0, (∃ i, i0 ≤ i ∧ i < i0 + fuel ∧ flag i = true) →
      ∃ n, MMC_wait_BF flag fuel i0 = some n ∧ i0 ≤ n ∧ n < i0 + fuel ∧ flag n = true ∧
        ∀ j, i0 ≤ j → j < n → flag j = false := by
  intro fuel
  induction fuel with
  | zero =>
    rintro i0 ⟨i, h1, h2, _⟩
    omega
  | succ m ih =>
    rintro i0 ⟨i, h1, h2, h3⟩
    by_cases hf : flag i0 = true
    · refine ⟨i0, ?_, Nat.le_refl _, by omega, hf, fun j hj hj2 => by omega⟩
      rw [MMC_wait_BF, if_pos hf]
    · have hne : i ≠ i0 := by
        intro e; rw [e] at h3; exact hf h3
      obtain ⟨n, e, hn1, hn2, hn3, hn4⟩ := ih (i0 + 1) ⟨i, by omega, by omega, h3⟩
      refine ⟨n, ?_, by omega, by omega, hn3, fun j hj hj2 => ?_⟩
      · rw [MMC_wait_BF, if_neg hf]; exact e
      · by_cases hj0 : j = i0
        · rw [hj0]; exact Bool.eq_false_iff.mpr hf
        · exact hn4 j (by omega) hj2

theorem MMC_wait_BF_after (k n fuel : Nat) (h : n < fuel) :
    MMC_wait_BF (bfAfter n k) fuel 0 = some n := by
  obtain ⟨m, e, _, _, hm, hall⟩ := MMC_wait_BF_some (bfAfter n k) fuel 0
    ⟨n, Nat.zero_le _, by omega, by simp [bfAfter]⟩
  have h1 : n ≤ m := by simpa [bfAfter] using hm
  have h2 : m ≤ n := by
    by_contra hlt
    have := hall n (Nat.zero_le _) (by omega)
    simp [bfAfter] at this
  have : m = n := by omega
  rw [e, this]

theorem Completes_bfAfter (n fuel : Nat) (h : n < fuel) : Completes (bfAfter n) fuel :=
  fun _ => ⟨n, h, by simp [bfAfter]⟩

theorem MMC_SendSPI_bf_eq (card : Nat → Nat) (bf : Nat → Nat → Bool) (fuel : Nat)
    (H : Completes bf fuel) (d : Nat) (s : MMC) :
    MMC_SendSPI_bf card bf fuel d s = some (MMC_SendSPI card d s) := by
  obtain ⟨i, hi, hb⟩ := H s.pos
  obtain ⟨n, e, _⟩ := MMC_wait_BF_some (bf s.pos) fuel 0 ⟨i, Nat.zero_le _, by omega, hb⟩
  unfold MMC_SendSPI_bf
  rw [e]

theorem MMC_SendSPI_bf_stuck (card : Nat → Nat) (bf : Nat → Nat → Bool) (fuel : Nat)
    (d : Nat) (s : MMC) (h : ∀ i, bf s.pos i = false) :
    MMC_SendSPI_bf card bf fuel d s = none := by
  unfold MMC_SendSPI_bf
  rw [MMC_wait_BF_none (bf s.pos) h]

theorem MMC_dummy_clocks_bf_eq (card : Nat → Nat) (bf : Nat → Nat → Bool) (fuel : Nat)
    (H : Completes bf fuel) (n : Nat) :
    ∀ s : MMC, MMC_dummy_clocks_bf card bf fuel n s = some (MMC_dummy_clocks card n s) := by
  induction n with
  | zero => intro s; rfl
  | succ n ih =>
    intro s
    rw [MMC_dummy_clocks_bf, MMC_SendSPI_bf_eq card bf fuel H, Option.some_bind, ih,
      MMC_dummy_clocks]

theorem MMC_wait_ready_loop_bf_eq (card : Nat → Nat) (bf : Nat → Nat → Bool) (fuel : Nat)
    (H : Completes bf fuel) (n : Nat) :
    ∀ s : MMC,
      MMC_wait_ready_loop_bf card bf fuel n s = some (MMC_wait_ready_loop card n s) := by
  induction n with
  | zero => intro s; rfl
  | succ n ih =>
    intro s
    rw [MMC_wait_ready_loop_bf, MMC_SendSPI_bf_eq card bf fuel H, Option.some_bind,
      MMC_wait_ready_loop]
    split
    · rfl
    · exact ih _

theorem MMC_wait_ready_bf_eq (card : Nat → Nat) (bf : Nat → Nat → Bool) (fuel : Nat)
    (H : Completes bf fuel) (wt : Nat) (s : MMC) :
    MMC_wait_ready_bf card bf fuel wt s = some (MMC_wait_ready card wt s) := by
  unfold MMC_wait_ready_bf MMC_wait_ready
  exact MMC_wait_ready_loop_bf_eq card bf fuel H _ s

theorem MMC_deselect_bf_eq (card : Nat → Nat) (bf : Nat → Nat → Bool) (fuel : Nat)
    (H : Completes bf fuel) (s : MMC) :
    MMC_deselect_bf card bf fuel s = some (MMC_deselect card s) := by
  unfold MMC_deselect_bf MMC_deselect
  rw [MMC_SendSPI_bf_eq card bf fuel H, Option.some_bind]

theorem MMC_select_bf_eq (card : Nat → Nat) (bf : Nat → Nat → Bool) (fuel : Nat)
    (H : Completes bf fuel) (s : MMC) :
    MMC_select_bf card bf fuel s = some (MMC_select card s) := by
  unfold MMC_select_bf MMC_select
  rw [MMC_SendSPI_bf_eq card bf fuel H, Option.some_bind,
    MMC_wait_ready_bf_eq card bf fuel H, Option.some_bind]
  dsimp only
  split
  · rfl
  · rw [MMC_deselect_bf_eq card bf fuel H, Option.some_bind]

theorem MMC_response_loop_bf_eq (card : Nat → Nat) (bf : Nat → Nat → Bool) (fuel : Nat)
    (H : Completes bf fuel) (n : Nat) :
    ∀ s : MMC,
      MMC_response_loop_bf card bf fuel n s = some (MMC_response_loop card n s) := by
  induction n with
  | zero =>
    intro s
    rw [MMC_response_loop_bf, MMC_SendSPI_bf_eq card bf fuel H, MMC_response_loop]
  | succ n ih =>
    intro s
    rw [MMC_response_loop_bf, MMC_SendSPI_bf_eq card bf fuel H, Option.some_bind,
      MMC_response_loop]
    split
    · exact ih _
    · rfl

theorem MMC_send_cmd_internal_bf_eq (card : Nat → Nat) (bf : Nat → Nat → Bool) (fuel : Nat)
    (H : Completes bf fuel) (cmd arg : Nat) (s : MMC) :
    MMC_send_cmd_internal_bf card bf fuel cmd arg s =
      some (MMC_send_cmd_internal card cmd arg s) := by
  unfold MMC_send_cmd_internal_bf MMC_send_cmd_internal
  rw [MMC_deselect_bf_eq card bf fuel H, Option.some_bind,
    MMC_select_bf_eq card bf fuel H, Option.some_bind]
  dsimp only
  split
  · rfl
  · simp only [MMC_SendSPI_bf_eq card bf fuel H, Option.some_bind]
    split
    · simp only [Option.some_bind]
      exact MMC_response_loop_bf_eq card bf fuel H 9 _
    · simp only [Option.some_bind]
      exact MMC_response_loop_bf_eq card bf fuel H 9 _

theorem MMC_send_cmd_bf_eq (card : Nat → Nat) (bf : Nat → Nat → Bool) (fuel : Nat)
    (H : Completes bf fuel) (cmd arg : Nat) (s : MMC) :
    MMC_send_cmd_bf card bf fuel cmd arg s = some (MMC_send_cmd card cmd arg s) := by
  unfold MMC_send_cmd_bf MMC_send_cmd
  split
  · rw [MMC_send_cmd_internal_bf_eq card bf fuel H, Option.some_bind]
    dsimp only
    split
    · rfl
    · exact MMC_send_cmd_internal_bf_eq card bf fuel H _ _ _
  · exact MMC_send_cmd_internal_bf_eq card bf fuel H _ _ _

theorem MMC_idle_loop_bf_eq (card : Nat → Nat) (bf : Nat → Nat → Bool) (fuel : Nat)
    (H : Completes bf fuel) (cmd arg n : Nat) :
    ∀ s : MMC,
      MMC_idle_loop_bf card bf fuel cmd arg n s = some (MMC_idle_loop card cmd arg n s) := by
  induction n with
  | zero => intro s; rfl
  | succ n ih =>
    intro s
    rw [MMC_idle_loop_bf, MMC_send_cmd_bf_eq card bf fuel H, Option.some_bind,
      MMC_idle_loop_succ]
    split
    · rfl
    · exact ih _

theorem MMC_receive_ocr_bf_eq (card : Nat → Nat) (bf : Nat → Nat → Bool) (fuel : Nat)
    (H : Completes bf fuel) (s : MMC) :
    MMC_receive_ocr_bf card bf fuel s = some (MMC_receive_ocr card s) := by
  unfold MMC_receive_ocr_bf MMC_receive_ocr
  simp only [MMC_SendSPI_bf_eq card bf fuel H, Option.some_bind]

theorem MMC_identify_sd2_bf_eq (card : Nat → Nat) (bf : Nat → Nat → Bool) (fuel : Nat)
    (H : Completes bf fuel) (s : MMC) :
    MMC_identify_sd2_bf card bf fuel s = some (MMC_identify_sd2 card s) := by
  unfold MMC_identify_sd2_bf MMC_identify_sd2
  rw [MMC_receive_ocr_bf_eq card bf fuel H, Option.some_bind]
  dsimp only
  split
  · rw [MMC_idle_loop_bf_eq card bf fuel H, Option.some_bind]
    split
    · rw [MMC_send_cmd_bf_eq card bf fuel H, Option.some_bind]
      split
      · rw [MMC_receive_ocr_bf_eq card bf fuel H, Option.some_bind]
      · rfl
    · rfl
  · rfl

theorem MMC_identify_sd1_bf_eq (card : Nat → Nat) (bf : Nat → Nat → Bool) (fuel : Nat)
    (H : Completes bf fuel) (s : MMC) :
    MMC_identify_sd1_bf card bf fuel s = some (MMC_identify_sd1 card s) := by
  unfold MMC_identify_sd1_bf MMC_identify_sd1
  rw [MMC_send_cmd_bf_eq card bf fuel H, Option.some_bind,
    MMC_idle_loop_bf_eq card bf fuel H, Option.some_bind]
  dsimp only
  by_cases hw : (MMC_idle_loop card
      (if (MMC_send_cmd card ACMD41 0 s).1 ≤ 1 then ACMD41 else CMD1) 0 1000
      (MMC_send_cmd card ACMD41 0 s).2).1 = 0
  · rw [if_pos hw, if_pos hw]
  · rw [if_neg hw, if_neg hw, MMC_send_cmd_bf_eq card bf fuel H, Option.some_bind]

theorem MMC_identify_bf_eq (card : Nat → Nat) (bf : Nat → Nat → Bool) (fuel : Nat)
    (H : Completes bf fuel) (s : MMC) :
    MMC_identify_bf card bf fuel s = some (MMC_identify card s) := by
  unfold MMC_identify_bf MMC_identify
  rw [MMC_send_cmd_bf_eq card bf fuel H, Option.some_bind]
  dsimp only
  split
  · rw [MMC_send_cmd_bf_eq card bf fuel H, Option.some_bind]
    split
    · exact MMC_identify_sd2_bf_eq card bf fuel H _
    · exact MMC_identify_sd1_bf_eq card bf fuel H _
  · rfl

theorem disk_initialize_bf_eq (card : Nat → Nat) (bf : Nat → Nat → Bool) (fuel : Nat)
    (H : Completes bf fuel) (pdrv : Nat) (s : MMC) :
    disk_initialize_bf card bf fuel pdrv s = some ( disk_initialize card pdrv s) := by
  unfold disk_initialize_bf disk_initialize
  split
  · rfl
  · split
    · rfl
    · rw [MMC_dummy_clocks_bf_eq card bf fuel H, Option.some_bind,
        MMC_identify_bf_eq card bf fuel H, Option.some_bind,
        MMC_deselect_bf_eq card bf fuel H, Option.some_bind]

theorem disk_initialize_bf_stuck (card : Nat → Nat) (bf : Nat → Nat → Bool) (fuel : Nat)
    (s : MMC) (hnd : s.DiskStat &&& STA_NODISK = 0) (h : ∀ i, bf s.pos i = false) :
    disk_initialize_bf card bf fuel DEV_MMC s = none := by
  unfold disk_initialize_bf
  rw [if_neg (fun hne => hne rfl), if_neg (fun hne => hne hnd), MMC_dummy_clocks_bf,
    MMC_SendSPI_bf_stuck card bf fuel _ s h]
  rfl

theorem MMC_identify_sd2_never_state (card : Nat → Nat) (s : MMC)
    (h2 : (MMC_receive_ocr card s).1.getD 2 0 = 0x01)
    (h3 : (MMC_receive_ocr card s).1.getD 3 0 = 0xAA)
    (hn : NeverReady card ACMD41 (2 ^ 30) (MMC_receive_ocr card s).2) :
    MMC_identify_sd2 card s =
      (0, probes card ACMD41 (2 ^ 30) 1000 (MMC_receive_ocr card s).2) := by
  have hl := MMC_idle_loop_never card ACMD41 (2 ^ 30) 1000 _ hn
  unfold MMC_identify_sd2
  rw [if_pos ⟨h2, h3⟩]
  dsimp only
  rw [hl, if_neg (fun hne => hne rfl)]

theorem MMC_identify_sd1_never_state (card : Nat → Nat) (s : MMC)
    (hn : NeverReady card (if (MMC_send_cmd card ACMD41 0 s).1 ≤ 1 then ACMD41 else CMD1) 0
      (MMC_send_cmd card ACMD41 0 s).2) :
    MMC_identify_sd1 card s =
      (0, probes card (if (MMC_send_cmd card ACMD41 0 s).1 ≤ 1 then ACMD41 else CMD1) 0 1000
        (MMC_send_cmd card ACMD41 0 s).2) := by
  have hl := MMC_idle_loop_never card _ 0 1000 _ hn
  unfold MMC_identify_sd1
  dsimp only
  rw [hl, if_pos rfl]

theorem disk_initialize_failed_state (card : Nat → Nat) (s t : MMC)
    (hnd : s.DiskStat &&& STA_NODISK = 0)
    (hi : MMC_identify card (MMC_dummy_clocks card 10 s) = (0, t)) :
    ( disk_initialize card DEV_MMC s).2 = MMC_deselect card { t with CardType := 0 } := by
  unfold disk_initialize
  rw [if_neg (fun hne => hne rfl), if_neg (fun hne => hne hnd)]
  dsimp only
  rw [hi, if_neg (fun hne => hne rfl)]

/-- C15, the claim as stated, refuted: `MMC_SendSPI` waits for the
transfer-complete flag in `while(!SSP2STATbits.BF) ;`, a loop without a
counter.  With a peripheral whose flag is never set, `disk_initialize` called
at power-on does not return, however many reads of the flag are followed, and
whatever the card (here an SD version 2 card that answers every command); and
for every `n` there is a peripheral for which that loop finds the flag clear
`n` times before it ends, so its iteration count has no bound. -/
theorem initialize_flag_wait_counterexample :
    (∀ fuel, disk_initialize_bf cardSD2 bfStuck fuel DEV_MMC (powerOn true false false) = none) ∧
    (∀ n, MMC_wait_BF (bfAfter n 0) (n + 1) 0 = some n) :=
  ⟨fun fuel => disk_initialize_bf_stuck cardSD2 bfStuck fuel (powerOn true false false)
      (by decide) (fun _ => rfl),
    fun n => MMC_wait_BF_after 0 n (n + 1) (Nat.lt_succ_self n)⟩

/-- C15, amended: provided the peripheral completes every exchange (at each
exchange one of the first `fuel` reads of the transfer-complete flag finds it
set; the wait for it in `MMC_SendSPI` is the one loop without a counter),
`disk_initialize` returns for every card response stream, with the result the
stream model gives, after at most 10080171 bus exchanges, every other loop of
it and of its helpers being bounded by its counter.  A polling loop whose probe
never reports ready issues the probe exactly 1000 times and ends with
`tmr = 0`, each probe being a bus transaction of its own.  In a run of
`disk_initialize` where the card enters idle state (CMD0 answered 1) and the
probe of the branch taken never returns 0, the run ends in the state reached by
exactly 1000 successive probes from the state at the entry of the loop,
followed by the deselect alone (on the SD version 1 / MMC branch CMD16 is not
sent); `CardType` is 0 and the returned status still has `Uninitialized` set
when it was set on entry. -/
theorem initialize_bounded_polling (card : Nat → Nat) (bf : Nat → Nat → Bool) (fuel : Nat)
    (s s1 : MMC) (c0 c8 : Nat × MMC)
    (hs1 : s1 = MMC_dummy_clocks card 10 s)
    (hc0 : c0 = MMC_send_cmd card CMD0 0 s1)
    (hc8 : c8 = MMC_send_cmd card CMD8 0x1AA c0.2) :
    (Completes bf fuel → ∀ pdrv,
      disk_initialize_bf card bf fuel pdrv s = some ( disk_initialize card pdrv s)) ∧
    (∀ pdrv, ( disk_initialize card pdrv s).2.pos ≤ s.pos + 10080171) ∧
    (∀ cmd arg t, NeverReady card cmd arg t →
      MMC_idle_loop card cmd arg 1000 t = (0, probes card cmd arg 1000 t) ∧
      ∀ i, (probes card cmd arg i t).pos < (probes card cmd arg (i + 1) t).pos) ∧
    (s.DiskStat &&& STA_NODISK = 0 → s.DiskStat &&& STA_NOINIT ≠ 0 → c0.1 = 1 →
      (c8.1 = 1 → (MMC_receive_ocr card c8.2).1.getD 2 0 = 0x01 →
        (MMC_receive_ocr card c8.2).1.getD 3 0 = 0xAA →
        NeverReady card ACMD41 (2 ^ 30) (MMC_receive_ocr card c8.2).2 →
        ( disk_initialize card DEV_MMC s).2 =
          MMC_deselect card
            { probes card ACMD41 (2 ^ 30) 1000 (MMC_receive_ocr card c8.2).2 with
              CardType := 0 } ∧
        ( disk_initialize card DEV_MMC s).2.CardType = 0 ∧
        ( disk_initialize card DEV_MMC s).1 &&& STA_NOINIT ≠ 0) ∧
      (c8.1 ≠ 1 →
        NeverReady card (if (MMC_send_cmd card ACMD41 0 c8.2).1 ≤ 1 then ACMD41 else CMD1) 0
          (MMC_send_cmd card ACMD41 0 c8.2).2 →
        ( disk_initialize card DEV_MMC s).2 =
          MMC_deselect card
            { probes card (if (MMC_send_cmd card ACMD41 0 c8.2).1 ≤ 1 then ACMD41 else CMD1)
                0 1000 (MMC_send_cmd card ACMD41 0 c8.2).2 with
              CardType := 0 } ∧
        ( disk_initialize card DEV_MMC s).2.CardType = 0 ∧
        ( disk_initialize card DEV_MMC s).1 &&& STA_NOINIT ≠ 0)) := by
  subst hs1
  subst hc0
  subst hc8
  refine ⟨fun H pdrv => disk_initialize_bf_eq card bf fuel H pdrv s,
    fun pdrv => disk_initialize_pos card pdrv s, fun cmd arg t hn =>
    ⟨MMC_idle_loop_never card cmd arg 1000 t hn, fun i => probes_pos_lt card cmd arg i t⟩, ?_⟩
  intro hnd hni hidle
  have key : ∀ t, MMC_identify card (MMC_dummy_clocks card 10 s) = (0, t) →
      ( disk_initialize card DEV_MMC s).2 = MMC_deselect card { t with CardType := 0 } ∧
      ( disk_initialize card DEV_MMC s).2.CardType = 0 ∧
      ( disk_initialize card DEV_MMC s).1 &&& STA_NOINIT ≠ 0 := by
    intro t hi
    have hct : ( disk_initialize card DEV_MMC s).2.CardType = 0 := by
      rw [ disk_initialize_CardType card s hnd, hi]
    refine ⟨disk_initialize_failed_state card s t hnd hi, hct, ?_⟩
    rw [( disk_initialize_failed card s hnd hct).1]
    exact hni
  refine ⟨fun h8 e2 e3 hn => key _ ?_, fun h8 hn => key _ ?_⟩
  · unfold MMC_identify
    dsimp only
    rw [if_pos hidle, if_pos h8]
    exact MMC_identify_sd2_never_state card _ e2 e3 hn
  · unfold MMC_identify
    dsimp only
    rw [if_pos hidle, if_neg h8]
    exact MMC_identify_sd1_never_state card _ hn

/-- C15 at power-on with a peripheral whose flag is set at the third read of
each exchange and a card that answers idle to CMD0 and then nothing more: the
run returns the result of the stream model; the probe (CMD1) never reports
ready, the run ends in the state of 1000 successive probes followed by the
deselect, `CardType` ends as 0 and the returned status keeps `Uninitialized`. -/
theorem initialize_bounded_polling_witness :
    disk_initialize_bf cardIdleOnly (bfAfter 2) 3 DEV_MMC (powerOn true false false) =
      some ( disk_initialize cardIdleOnly DEV_MMC (powerOn true false false)) ∧
    ( disk_initialize cardIdleOnly DEV_MMC (powerOn true false false)).2 =
      MMC_deselect cardIdleOnly
        { probes cardIdleOnly
            (if (MMC_send_cmd cardIdleOnly ACMD41 0
              (initCmd8 cardIdleOnly (powerOn true false false)).2).1 ≤ 1
              then ACMD41 else CMD1) 0 1000
            (MMC_send_cmd cardIdleOnly ACMD41 0
              (initCmd8 cardIdleOnly (powerOn true false false)).2).2 with
          CardType := 0 } ∧
    ( disk_initialize cardIdleOnly DEV_MMC (powerOn true false false)).2.CardType = 0 ∧
    ( disk_initialize cardIdleOnly DEV_MMC (powerOn true false false)).1 &&& STA_NOINIT ≠ 0 :=
  ⟨(initialize_bounded_polling cardIdleOnly (bfAfter 2) 3 (powerOn true false false)
      _ _ _ rfl rfl rfl).1 (Completes_bfAfter 2 3 (by decide)) DEV_MMC,
    (initialize_bounded_polling cardIdleOnly (bfAfter 2) 3 (powerOn true false false)
      _ _ _ rfl rfl rfl).2.2.2
      (by decide) (by decide) (by decide) |>.2 (by decide)
      (NeverReady_of_silent cardIdleOnly 20 _ 0 _ (by decide)
        (fun j hj => by
          have hne : j ≠ 19 := by omega
          simp [cardIdleOnly, hne])
        (by decide))⟩

/-! ## What every reachable state satisfies -/

theorem MMC_identify_sd2_type (card : Nat → Nat) (s : MMC) :
    (MMC_identify_sd2 card s).1 = 0 ∨
    ((MMC_receive_ocr card s).1.getD 2 0 = 0x01 ∧ (MMC_receive_ocr card s).1.getD 3 0 = 0xAA ∧
      (MMC_idle_loop card ACMD41 (2 ^ 30) 1000 (MMC_receive_ocr card s).2).1 ≠ 0 ∧
      (MMC_send_cmd card CMD58 0
        (MMC_idle_loop card ACMD41 (2 ^ 30) 1000 (MMC_receive_ocr card s).2).2).1 = 0 ∧
      (MMC_identify_sd2 card s).1 =
        if (MMC_receive_ocr card (MMC_send_cmd card CMD58 0
            (MMC_idle_loop card ACMD41 (2 ^ 30) 1000 (MMC_receive_ocr card s).2).2).2).1.getD 0 0
            &&& 0x40 ≠ 0
        then CT_SD2 ||| CT_BLOCK else CT_SD2) := by
  by_cases he : (MMC_receive_ocr card s).1.getD 2 0 = 0x01 ∧
      (MMC_receive_ocr card s).1.getD 3 0 = 0xAA
  · by_cases hw : (MMC_idle_loop card ACMD41 (2 ^ 30) 1000 (MMC_receive_ocr card s).2).1 ≠ 0
    · by_cases h58 : (MMC_send_cmd card CMD58 0
          (MMC_idle_loop card ACMD41 (2 ^ 30) 1000 (MMC_receive_ocr card s).2).2).1 = 0
      · refine Or.inr ⟨he.1, he.2, hw, h58, ?_⟩
        unfold MMC_identify_sd2
        rw [if_pos he]
        dsimp only
        rw [if_pos hw, if_pos h58]
      · left
        unfold MMC_identify_sd2
        rw [if_pos he]
        dsimp only
        rw [if_pos hw, if_neg h58]
    · left
      unfold MMC_identify_sd2
      rw [if_pos he]
      dsimp only
      rw [if_neg hw]
  · left
    unfold MMC_identify_sd2
    rw [if_neg he]

theorem MMC_identify_sd1_type (card : Nat → Nat) (s : MMC) :
    (MMC_identify_sd1 card s).1 = 0 ∨ (MMC_identify_sd1 card s).1 = CT_MMC ∨
    (MMC_identify_sd1 card s).1 = CT_SD1 := by
  unfold MMC_identify_sd1
  dsimp only
  by_cases hle : (MMC_send_cmd card ACMD41 0 s).1 ≤ 1
  · simp only [if_pos hle]
    split
    · exact Or.inl rfl
    · dsimp only
      split
      · exact Or.inl rfl
      · exact Or.inr (Or.inr rfl)
  · simp only [if_neg hle]
    split
    · exact Or.inl rfl
    · dsimp only
      split
      · exact Or.inl rfl
      · exact Or.inr (Or.inl rfl)

theorem MMC_identify_CardTypeOk (card : Nat → Nat) (s : MMC) :
    CardTypeOk (MMC_identify card s).1 := by
  unfold MMC_identify
  dsimp only
  split
  · split
    · rcases MMC_identify_sd2_type card (MMC_send_cmd card CMD8 0x1AA
        (MMC_send_cmd card CMD0 0 s).2).2 with h | ⟨_, _, _, _, h⟩
      · exact Or.inl h
      · rw [h]
        split
        · exact Or.inr (Or.inr (Or.inr (Or.inr rfl)))
        · exact Or.inr (Or.inr (Or.inr (Or.inl rfl)))
    · rcases MMC_identify_sd1_type card (MMC_send_cmd card CMD8 0x1AA
        (MMC_send_cmd card CMD0 0 s).2).2 with h | h | h
      · exact Or.inl h
      · exact Or.inr (Or.inl h)
      · exact Or.inr (Or.inr (Or.inl h))
  · exact Or.inl rfl

theorem disk_initialize_skipped (card : Nat → Nat) (pdrv : Nat) (s : MMC)
    (h : pdrv ≠ DEV_MMC ∨ s.DiskStat &&& STA_NODISK ≠ 0) :
    ( disk_initialize card pdrv s).2 = s := by
  unfold disk_initialize
  by_cases hp : pdrv ≠ DEV_MMC
  · rw [if_pos hp]
  · rw [if_neg hp]
    rcases h with h | h
    · exact absurd h hp
    · rw [if_pos h]

theorem CardTypeOk_block (ct : Nat) (h : CardTypeOk ct) (hb : ct &&& CT_BLOCK ≠ 0) :
    ct = CT_SD2 ||| CT_BLOCK := by
  rcases h with h | h | h | h | h
  · subst h; exact absurd (by decide) hb
  · subst h; exact absurd (by decide) hb
  · subst h; exact absurd (by decide) hb
  · subst h; exact absurd (by decide) hb
  · exact h

theorem Reachable_CardTypeOk (s : MMC) (h : Reachable s) : CardTypeOk s.CardType := by
  induction h with
  | by_power_on cs ins iocf => exact Or.inl rfl
  | by_pins s ins iocf _ ih => exact ih
  | by_Init s _ _ =>
    unfold MMC_Init
    dsimp only
    split
    · exact Or.inl rfl
    · exact Or.inl rfl
  | by_Interrupt s _ ih =>
    unfold MMC_Interrupt
    split
    · dsimp only
      split
      · exact Or.inl rfl
      · exact Or.inl rfl
    · exact ih
  | by_Eject s _ ih => exact ih
  | by_disk_init card pdrv s _ ih =>
    by_cases hk : pdrv ≠ DEV_MMC ∨ s.DiskStat &&& STA_NODISK ≠ 0
    · rw [ disk_initialize_skipped card pdrv s hk]; exact ih
    · have hp : pdrv = DEV_MMC := by
        by_contra hne; exact hk (Or.inl hne)
      have hnd : s.DiskStat &&& STA_NODISK = 0 := by
        by_contra hne; exact hk (Or.inr hne)
      subst hp
      rw [ disk_initialize_CardType card s hnd]
      exact MMC_identify_CardTypeOk card _
  | by_disk_read card pdrv sector count s _ ih =>
    rw [drive_CardType _ _ (disk_read_drive card pdrv sector count s)]; exact ih
  | by_disk_write card pdrv buff sector count s _ ih =>
    rw [drive_CardType _ _ (disk_write_drive card pdrv buff sector count s)]; exact ih
  | by_disk_ioctl card pdrv cmd s _ ih =>
    rw [drive_CardType _ _ (disk_ioctl_drive card pdrv cmd s)]; exact ih

theorem noinit_protect : STA_NOINIT &&& STA_PROTECT = 0 := by decide

theorem noinit_nodisk_protect : (STA_NOINIT ||| STA_NODISK) &&& STA_PROTECT = 0 := by decide

theorem Reachable_protect_clear (s : MMC) (h : Reachable s) :
    s.DiskStat &&& STA_PROTECT = 0 := by
  induction h with
  | by_power_on cs ins iocf => exact noinit_protect
  | by_pins s ins iocf _ ih => exact ih
  | by_Init s _ _ =>
    unfold MMC_Init
    dsimp only
    split
    · exact noinit_protect
    · exact noinit_nodisk_protect
  | by_Interrupt s _ ih =>
    unfold MMC_Interrupt
    split
    · dsimp only
      split
      · exact noinit_protect
      · exact noinit_nodisk_protect
    · exact ih
  | by_Eject s _ ih => exact noinit_nodisk_protect
  | by_disk_init card pdrv s _ ih =>
    by_cases hk : pdrv ≠ DEV_MMC ∨ s.DiskStat &&& STA_NODISK ≠ 0
    · rw [ disk_initialize_skipped card pdrv s hk]; exact ih
    · have hp : pdrv = DEV_MMC := by
        by_contra hne; exact hk (Or.inl hne)
      have hnd : s.DiskStat &&& STA_NODISK = 0 := by
        by_contra hne; exact hk (Or.inr hne)
      subst hp
      rw [ disk_initialize_DiskStat card s hnd]
      split
      · rw [clear_noinit_protect]; exact ih
      · exact ih
  | by_disk_read card pdrv sector count s _ ih =>
    rw [drive_DiskStat _ _ (disk_read_drive card pdrv sector count s)]; exact ih
  | by_disk_write card pdrv buff sector count s _ ih =>
    rw [drive_DiskStat _ _ (disk_write_drive card pdrv buff sector count s)]; exact ih
  | by_disk_ioctl card pdrv cmd s _ ih =>
    rw [drive_DiskStat _ _ (disk_ioctl_drive card pdrv cmd s)]; exact ih

theorem disk_write_wrprt (card : Nat → Nat) (pdrv : Nat) (buff : Nat → Nat)
    (sector count : Nat) (s : MMC)
    (h : (disk_write card pdrv buff sector count s).1 = RES_WRPRT) :
    s.DiskStat &&& STA_PROTECT ≠ 0 := by
  intro hp
  unfold disk_write at h
  dsimp only at h
  split_ifs at h with h0 h1 h2
  exact h2 hp

theorem MMC_identify_sd2_value (card : Nat → Nat) (s : MMC)
    (h2 : (MMC_receive_ocr card s).1.getD 2 0 = 0x01)
    (h3 : (MMC_receive_ocr card s).1.getD 3 0 = 0xAA)
    (hw : (MMC_idle_loop card ACMD41 (2 ^ 30) 1000 (MMC_receive_ocr card s).2).1 ≠ 0)
    (h58 : (MMC_send_cmd card CMD58 0
        (MMC_idle_loop card ACMD41 (2 ^ 30) 1000 (MMC_receive_ocr card s).2).2).1 = 0) :
    (MMC_identify_sd2 card s).1 =
      if (MMC_receive_ocr card (MMC_send_cmd card CMD58 0
          (MMC_idle_loop card ACMD41 (2 ^ 30) 1000 (MMC_receive_ocr card s).2).2).2).1.getD 0 0
          &&& 0x40 ≠ 0
      then CT_SD2 ||| CT_BLOCK else CT_SD2 := by
  unfold MMC_identify_sd2
  rw [if_pos ⟨h2, h3⟩]
  dsimp only
  rw [if_pos hw, if_pos h58]

theorem MMC_identify_of_ReadsOcr (card : Nat → Nat) (s : MMC) (h : ReadsOcr card s) :
    (MMC_identify card (MMC_dummy_clocks card 10 s)).1 =
      if (initOcr card s).1.getD 0 0 &&& 0x40 ≠ 0 then CT_SD2 ||| CT_BLOCK else CT_SD2 := by
  obtain ⟨h0, h8, h2, h3, hw, h58⟩ := h
  have h0e : (MMC_send_cmd card CMD0 0 (MMC_dummy_clocks card 10 s)).1 = 1 := h0
  have h8e : (MMC_send_cmd card CMD8 0x1AA
      (MMC_send_cmd card CMD0 0 (MMC_dummy_clocks card 10 s)).2).1 = 1 := h8
  unfold MMC_identify
  dsimp only
  rw [if_pos h0e, if_pos h8e]
  exact MMC_identify_sd2_value card _ h2 h3 hw h58

theorem ReadsOcr_of_sd2 (card : Nat → Nat) (s : MMC)
    (h : (MMC_identify card (MMC_dummy_clocks card 10 s)).1 &&& CT_SD2 ≠ 0) :
    ReadsOcr card s := by
  unfold MMC_identify at h
  dsimp only at h
  by_cases h0 : (MMC_send_cmd card CMD0 0 (MMC_dummy_clocks card 10 s)).1 = 1
  · rw [if_pos h0] at h
    by_cases h8 : (MMC_send_cmd card CMD8 0x1AA
        (MMC_send_cmd card CMD0 0 (MMC_dummy_clocks card 10 s)).2).1 = 1
    · rw [if_pos h8] at h
      rcases MMC_identify_sd2_type card (MMC_send_cmd card CMD8 0x1AA
        (MMC_send_cmd card CMD0 0 (MMC_dummy_clocks card 10 s)).2).2 with hz | ⟨h2, h3, hw, h58, _⟩
      · rw [hz] at h; exact absurd (by decide) h
      · exact ⟨h0, h8, h2, h3, hw, h58⟩
    · rw [if_neg h8] at h
      rcases MMC_identify_sd1_type card (MMC_send_cmd card CMD8 0x1AA
        (MMC_send_cmd card CMD0 0 (MMC_dummy_clocks card 10 s)).2).2 with hz | hz | hz
      · rw [hz] at h; exact absurd (by decide) h
      · rw [hz] at h; exact absurd (by decide) h
      · rw [hz] at h; exact absurd (by decide) h
  · rw [if_neg h0] at h
    exact absurd (Nat.zero_and _) h

theorem MMC_identify_sd2_iff (card : Nat → Nat) (s : MMC) :
    (MMC_identify card (MMC_dummy_clocks card 10 s)).1 &&& CT_SD2 ≠ 0 ↔ ReadsOcr card s := by
  refine ⟨ReadsOcr_of_sd2 card s, fun h => ?_⟩
  rw [MMC_identify_of_ReadsOcr card s h]
  split <;> decide

theorem MMC_identify_block_iff (card : Nat → Nat) (s : MMC) :
    (MMC_identify card (MMC_dummy_clocks card 10 s)).1 &&& CT_BLOCK ≠ 0 ↔
      ReadsOcr card s ∧ (initOcr card s).1.getD 0 0 &&& 0x40 ≠ 0 := by
  constructor
  · intro hb
    have hok := CardTypeOk_block _ (MMC_identify_CardTypeOk card (MMC_dummy_clocks card 10 s)) hb
    have hr : ReadsOcr card s := by
      apply ReadsOcr_of_sd2
      rw [hok]; decide
    refine ⟨hr, ?_⟩
    rw [MMC_identify_of_ReadsOcr card s hr] at hb
    by_cases hbit : (initOcr card s).1.getD 0 0 &&& 0x40 ≠ 0
    · exact hbit
    · rw [if_neg hbit] at hb
      exact absurd (by decide) hb
  · rintro ⟨hr, hbit⟩
    rw [MMC_identify_of_ReadsOcr card s hr, if_pos hbit]
    decide

theorem initOcr_first (card : Nat → Nat) (s : MMC) :
    (initOcr card s).1.getD 0 0 = card (initCmd58 card s).2.pos % 256 := by
  unfold initOcr
  generalize (initCmd58 card s).2 = t
  cases t; rfl

theorem Reachable_block_origin (t : MMC) (h : Reachable t)
    (hb : t.CardType &&& CT_BLOCK ≠ 0) :
    ∃ card s, Reachable s ∧ s.DiskStat &&& STA_NODISK = 0 ∧ ReadsOcr card s ∧
      (initOcr card s).1.getD 0 0 &&& 0x40 ≠ 0 := by
  induction h with
  | by_power_on cs ins iocf => exact absurd (Nat.zero_and _) hb
  | by_pins s ins iocf _ ih => exact ih hb
  | by_Init s _ _ =>
    exfalso
    revert hb
    unfold MMC_Init
    dsimp only
    split <;> exact fun hb => hb (Nat.zero_and _)
  | by_Interrupt s _ ih =>
    revert hb
    unfold MMC_Interrupt
    split
    · dsimp only
      split <;> exact fun hb => absurd (Nat.zero_and _) hb
    · exact ih
  | by_Eject s _ ih => exact ih hb
  | by_disk_init card pdrv s hs ih =>
    by_cases hk : pdrv ≠ DEV_MMC ∨ s.DiskStat &&& STA_NODISK ≠ 0
    · rw [ disk_initialize_skipped card pdrv s hk] at hb; exact ih hb
    · have hp : pdrv = DEV_MMC := by
        by_contra hne; exact hk (Or.inl hne)
      have hnd : s.DiskStat &&& STA_NODISK = 0 := by
        by_contra hne; exact hk (Or.inr hne)
      subst hp
      rw [ disk_initialize_CardType card s hnd] at hb
      exact ⟨card, s, hs, hnd, (MMC_identify_block_iff card s).mp hb⟩
  | by_disk_read card pdrv sector count s _ ih =>
    rw [drive_CardType _ _ (disk_read_drive card pdrv sector count s)] at hb; exact ih hb
  | by_disk_write card pdrv buff sector count s _ ih =>
    rw [drive_CardType _ _ (disk_write_drive card pdrv buff sector count s)] at hb; exact ih hb
  | by_disk_ioctl card pdrv cmd s _ ih =>
    rw [drive_CardType _ _ (disk_ioctl_drive card pdrv cmd s)] at hb; exact ih hb

/-! ## C21: the values of `CardType` -/

/-- C21: in every state `t` reachable from power-on by any sequence of driver
calls, pin changes and card responses, `CardType` is one of the five values 0,
`CT_MMC`, `CT_SD1`, `CT_SD2` and `CT_SD2 | CT_BLOCK`, and the block-addressing
flag is only set together with the SD version 2 flag.  The flag is set exactly
when bit 0x40 of the first register byte returned behind CMD58 is set: a call
of `disk_initialize` against any card that gets past the `STA_NODISK` check
leaves `CT_BLOCK` set if and only if the run reads the operating-condition
register (CMD58 answered 0 on the SD version 2 path) and bit 0x40 of the first
byte read, which is the byte the card delivers in the exchange right after the
CMD58 response, is set; it leaves `CT_SD2` set if and only if the run reads
that register; and a reachable state with `CT_BLOCK` set owes it to such a run
from a reachable state. -/
theorem card_type_five_values (t : MMC) (h : Reachable t) :
    CardTypeOk t.CardType ∧
    (t.CardType &&& CT_BLOCK ≠ 0 → t.CardType &&& CT_SD2 ≠ 0) ∧
    (t.CardType &&& CT_BLOCK ≠ 0 →
      ∃ card s, Reachable s ∧ s.DiskStat &&& STA_NODISK = 0 ∧ ReadsOcr card s ∧
        (initOcr card s).1.getD 0 0 &&& 0x40 ≠ 0) ∧
    (∀ card, t.DiskStat &&& STA_NODISK = 0 →
      (( disk_initialize card DEV_MMC t).2.CardType &&& CT_BLOCK ≠ 0 ↔
        ReadsOcr card t ∧ (initOcr card t).1.getD 0 0 &&& 0x40 ≠ 0) ∧
      (( disk_initialize card DEV_MMC t).2.CardType &&& CT_SD2 ≠ 0 ↔ ReadsOcr card t) ∧
      (initOcr card t).1.getD 0 0 = card (initCmd58 card t).2.pos % 256) := by
  refine ⟨Reachable_CardTypeOk t h, fun hb => ?_, Reachable_block_origin t h, fun card hnd => ?_⟩
  · rw [CardTypeOk_block _ (Reachable_CardTypeOk t h) hb]; decide
  · rw [ disk_initialize_CardType card t hnd]
    exact ⟨MMC_identify_block_iff card t, MMC_identify_sd2_iff card t, initOcr_first card t⟩

/-- C21 at the state reached from power-on by `MMC_Init` and an initialization
against an SD version 2 card whose register starts with 0xC0: `CardType` is
`CT_SD2 | CT_BLOCK`, one of the five values, and a further initialization
against the same card sets the flag again. -/
theorem card_type_five_values_witness :
    ( disk_initialize cardSD2 DEV_MMC (MMC_Init (powerOn true false false))).2.CardType =
      CT_SD2 ||| CT_BLOCK ∧
    CardTypeOk
      ( disk_initialize cardSD2 DEV_MMC (MMC_Init (powerOn true false false))).2.CardType ∧
    ( disk_initialize cardSD2 DEV_MMC
      ( disk_initialize cardSD2 DEV_MMC (MMC_Init (powerOn true false false))).2).2.CardType
      &&& CT_BLOCK ≠ 0 :=
  ⟨by decide,
    (card_type_five_values _
      (Reachable.by_disk_init cardSD2 DEV_MMC _
        (Reachable.by_Init _ (Reachable.by_power_on true false false)))).1,
    ((card_type_five_values _
      (Reachable.by_disk_init cardSD2 DEV_MMC _
        (Reachable.by_Init _ (Reachable.by_power_on true false false)))).2.2.2 cardSD2
      (by decide)).1.mpr ⟨by decide, by decide⟩⟩

/-! ## C22: the write-protect flag -/

/-- C22: in every state `s` reachable from power-on (`DiskStat = STA_NOINIT`)
by any sequence of `MMC_Init`, `MMC_Interrupt`, `MMC_Eject`, `disk_initialize`,
`disk_read`, `disk_write` and `disk_ioctl` calls, with any arguments, cards and
pin changes, `STA_PROTECT` is clear in `DiskStat`, and so no call of
`disk_write` from `s` returns `RES_WRPRT`. -/
theorem write_protect_never_set (s : MMC) (h : Reachable s) :
    s.DiskStat &&& STA_PROTECT = 0 ∧
    ∀ (card : Nat → Nat) (pdrv : Nat) (buff : Nat → Nat) (sector count : Nat),
      (disk_write card pdrv buff sector count s).1 ≠ RES_WRPRT :=
  ⟨Reachable_protect_clear s h, fun card pdrv buff sector count hw =>
    disk_write_wrprt card pdrv buff sector count s hw (Reachable_protect_clear s h)⟩

/-- C22 at the state reached from power-on by `MMC_Init` and an initialization
against an SD version 2 card: the device is ready (`DiskStat = 0`),
`STA_PROTECT` is clear, and a single block write is not refused as
write-protected. -/
theorem write_protect_never_set_witness :
    ( disk_initialize cardSD2 DEV_MMC (MMC_Init (powerOn true false false))).2.DiskStat = 0 ∧
    ( disk_initialize cardSD2 DEV_MMC (MMC_Init (powerOn true false false))).2.DiskStat
      &&& STA_PROTECT = 0 ∧
    (disk_write cardSilent DEV_MMC (fun _ => 0) 0 1
      ( disk_initialize cardSD2 DEV_MMC (MMC_Init (powerOn true false false))).2).1
      ≠ RES_WRPRT :=
  ⟨by decide,
    (write_protect_never_set _
      (Reachable.by_disk_init cardSD2 DEV_MMC _
        (Reachable.by_Init _ (Reachable.by_power_on true false false)))).1,
    (write_protect_never_set _
      (Reachable.by_disk_init cardSD2 DEV_MMC _
        (Reachable.by_Init _ (Reachable.by_power_on true false false)))).2
      cardSilent DEV_MMC (fun _ => 0) 0 1⟩

end PIC16F_MMC
